import Mathlib

/-!
# The TLB fault handler of the demand-paging VM (`kern/vm/vm_tlb.c`)

A shallow embedding of `address_segment`, `vm_fault` and `tlb_get_rr_victim`.

* `vaddr_t`, `paddr_t`, `size_t` and `uint32_t` are 32-bit unsigned: they are
  natural numbers, reduced modulo `2^32` wherever the C arithmetic can wrap.
* The global mutable state touched by the handler (the hardware TLB, the
  round-robin cursor, the three static counters, the interrupt priority level)
  is the record `VmState`; every call the handler makes to a collaborator and
  every TLB access is appended to `VmState.trace`.
* The collaborators whose code is not in these two files (`ipt_lookup`,
  `as_prepare_load`, `get_victim`, `pid_getas`, `swap_out`, `ipt_add`,
  `swap_in`, `load_page`) are each called at most once per fault; the record
  `Env` holds the answer each of them gives.
-/

namespace VmTlb

/-! ## Constants of the machine and of the kernel headers -/

/-- Modelled from the spec: `PAGE_SIZE` is a configuration constant declared in
`<mips/vm.h>`, which is not among the sources; the machine is a 32-bit MIPS, and
4096 is the value OS/161 gives it there. -/
def PAGE_SIZE : Nat := 4096

/-- Modelled from the spec: `PAGE_FRAME`, the mask of the page number of an
address (`<mips/vm.h>`, not among the sources); aligning is `va & PAGE_FRAME`.
With 4096-byte pages and 32-bit addresses the mask is `0xfffff000`. -/
def PAGE_FRAME : Nat := 0xfffff000

/-- Modelled from the spec: `USERSTACK`, the top of the user stack
(`<mips/vm.h>`, not among the sources); OS/161 puts it at the top of the user
half of the 32-bit address space, `0x80000000`. -/
def USERSTACK : Nat := 0x80000000

/-- The macro `DUMBVM_STACKPAGES` of `vm_tlb.c`, line 36. -/
def DUMBVM_STACKPAGES : Nat := 18

/-- Modelled from the spec: `NUM_TLB`, the number of TLB entries
(`<mips/tlb.h>`, not among the sources); 64 on the MIPS of OS/161. -/
def NUM_TLB : Nat := 64

/-- Modelled from the spec: `TLBLO_DIRTY`, the writable bit of the `lo` word of
a TLB entry (`<mips/tlb.h>`, not among the sources); bit 10 on the MIPS of
OS/161. -/
def TLBLO_DIRTY : Nat := 0x00000400

/-- Modelled from the spec: `TLBLO_VALID`, the valid bit of the `lo` word of a
TLB entry (`<mips/tlb.h>`, not among the sources); bit 9 on the MIPS of
OS/161. -/
def TLBLO_VALID : Nat := 0x00000200

/-- Modelled from the spec: `TLBHI_INVALID(entryno)`, the `hi` word of the
invalid sentinel pair of slot `entryno` (`<mips/tlb.h>`, not among the
sources): a distinct kernel-space page per slot, `(0x80000 + entryno) << 12`. -/
def TLBHI_INVALID (entryno : Nat) : Nat := (0x80000 + entryno) * 4096

/-- Modelled from the spec: `TLBLO_INVALID()`, the `lo` word of the invalid
sentinel pair (`<mips/tlb.h>`, not among the sources). -/
def TLBLO_INVALID : Nat := 0

/-- Modelled from the spec: the error code `EFAULT` of `<kern/errno.h>`, which
is not among the sources; 6 in OS/161. It differs from the segment numbers 1, 2
and 3. -/
def EFAULT : Int := 6

/-- Modelled from the spec: the error code `EINVAL` of `<kern/errno.h>`, which
is not among the sources; 8 in OS/161. -/
def EINVAL : Int := 8

/-- Modelled from the spec: fault type `VM_FAULT_READ` of `<vm.h>`, which is
not among the sources. -/
def VM_FAULT_READ : Int := 0

/-- Modelled from the spec: fault type `VM_FAULT_WRITE` of `<vm.h>`, which is
not among the sources. -/
def VM_FAULT_WRITE : Int := 1

/-- Modelled from the spec: fault type `VM_FAULT_READONLY` of `<vm.h>`, which
is not among the sources. -/
def VM_FAULT_READONLY : Int := 2

/-- The number of values of a 32-bit unsigned integer. -/
def WORD : Nat := 2 ^ 32

/-- C's logical negation `!x` on an integer: 1 when `x` is zero, 0 otherwise. -/
def lnot (x : Nat) : Nat := if x = 0 then 1 else 0

/-! ## Data model -/

/-- The fields of `struct addrspace` that `vm_tlb.c` reads. -/
structure Addrspace where
  as_vbase1 : Nat
  as_npages1 : Nat
  as_vbase2 : Nat
  as_npages2 : Nat
deriving DecidableEq, Repr

/-- The fields of `struct proc` that `vm_tlb.c` reads: `p_pid`, and the address
space `proc_getas()` returns (`none` is `NULL`). -/
structure Proc where
  p_pid : Int
  p_addrspace : Option Addrspace
deriving DecidableEq, Repr

/-- One TLB entry: the pair `(entryhi, entrylo)`. -/
structure TlbEntry where
  hi : Nat
  lo : Nat
deriving DecidableEq, Repr

/-- What the handler does to the outside world, in program order. -/
inductive Event where
  | sys__exit (status : Int)
  | ipt_lookup (pid : Int) (vaddr : Nat)
  | as_prepare_load (npages : Nat)
  | get_victim
  | pid_getas (pid : Int)
  | swap_out (vaddr : Nat) (segment : Int)
  | splhigh
  | splx (spl : Nat)
  | tlb_probe (entryhi : Nat)
  | tlb_read (index : Nat)
  | tlb_write (entryhi : Nat) (entrylo : Nat) (index : Nat)
  | ipt_add (pid : Int) (paddr : Nat) (vaddr : Nat)
  | zero_fill (vaddr : Nat) (len : Nat)
  | swap_in (vaddr : Nat)
  | load_page (offset : Nat) (vaddr : Nat) (segment : Int)
deriving DecidableEq, Repr

/-- The mutable state the handler works on. `tlb` is the hardware TLB (slots
`0 .. NUM_TLB-1`), `next_victim` the static cursor of `tlb_get_rr_victim`, the
three counters are the statics of `vm_fault`, `ipl` is the interrupt priority
level of the CPU, and `trace` the events so far, oldest first. -/
structure VmState where
  tlb : Nat → TlbEntry
  next_victim : Nat
  count_tlb_miss : Int
  count_tlb_miss_free : Int
  count_tlb_miss_replace : Int
  ipl : Nat
  trace : List Event

/-- The answers of the collaborators during one fault. `curproc` is the current
process (`none` is `NULL`). `get_victim` yields the frame and, through its two
out-parameters, the virtual address and the pid of the victim. A result of
`swap_out`, `ipt_add`, `swap_in` or `load_page` is 0 for success (for `swap_in`:
found) and non-zero otherwise. None of them touches the TLB. -/
structure Env where
  curproc : Option Proc
  ipt_lookup : Int → Nat → Nat
  as_prepare_load : Nat → Nat
  get_victim : Nat × Nat × Int
  pid_getas : Int → Option Addrspace
  swap_out : Nat → Int → Int
  ipt_add : Int → Nat → Nat → Int
  swap_in : Nat → Int
  load_page : Nat → Nat → Int → Int

/-- How a call ends: it returns a value, or the process is terminated by
`sys__exit`, or the kernel panics (a failed `KASSERT`). Each carries the state
reached. -/
inductive Res (α : Type) where
  | ret (val : α) (s : VmState)
  | exited (status : Int) (s : VmState)
  | panic (s : VmState)

/-- The state a call ends in. -/
def Res.state {α : Type} : Res α → VmState
  | .ret _ s => s
  | .exited _ s => s
  | .panic s => s

/-- The value a call returns, if it returns. -/
def Res.val? {α : Type} : Res α → Option α
  | .ret v _ => some v
  | .exited _ _ => none
  | .panic _ => none

/-- The exit status, if the call ended in `sys__exit`. -/
def Res.exit? {α : Type} : Res α → Option Int
  | .ret _ _ => none
  | .exited st _ => some st
  | .panic _ => none

/-- Append one event to the trace. -/
def VmState.log (s : VmState) (e : Event) : VmState :=
  { s with trace := s.trace ++ [e] }

/-! ## `address_segment` (lines 38-82) -/

/-- The `KASSERT`s of `address_segment` on a non-`NULL` address space
(lines 46-51). -/
def as_asserts (as : Addrspace) : Prop :=
  as.as_vbase1 ≠ 0 ∧ as.as_npages1 ≠ 0 ∧ as.as_vbase2 ≠ 0 ∧ as.as_npages2 ≠ 0 ∧
  as.as_vbase1 &&& PAGE_FRAME = as.as_vbase1 ∧
  as.as_vbase2 &&& PAGE_FRAME = as.as_vbase2

instance (as : Addrspace) : Decidable (as_asserts as) := by
  unfold as_asserts; infer_instance

/-- `address_segment(faultaddress, as)`; `none` is a failed `KASSERT`
(`as = none` is `as == NULL`). The tops are computed in 32-bit arithmetic. -/
def address_segment (faultaddress : Nat) (as : Option Addrspace) : Option Int :=
  match as with
  | none => none
  | some as =>
    if as_asserts as then
      let vbase1 := as.as_vbase1
      let vtop1 := (vbase1 + as.as_npages1 * PAGE_SIZE) % WORD
      let vbase2 := as.as_vbase2
      let vtop2 := (vbase2 + as.as_npages2 * PAGE_SIZE) % WORD
      let stackbase := USERSTACK - DUMBVM_STACKPAGES * PAGE_SIZE
      let stacktop := USERSTACK
      if faultaddress ≥ vbase1 ∧ faultaddress < vtop1 then some 1
      else if faultaddress ≥ vbase2 ∧ faultaddress < vtop2 then some 2
      else if faultaddress ≥ stackbase ∧ faultaddress < stacktop then some 3
      else some EFAULT
    else none

/-! ## Hardware primitives -/

/-- Modelled from the spec: `splhigh()` (`<spl.h>`, not among the sources)
raises the interrupt priority level to the maximum and returns the old one. -/
def splhigh (s : VmState) : Nat × VmState :=
  (s.ipl, { s.log .splhigh with ipl := 1 })

/-- Modelled from the spec: `splx(spl)` (`<spl.h>`, not among the sources)
sets the interrupt priority level to `spl`. -/
def splx (spl : Nat) (s : VmState) : VmState :=
  { s.log (.splx spl) with ipl := spl }

/-- Modelled from the spec: `tlb_read(&hi, &lo, index)` (`<mips/tlb.h>`, not
among the sources) reads the TLB entry of slot `index`. -/
def tlb_read (index : Nat) (s : VmState) : TlbEntry × VmState :=
  (s.tlb index, s.log (.tlb_read index))

/-- Modelled from the spec: `tlb_write(hi, lo, index)` (`<mips/tlb.h>`, not
among the sources) overwrites the TLB entry of slot `index`. -/
def tlb_write (entryhi entrylo index : Nat) (s : VmState) : VmState :=
  { s.log (.tlb_write entryhi entrylo index) with
    tlb := Function.update s.tlb index ⟨entryhi, entrylo⟩ }

/-- The lowest slot below `NUM_TLB` whose `hi` word is `entryhi`, if any. -/
def tlb_find (tlb : Nat → TlbEntry) (entryhi : Nat) : Option Nat :=
  (List.range NUM_TLB).find? (fun i => decide ((tlb i).hi = entryhi))

/-- Modelled from the spec: `tlb_probe(hi, 0)` (`<mips/tlb.h>`, not among the
sources) looks for an entry whose `hi` word matches and returns its index, or a
negative number when there is none. Entries are matched on the whole `hi` word
(the handler only writes page-aligned addresses there), lowest slot first. -/
def tlb_probe (entryhi : Nat) (s : VmState) : Int × VmState :=
  (match tlb_find s.tlb entryhi with
   | some i => (i : Int)
   | none => -1,
   s.log (.tlb_probe entryhi))

/-! ## `tlb_get_rr_victim` (lines 441-448) -/

/-- `tlb_get_rr_victim()`: returns the cursor and advances it; `next_victim`
is an `unsigned int`. -/
def tlb_get_rr_victim (s : VmState) : Nat × VmState :=
  let victim := s.next_victim
  (victim, { s with next_victim := ((s.next_victim + 1) % WORD) % NUM_TLB })

/-! ## `vm_fault` (lines 84-438) -/

/-- The loop head of lines 219-225 (and 337-343, 392-398), entered with loop
index `i` and `fuel = NUM_TLB - i` iterations left: read slot `i`; continue
while `VALID` is set. Yields the index at which the loop body goes on (`some
i`), or `none` when the loop ends with `i == NUM_TLB`. -/
def tlb_scan : Nat → Nat → VmState → Option Nat × VmState
  | 0, _, s => (none, s)
  | fuel + 1, i, s =>
    let r := tlb_read i s
    if r.1.lo &&& TLBLO_VALID ≠ 0 then tlb_scan fuel (i + 1) r.2
    else (some i, r.2)

/-- The block that installs the translation, after `spl = splhigh()`: lines
219-250, repeated at 337-369 and (with `return 0` in place of `break`) at
392-437. On the resident path the choice of `elo` is guarded by the constant 0
(`if (/*segment == 1*/ 0)`), so that all three copies write
`paddr | TLBLO_DIRTY | TLBLO_VALID`. -/
def tlb_install (faultaddress paddr spl : Nat) (s : VmState) : VmState :=
  let ehi := faultaddress
  let elo := paddr ||| TLBLO_DIRTY ||| TLBLO_VALID
  match tlb_scan NUM_TLB 0 s with
  | (some i, s1) =>
    let s2 := { s1 with count_tlb_miss_free := s1.count_tlb_miss_free + 1 }
    splx spl (tlb_write ehi elo i s2)
  | (none, s1) =>
    let r := tlb_get_rr_victim s1
    let s3 := { r.2 with count_tlb_miss_replace := r.2.count_tlb_miss_replace + 1 }
    splx spl (tlb_write ehi elo r.1 s3)

/-- Lines 169-198 (repeated at 291-320): get a frame from `as_prepare_load`,
or evict a victim. `ret none` stands for the `return -1` of a failed
`swap_out`; `ret (some paddr)` goes on with frame `paddr`. -/
def get_frame (env : Env) (s : VmState) : Res (Option Nat) :=
  let paddr := env.as_prepare_load 1
  let s := s.log (.as_prepare_load 1)
  if paddr = 0 then
    let paddr := env.get_victim.1
    let vaddr := env.get_victim.2.1
    let pid_victim := env.get_victim.2.2
    let s := s.log .get_victim
    let as_victim := env.pid_getas pid_victim
    let s := s.log (.pid_getas pid_victim)
    match address_segment vaddr as_victim with
    | none => .panic s
    | some victim_segment =>
      let result := env.swap_out vaddr victim_segment
      let s := s.log (.swap_out vaddr victim_segment)
      if result ≠ 0 then .ret none s
      else
        let r := splhigh s
        let p := tlb_probe vaddr r.2
        let s :=
          if p.1 ≥ 0 then
            tlb_write (TLBHI_INVALID p.1.toNat) TLBLO_INVALID p.1.toNat p.2
          else p.2
        let s := splx r.1 s
        if paddr ≠ 0 then .ret (some paddr) s else .panic s
  else .ret (some paddr) s

/-- Lines 206-250 (repeated at 324-369): enter the page in the IPT, then
install it in the TLB. `ret none` stands for the `return -1` of a failed
`ipt_add`. -/
def map_page (env : Env) (pid : Int) (paddr faultaddress : Nat) (s : VmState) :
    Res (Option Unit) :=
  let result := env.ipt_add pid paddr faultaddress
  let s := s.log (.ipt_add pid paddr faultaddress)
  if result ≠ 0 then .ret none s
  else if paddr &&& PAGE_FRAME ≠ paddr then .panic s
  else
    let r := splhigh s
    .ret (some ()) (tlb_install faultaddress paddr r.1 r.2)

/-- Lines 161-287: the page is not in the IPT and `segment` is 1 or 2. -/
def fault_load (env : Env) (proc : Proc) (as : Addrspace) (segment : Int)
    (faultaddress : Nat) (s : VmState) : Res Int :=
  let page_offset_from_segbase :=
    (faultaddress + WORD - (if segment = 1 then as.as_vbase1 else as.as_vbase2)) % WORD
  match get_frame env s with
  | .panic s => .panic s
  | .exited st s => .exited st s
  | .ret none s => .ret (-1) s
  | .ret (some paddr) s =>
    match map_page env proc.p_pid paddr faultaddress s with
    | .panic s => .panic s
    | .exited st s => .exited st s
    | .ret none s => .ret (-1) s
    | .ret (some _) s =>
      let ehi := faultaddress
      let elo := paddr ||| TLBLO_DIRTY ||| TLBLO_VALID
      let s := s.log (.zero_fill faultaddress PAGE_SIZE)
      let r : Int × VmState :=
        if segment ≠ 1 then (env.swap_in faultaddress, s.log (.swap_in faultaddress))
        else (1, s)
      let r : Int × VmState :=
        if r.1 ≠ 0 then
          (env.load_page page_offset_from_segbase faultaddress segment,
           r.2.log (.load_page page_offset_from_segbase faultaddress segment))
        else (0, r.2)
      if r.1 ≠ 0 then .ret (-1) r.2
      else if segment = 1 then
        let q := splhigh r.2
        let p := tlb_probe ehi q.2
        if p.1 ≥ 0 then
          .ret 0 (splx q.1 (tlb_write ehi (elo &&& lnot TLBLO_DIRTY) p.1.toNat p.2))
        else .panic p.2
      else .ret 0 r.2

/-- Lines 289-381: the page is not in the IPT and `segment` is the stack. -/
def fault_stack (env : Env) (proc : Proc) (faultaddress : Nat) (s : VmState) : Res Int :=
  match get_frame env s with
  | .panic s => .panic s
  | .exited st s => .exited st s
  | .ret none s => .ret (-1) s
  | .ret (some paddr) s =>
    match map_page env proc.p_pid paddr faultaddress s with
    | .panic s => .panic s
    | .exited st s => .exited st s
    | .ret none s => .ret (-1) s
    | .ret (some _) s =>
      let result := env.swap_in faultaddress
      let s := s.log (.swap_in faultaddress)
      if result ≠ 0 then .ret 0 (s.log (.zero_fill faultaddress PAGE_SIZE))
      else .ret 0 s

/-- Lines 383-437: the page is in the IPT at frame `paddr`. -/
def fault_resident (paddr faultaddress : Nat) (s : VmState) : Res Int :=
  if paddr &&& PAGE_FRAME ≠ paddr then .panic s
  else
    let r := splhigh s
    .ret 0 (tlb_install faultaddress paddr r.1 r.2)

/-- `vm_fault(faulttype, faultaddress)`. `sys__exit` does not return: the call
ends there with the process terminated. `kprintf` and `DEBUG` output is not
modelled. -/
def vm_fault (env : Env) (faulttype : Int) (faultaddress : Nat) (s : VmState) : Res Int :=
  let s := { s with count_tlb_miss := s.count_tlb_miss + 1 }
  let faultaddress := faultaddress &&& PAGE_FRAME
  if faulttype = VM_FAULT_READONLY then
    .exited (-1) (s.log (.sys__exit (-1)))
  else if faulttype = VM_FAULT_READ ∨ faulttype = VM_FAULT_WRITE then
    match env.curproc with
    | none => .ret EFAULT s
    | some proc =>
      match proc.p_addrspace with
      | none => .ret EFAULT s
      | some as =>
        match address_segment faultaddress (some as) with
        | none => .panic s
        | some segment =>
          if segment = EFAULT then .ret EFAULT s
          else
            let paddr := env.ipt_lookup proc.p_pid faultaddress
            let s := s.log (.ipt_lookup proc.p_pid faultaddress)
            if paddr = 0 then
              if segment = 1 ∨ segment = 2 then
                fault_load env proc as segment faultaddress s
              else fault_stack env proc faultaddress s
            else fault_resident paddr faultaddress s
  else .ret EINVAL s

/-! ## The items of the hash table (`kern/hash/item.c`)

An `Item` is a pointer to a `struct item`: `none` is `NULL`. A function that
dereferences a `NULL` pointer or fails a `KASSERT` does not return: its result
is `none`. -/

/-- Modelled from the spec: the type `Key` is declared in `item.h`, which is
not among the sources; `item.c` uses its fields `kaddr`, assigned from a
`vaddr_t` (32-bit unsigned), and `kpid`, assigned from a `pid_t`: the pair
`(pid, vaddr)` of the specification. -/
structure Key where
  kaddr : Nat
  kpid : Int
deriving DecidableEq, Repr

/-- The `struct item` of `item.c`, lines 7-10. -/
structure item where
  key : Key
  index : Int
deriving DecidableEq, Repr

/-- Modelled from the spec: the pointer type `Item` of `item.h` (not among the
sources); `none` is `NULL`. -/
abbrev Item : Type := Option item

/-- `KEYcompare(k1, k2)` (lines 57-63). -/
def KEYcompare (k1 k2 : Key) : Int :=
  if k1.kaddr = k2.kaddr ∧ k1.kpid = k2.kpid then 0 else -1

/-- `KEYget(data)` (lines 65-67): `data->key`. -/
def KEYget (data : Item) : Option Key :=
  match data with
  | none => none
  | some it => some it.key

/-- `ITEMscan(pid, addr, index)` (lines 20-28): fills the static buffer `tmp`
(allocated by `item_init`, `NULL` before) and returns it. -/
def ITEMscan (tmp : Item) (pid : Int) (addr : Nat) (index : Int) : Option Item :=
  match tmp with
  | none => none
  | some _ => some (some { key := { kaddr := addr, kpid := pid }, index := index })

/-- `ITEMcheckvoid(data)` (lines 31-40). The `-1` assigned to `k2.kaddr` is
converted to the 32-bit unsigned `vaddr_t`. -/
def ITEMcheckvoid (data : Item) : Option Int :=
  let k2 : Key := { kaddr := WORD - 1, kpid := -1 }
  match KEYget data with
  | none => none
  | some k1 => if KEYcompare k1 k2 = 0 then some 1 else some 0

/-- `ITEMsetvoid()` (lines 44-51); `kmalloc` is the pointer `kmalloc` returns:
a fresh `struct item`, or `NULL`, on which the `KASSERT` fails. -/
def ITEMsetvoid (kmalloc : Item) : Option Item :=
  match kmalloc with
  | none => none
  | some _ => some (some { key := { kaddr := WORD - 1, kpid := -1 }, index := -1 })

/-- `ITEMsetnull()` (lines 53-55). -/
def ITEMsetnull : Item := none

/-! ## Specification-side definitions

What the specification says, in its own words, to compare the code with. -/

/-- The classification as the specification words it, with the segment tops
`vbase + npages * PAGE_SIZE` taken as plain numbers: 1 if the address is in
segment 1, otherwise 2 if in segment 2, otherwise 3 if in the stack, otherwise
`EFAULT`. -/
def classify_spec (a : Nat) (as : Addrspace) : Int :=
  if as.as_vbase1 ≤ a ∧ a < as.as_vbase1 + as.as_npages1 * PAGE_SIZE then 1
  else if as.as_vbase2 ≤ a ∧ a < as.as_vbase2 + as.as_npages2 * PAGE_SIZE then 2
  else if USERSTACK - 18 * PAGE_SIZE ≤ a ∧ a < USERSTACK then 3
  else EFAULT

/-- The `VALID` bit of a TLB entry is set. -/
def entry_valid (e : TlbEntry) : Prop := e.lo &&& TLBLO_VALID ≠ 0

instance (e : TlbEntry) : Decidable (entry_valid e) := by
  unfold entry_valid; infer_instance

/-- The slot choice of an install in the words of the specification, from TLB
`t0` and cursor `c0` to TLB `t1` and cursor `c1`, for the new entry `e`: if some
entry of `t0` has `VALID` clear, `e` is in the lowest-indexed such slot and the
cursor has not moved; if all `NUM_TLB` entries are valid, `e` is in slot `c0`
and the cursor is `(c0 + 1) mod NUM_TLB`; every other slot is as in `t0`. -/
def install_step (t0 : Nat → TlbEntry) (c0 : Nat) (e : TlbEntry)
    (t1 : Nat → TlbEntry) (c1 : Nat) : Prop :=
  ((∃ i, i < NUM_TLB ∧ ¬ entry_valid (t0 i)) →
    ∃ k, k < NUM_TLB ∧ ¬ entry_valid (t0 k) ∧ (∀ j, j < k → entry_valid (t0 j)) ∧
      t1 k = e ∧ (∀ j, j ≠ k → t1 j = t0 j) ∧ c1 = c0) ∧
  ((∀ i, i < NUM_TLB → entry_valid (t0 i)) →
    t1 c0 = e ∧ (∀ j, j ≠ c0 → t1 j = t0 j) ∧ c1 = (c0 + 1) % NUM_TLB)

/-- The TLB after `tlb_invalidate(vaddr)` in the words of the specification: if
an entry for `vaddr` is present, its slot holds the invalid sentinel pair. -/
def tlb_invalidate (tlb : Nat → TlbEntry) (vaddr : Nat) : Nat → TlbEntry :=
  match tlb_find tlb vaddr with
  | some i => Function.update tlb i ⟨TLBHI_INVALID i, TLBLO_INVALID⟩
  | none => tlb

/-! ## Definitions for the analysis of `vm_fault`

The conditions under which the handler takes each path, and the states and
events it goes through, as functions of the collaborators' answers. -/

/-- The result of the scan as a function of the TLB alone: the first slot with
`VALID` clear among `i, i+1, ..., i+fuel-1`. -/
def scan_slot (tlb : Nat → TlbEntry) : Nat → Nat → Option Nat
  | 0, _ => none
  | fuel + 1, i => if entry_valid (tlb i) then scan_slot tlb fuel (i + 1) else some i

/-- The `tlb_read` events of the scan as a function of the TLB alone. -/
def scan_reads (tlb : Nat → TlbEntry) : Nat → Nat → List Event
  | 0, _ => []
  | fuel + 1, i =>
    Event.tlb_read i :: (if entry_valid (tlb i) then scan_reads tlb fuel (i + 1) else [])

/-- The `lo` word every install writes. -/
def install_lo (paddr : Nat) : Nat := paddr ||| TLBLO_DIRTY ||| TLBLO_VALID

/-- The segment of the victim page, as the handler computes it. -/
def victim_segment (env : Env) : Option Int :=
  address_segment env.get_victim.2.1 (env.pid_getas env.get_victim.2.2)

/-- The frame the fault gets: the one `as_prepare_load(1)` returns if that is
non-zero, otherwise the one `get_victim` returns. -/
def frame_of (env : Env) : Nat :=
  if env.as_prepare_load 1 = 0 then env.get_victim.1 else env.as_prepare_load 1

/-- A frame is obtained: `as_prepare_load(1)` returns one, or the victim is
classified (no failed assertion), its `swap_out` succeeds and its frame is
non-zero. -/
def frame_ready (env : Env) : Prop :=
  env.as_prepare_load 1 ≠ 0 ∨
  (∃ vs, victim_segment env = some vs ∧ env.swap_out env.get_victim.2.1 vs = 0 ∧
    env.get_victim.1 ≠ 0)

/-- The TLB at the time of the install on a non-resident path: the victim's
entry has been invalidated if there was an eviction. -/
def tlb_before_install (env : Env) (tlb : Nat → TlbEntry) : Nat → TlbEntry :=
  if env.as_prepare_load 1 = 0 then tlb_invalidate tlb env.get_victim.2.1 else tlb

/-- The events of a successful frame acquisition, in order. -/
def frame_events (env : Env) (tlb : Nat → TlbEntry) (ipl : Nat) : List Event :=
  if env.as_prepare_load 1 = 0 then
    [Event.as_prepare_load 1, Event.get_victim, Event.pid_getas env.get_victim.2.2,
      Event.swap_out env.get_victim.2.1 ((victim_segment env).getD 0),
      Event.splhigh, Event.tlb_probe env.get_victim.2.1] ++
    (match tlb_find tlb env.get_victim.2.1 with
     | some i => [Event.tlb_write (TLBHI_INVALID i) TLBLO_INVALID i]
     | none => []) ++
    [Event.splx ipl]
  else [Event.as_prepare_load 1]

/-- The state after a successful frame acquisition started in `s`. -/
def st_frame (env : Env) (s : VmState) : VmState :=
  { s with
    tlb := tlb_before_install env s.tlb
    trace := s.trace ++ frame_events env s.tlb s.ipl }

/-- The state after `ipt_add` and the TLB install of frame `frame_of env` for
page `va`, following a successful frame acquisition started in `s`. -/
def st_mapped (env : Env) (pid : Int) (va : Nat) (s : VmState) : VmState :=
  tlb_install va (frame_of env) s.ipl
    (splhigh ((st_frame env s).log (.ipt_add pid (frame_of env) va))).2

/-- The first argument of `load_page`: the offset of page `va` from the base
of its segment, in 32-bit arithmetic (line 166). -/
def page_offset (as : Addrspace) (segment : Int) (va : Nat) : Nat :=
  (va + WORD - (if segment = 1 then as.as_vbase1 else as.as_vbase2)) % WORD

/-- The events by which a code or data page gets its contents (lines 256-274),
in order. -/
def load_events (env : Env) (as : Addrspace) (segment : Int) (va : Nat) : List Event :=
  if segment = 1 then [Event.load_page (page_offset as segment va) va segment]
  else if env.swap_in va ≠ 0 then
    [Event.swap_in va, Event.load_page (page_offset as segment va) va segment]
  else [Event.swap_in va]

/-- The handler calls `load_page` and it fails. -/
def load_failed (env : Env) (as : Addrspace) (segment : Int) (va : Nat) : Prop :=
  (segment = 1 ∨ env.swap_in va ≠ 0) ∧
  env.load_page (page_offset as segment va) va segment ≠ 0

instance (env : Env) (as : Addrspace) (segment : Int) (va : Nat) :
    Decidable (load_failed env as segment va) := by
  unfold load_failed; infer_instance

/-- The install is reached on a non-resident path: a frame is obtained, it is
page-aligned and `ipt_add` succeeds. -/
def install_reached (env : Env) (pid : Int) (va : Nat) : Prop :=
  frame_ready env ∧ env.ipt_add pid (frame_of env) va = 0 ∧
  frame_of env &&& PAGE_FRAME = frame_of env

/-- An event of frame acquisition, IPT or TLB maintenance: any event other
than `sys__exit`, `zero_fill`, `swap_in` and `load_page`. -/
def Event.setup : Event → Bool
  | .sys__exit _ => false
  | .zero_fill _ _ => false
  | .swap_in _ => false
  | .load_page _ _ _ => false
  | _ => true

/-- An outcome that is neither a return of 0 nor an exit, reached after setup
events only and with the cursor and the free-slot and replacement counters
untouched. -/
def stopped_early (r : Res Int) (s : VmState) : Prop :=
  ∃ evs, (∀ e ∈ evs, e.setup = true) ∧
    r.state.trace = s.trace ++ evs ∧ r.val? ≠ some 0 ∧ r.exit? = none ∧
    r.state.next_victim = s.next_victim ∧
    r.state.count_tlb_miss_free = s.count_tlb_miss_free ∧
    r.state.count_tlb_miss_replace = s.count_tlb_miss_replace

/-- The TLB at the time of the install of a fault that starts in state `s`: on
the resident path the TLB at entry, on a non-resident path the TLB left by the
frame acquisition. -/
def tlb_at_install (env : Env) (s : VmState) (faultaddress : Nat) : Nat → TlbEntry :=
  match env.curproc with
  | some proc =>
    if env.ipt_lookup proc.p_pid (faultaddress &&& PAGE_FRAME) = 0 then
      tlb_before_install env s.tlb
    else s.tlb
  | none => s.tlb

/-- What one fault does to the free-slot and replacement counters, from state
`s` to outcome `r`, with `t0` the TLB at install time: nothing (and then the
fault does not return 0), or the free-slot counter alone goes up by 1 (and some
slot of `t0` had `VALID` clear), or the replacement counter alone goes up by 1
(and every slot of `t0` was valid). -/
def counter_step (s : VmState) (r : Res Int) (t0 : Nat → TlbEntry) : Prop :=
  (r.state.count_tlb_miss_free = s.count_tlb_miss_free ∧
    r.state.count_tlb_miss_replace = s.count_tlb_miss_replace ∧ r.val? ≠ some 0) ∨
  (scan_slot t0 NUM_TLB 0 ≠ none ∧
    r.state.count_tlb_miss_free = s.count_tlb_miss_free + 1 ∧
    r.state.count_tlb_miss_replace = s.count_tlb_miss_replace) ∨
  (scan_slot t0 NUM_TLB 0 = none ∧
    r.state.count_tlb_miss_free = s.count_tlb_miss_free ∧
    r.state.count_tlb_miss_replace = s.count_tlb_miss_replace + 1)

/-- The states the kernel can be in: the three static counters start at 0, and
every further state is the one some call of `vm_fault` ends in. -/
inductive Reachable : VmState → Prop where
  | init (s : VmState) (h0 : s.count_tlb_miss = 0) (h1 : s.count_tlb_miss_free = 0)
      (h2 : s.count_tlb_miss_replace = 0) : Reachable s
  | fault (env : Env) (faulttype : Int) (faultaddress : Nat) (s : VmState)
      (h : Reachable s) : Reachable (vm_fault env faulttype faultaddress s).state

/-- The events of frame acquisition (lines 169-198), whatever its outcome: the
call of `as_prepare_load` alone when it returns a frame; otherwise the eviction,
which stops after `pid_getas` when the classification of the victim fails an
assertion, after `swap_out` when that fails, and is `frame_events` otherwise. -/
def acquire_events (env : Env) (tlb : Nat → TlbEntry) (ipl : Nat) : List Event :=
  if env.as_prepare_load 1 = 0 then
    match victim_segment env with
    | none =>
      [Event.as_prepare_load 1, Event.get_victim, Event.pid_getas env.get_victim.2.2]
    | some vs =>
      if env.swap_out env.get_victim.2.1 vs = 0 then frame_events env tlb ipl
      else
        [Event.as_prepare_load 1, Event.get_victim, Event.pid_getas env.get_victim.2.2,
          Event.swap_out env.get_victim.2.1 vs]
  else [Event.as_prepare_load 1]

/-- The events of the rewrite of a code page's entry (lines 279-284), with
`tlb` the TLB after the install, `lo` the word installed and `ipl` the
interrupt level to restore: the probe, and the write and `splx` when the probe
finds the entry (the assertion fails otherwise). -/
def rewrite_events (tlb : Nat → TlbEntry) (va lo ipl : Nat) : List Event :=
  [Event.splhigh, Event.tlb_probe va] ++
  (match tlb_find tlb va with
   | some p => [Event.tlb_write va (lo &&& lnot TLBLO_DIRTY) p, Event.splx ipl]
   | none => [])

/-- The events that follow the install on a non-resident path, with `tlb` the
TLB after the install: for segments 1 and 2 the zero fill, the page source and,
for a code page whose load did not fail, the rewrite of its entry; for the
stack `swap_in` and, when that reports not found, the zero fill. -/
def fill_events (env : Env) (as : Addrspace) (segment : Int) (va : Nat)
    (tlb : Nat → TlbEntry) (ipl : Nat) : List Event :=
  if segment = 1 ∨ segment = 2 then
    Event.zero_fill va PAGE_SIZE :: load_events env as segment va ++
      (if segment = 1 ∧ ¬ load_failed env as segment va then
        rewrite_events tlb va (install_lo (frame_of env)) ipl
       else [])
  else if env.swap_in va ≠ 0 then [Event.swap_in va, Event.zero_fill va PAGE_SIZE]
  else [Event.swap_in va]

/-- One event's effect on the nesting depth `d` of `splhigh`: `splhigh` opens a
level, `splx` closes one, and a TLB access (`tlb_read`, `tlb_write`,
`tlb_probe`) needs an open level. `none`: a TLB access or an `splx` outside any
`splhigh`. -/
def spl_step (d : Nat) : Event → Option Nat
  | .splhigh => some (d + 1)
  | .splx _ => if d = 0 then none else some (d - 1)
  | .tlb_read _ => if d = 0 then none else some d
  | .tlb_write _ _ _ => if d = 0 then none else some d
  | .tlb_probe _ => if d = 0 then none else some d
  | _ => some d

/-- The nesting depth of `splhigh` after a list of events, starting from depth
`d`; `none` if some TLB access or `splx` occurs outside any `splhigh`. -/
def spl_run : Nat → List Event → Option Nat
  | d, [] => some d
  | d, e :: l =>
    match spl_step d e with
    | none => none
    | some d1 => spl_run d1 l

/-- An event of frame acquisition: `as_prepare_load`, `get_victim`,
`pid_getas`, `swap_out`, `splhigh`, `tlb_probe`, `splx`, or the write of the
invalid sentinel pair of a slot. -/
def Event.evicting : Event → Bool
  | .as_prepare_load _ => true
  | .get_victim => true
  | .pid_getas _ => true
  | .swap_out _ _ => true
  | .splhigh => true
  | .tlb_probe _ => true
  | .splx _ => true
  | .tlb_write hi lo i => decide (hi = TLBHI_INVALID i ∧ lo = TLBLO_INVALID)
  | _ => false

/-- The state after `n` calls of `tlb_get_rr_victim` from state `s`. -/
def rr_calls : Nat → VmState → VmState
  | 0, s => s
  | n + 1, s => (tlb_get_rr_victim (rr_calls n s)).2

/-- The value returned by call number `n + 1` of `tlb_get_rr_victim` from
state `s`. -/
def rr_result (n : Nat) (s : VmState) : Nat := (tlb_get_rr_victim (rr_calls n s)).1

/-! ## Concrete address spaces, states and worlds -/

/-- An address space whose first segment ends exactly at `2^32`. -/
def as_top : Addrspace :=
  { as_vbase1 := 0xfffff000, as_npages1 := 1, as_vbase2 := 0x10000000, as_npages2 := 1 }

/-- An ordinary address space: code at `0x400000` (2 pages), data at
`0x10000000` (3 pages). -/
def as_demo : Addrspace :=
  { as_vbase1 := 0x400000, as_npages1 := 2, as_vbase2 := 0x10000000, as_npages2 := 3 }

/-- An address space as `as_create` leaves it, before any region is defined:
all fields zero. -/
def as_blank : Addrspace :=
  { as_vbase1 := 0, as_npages1 := 0, as_vbase2 := 0, as_npages2 := 0 }

/-- The state at boot: every TLB slot holds its invalid sentinel pair, the
cursor and the counters are 0, interrupts are enabled, nothing has happened. -/
def boot_state : VmState :=
  { tlb := fun i => ⟨TLBHI_INVALID i, TLBLO_INVALID⟩
    next_victim := 0
    count_tlb_miss := 0
    count_tlb_miss_free := 0
    count_tlb_miss_replace := 0
    ipl := 0
    trace := [] }

/-- A world with process 1 running in address space `as`; nothing is resident,
`as_prepare_load` hands out frame `0x5000`, the victim (never needed) would be
frame `0x7000` holding page `0x10002000` of process 1, and every collaborator
succeeds, `swap_in` reporting not found. -/
def env_of (as : Addrspace) : Env :=
  { curproc := some ⟨1, some as⟩
    ipt_lookup := fun _ _ => 0
    as_prepare_load := fun _ => 0x5000
    get_victim := (0x7000, 0x10002000, 1)
    pid_getas := fun _ => some as
    swap_out := fun _ _ => 0
    ipt_add := fun _ _ _ => 0
    swap_in := fun _ => 1
    load_page := fun _ _ _ => 0 }

/-- The world of `env_of`, except that the faulting page is resident in frame
`0x5000`. -/
def env_resident (as : Addrspace) : Env :=
  { env_of as with ipt_lookup := fun _ _ => 0x5000 }

/-- The world of `env_of`, except that no frame is free and the swap file is
full: `as_prepare_load` returns 0 and `swap_out` fails. -/
def env_swapfull (as : Addrspace) : Env :=
  { env_of as with as_prepare_load := fun _ => 0, swap_out := fun _ _ => 1 }

/-- An address space whose segments overlap: the data page `0x401000` is also
the second code page. -/
def as_overlap : Addrspace :=
  { as_vbase1 := 0x400000, as_npages1 := 2, as_vbase2 := 0x401000, as_npages2 := 1 }

/-- An address space whose first segment is so long that its top wraps in
32-bit arithmetic: `0x400000 + 0x100000 * 4096` is `2^32 + 0x400000`, so the
code's `vtop1` is `0x400000` and its segment-1 test matches no address. -/
def as_wrap1 : Addrspace :=
  { as_vbase1 := 0x400000, as_npages1 := 0x100000, as_vbase2 := 0x10000000, as_npages2 := 3 }

/-- An address space whose second segment ends exactly at `2^32`. -/
def as_top2 : Addrspace :=
  { as_vbase1 := 0x400000, as_npages1 := 1, as_vbase2 := 0xfffff000, as_npages2 := 1 }

/-- The world of `env_of`, except that no frame is free: the victim, page
`0x10002000` of process 1 in frame `0x7000`, is evicted. -/
def env_evict (as : Addrspace) : Env :=
  { env_of as with as_prepare_load := fun _ => 0 }

/-- The boot state, except that slot 0 of the TLB maps page `0x10002000` to
frame `0x7000`. -/
def state_victim_mapped : VmState :=
  { boot_state with
    tlb := Function.update boot_state.tlb 0 ⟨0x10002000, 0x7600⟩ }

/-! ## Lemmas on `address_segment` -/

theorem address_segment_of_spec_efault (as : Addrspace) (a : Nat)
    (hok : as_asserts as) (h : classify_spec a as = EFAULT) :
    address_segment a (some as) = some EFAULT := by
  have m1 : (as.as_vbase1 + as.as_npages1 * PAGE_SIZE) % WORD
      ≤ as.as_vbase1 + as.as_npages1 * PAGE_SIZE := Nat.mod_le _ _
  have m2 : (as.as_vbase2 + as.as_npages2 * PAGE_SIZE) % WORD
      ≤ as.as_vbase2 + as.as_npages2 * PAGE_SIZE := Nat.mod_le _ _
  unfold classify_spec at h
  simp only [address_segment, if_pos hok, DUMBVM_STACKPAGES, ge_iff_le]
  split_ifs at h with c1 c2 c3
  · exact absurd h (by decide)
  · exact absurd h (by decide)
  · exact absurd h (by decide)
  · rw [if_neg (fun hc => c1 ⟨hc.1, lt_of_lt_of_le hc.2 m1⟩),
      if_neg (fun hc => c2 ⟨hc.1, lt_of_lt_of_le hc.2 m2⟩), if_neg c3]

theorem address_segment_base (as : Addrspace) (a : Nat) (segment : Int)
    (h : address_segment a (some as) = some segment) :
    (segment = 1 → as.as_vbase1 ≤ a) ∧ (segment = 2 → as.as_vbase2 ≤ a) := by
  unfold address_segment at h
  simp only at h
  split_ifs at h with hok c1 c2 c3 <;>
    simp only [Option.some.injEq] at h <;> subst h
  · exact ⟨fun _ => c1.1, fun hc => absurd hc (by decide)⟩
  · exact ⟨fun hc => absurd hc (by decide), fun _ => c2.1⟩
  · exact ⟨fun hc => absurd hc (by decide), fun hc => absurd hc (by decide)⟩
  · exact ⟨fun hc => absurd hc (by decide), fun hc => absurd hc (by decide)⟩

theorem aligned_lt_word (a : Nat) : a &&& PAGE_FRAME < WORD :=
  Nat.and_lt_two_pow a (by decide : PAGE_FRAME < 2 ^ 32)

theorem wrap_sub (a b : Nat) (hb : b ≤ a) (ha : a < WORD) : (a + WORD - b) % WORD = a - b := by
  have e : a + WORD - b = (a - b) + WORD := by omega
  rw [e, Nat.add_mod_right, Nat.mod_eq_of_lt (by omega)]

/-- Aligning a 32-bit address rounds it down to a multiple of the page size. -/
theorem and_page_frame (y : Nat) (h : y < 2 ^ 32) : y &&& PAGE_FRAME = y / 4096 * 4096 := by
  have e1 : PAGE_FRAME = (2 ^ 20 - 1) <<< 12 := by decide
  have e2 : y / 4096 * 4096 = (y >>> 12) <<< 12 := by
    rw [Nat.shiftLeft_eq, Nat.shiftRight_eq_div_pow]
  rw [e1, e2]
  apply Nat.eq_of_testBit_eq
  intro j
  simp only [Nat.testBit_and, Nat.testBit_shiftLeft, Nat.testBit_shiftRight,
    Nat.testBit_two_pow_sub_one]
  by_cases hj : 12 ≤ j
  · have e3 : 12 + (j - 12) = j := by omega
    by_cases hj2 : j - 12 < 20
    · simp [hj, hj2, e3]
    · have hlt : y < 2 ^ j := lt_of_lt_of_le h (Nat.pow_le_pow_right (by decide) (by omega))
      simp [hj, hj2, e3, Nat.testBit_lt_two_pow hlt]
  · simp [hj]

/-- In an address space that passes the assertions and whose second segment
does not wrap, an address of segment 2 is classified 2, or 1 when segment 1
matches first. -/
theorem address_segment_in_seg2 (as : Addrspace) (a : Nat) (hok : as_asserts as)
    (h2 : as.as_vbase2 + as.as_npages2 * PAGE_SIZE < 2 ^ 32)
    (hlo : as.as_vbase2 ≤ a) (hhi : a < as.as_vbase2 + as.as_npages2 * PAGE_SIZE) :
    (address_segment a (some as) = some 2 ∨ address_segment a (some as) = some 1) ∧
    (¬ (as.as_vbase1 ≤ a ∧ a < as.as_vbase1 + as.as_npages1 * PAGE_SIZE) →
      address_segment a (some as) = some 2) := by
  have e2 : (as.as_vbase2 + as.as_npages2 * PAGE_SIZE) % WORD
      = as.as_vbase2 + as.as_npages2 * PAGE_SIZE := Nat.mod_eq_of_lt h2
  have m1 : (as.as_vbase1 + as.as_npages1 * PAGE_SIZE) % WORD
      ≤ as.as_vbase1 + as.as_npages1 * PAGE_SIZE := Nat.mod_le _ _
  simp only [address_segment, if_pos hok, e2, ge_iff_le]
  by_cases c1 : as.as_vbase1 ≤ a ∧ a < (as.as_vbase1 + as.as_npages1 * PAGE_SIZE) % WORD
  · rw [if_pos c1]
    exact ⟨Or.inr rfl, fun hc => absurd ⟨c1.1, lt_of_lt_of_le c1.2 m1⟩ hc⟩
  · rw [if_neg c1, if_pos ⟨hlo, hhi⟩]
    exact ⟨Or.inl rfl, fun _ => rfl⟩

/-- In an address space that passes the assertions and whose second segment
does not wrap, an address of segment 2 is classified 1 when it passes the test
of segment 1 (with the 32-bit top the code computes) and 2 otherwise. -/
theorem address_segment_in_seg2_exact (as : Addrspace) (a : Nat) (hok : as_asserts as)
    (h2 : as.as_vbase2 + as.as_npages2 * PAGE_SIZE < 2 ^ 32)
    (hlo : as.as_vbase2 ≤ a) (hhi : a < as.as_vbase2 + as.as_npages2 * PAGE_SIZE) :
    address_segment a (some as)
      = some (if as.as_vbase1 ≤ a ∧ a < (as.as_vbase1 + as.as_npages1 * PAGE_SIZE) % 2 ^ 32
          then 1 else 2) := by
  have e2 : (as.as_vbase2 + as.as_npages2 * PAGE_SIZE) % 2 ^ 32
      = as.as_vbase2 + as.as_npages2 * PAGE_SIZE := Nat.mod_eq_of_lt h2
  have hw : WORD = 2 ^ 32 := rfl
  simp only [address_segment, if_pos hok, hw, e2, ge_iff_le]
  by_cases c1 : as.as_vbase1 ≤ a ∧ a < (as.as_vbase1 + as.as_npages1 * PAGE_SIZE) % 2 ^ 32
  · rw [if_pos c1, if_pos c1]
  · rw [if_neg c1, if_neg c1, if_pos ⟨hlo, hhi⟩]

theorem address_segment_top2 (as : Addrspace) :
    address_segment (as.as_vbase2 + as.as_npages2 * PAGE_SIZE) (some as) ≠ some 2 := by
  have m2 : (as.as_vbase2 + as.as_npages2 * PAGE_SIZE) % WORD
      ≤ as.as_vbase2 + as.as_npages2 * PAGE_SIZE := Nat.mod_le _ _
  unfold address_segment
  simp only
  split_ifs with hok c1 c2 c3
  · decide
  · exact absurd c2.2 (by omega)
  · decide
  · decide
  · simp

/-! ## Lemmas on the TLB scan and the install block -/

theorem tlb_scan_eq (fuel i : Nat) (s : VmState) :
    tlb_scan fuel i s
      = (scan_slot s.tlb fuel i, { s with trace := s.trace ++ scan_reads s.tlb fuel i }) := by
  induction fuel generalizing i s with
  | zero => simp [tlb_scan, scan_slot, scan_reads]
  | succ n ih =>
    by_cases hv : entry_valid (s.tlb i)
    · have hv' : (s.tlb i).lo &&& TLBLO_VALID ≠ 0 := hv
      simp [tlb_scan, scan_slot, scan_reads, tlb_read, VmState.log, hv, hv', ih]
    · have hv' : (s.tlb i).lo &&& TLBLO_VALID = 0 := by
        by_contra hc; exact hv hc
      simp [tlb_scan, scan_slot, scan_reads, tlb_read, VmState.log, hv, hv']

theorem scan_slot_some (tlb : Nat → TlbEntry) (fuel i k : Nat)
    (h : scan_slot tlb fuel i = some k) :
    i ≤ k ∧ k < i + fuel ∧ ¬ entry_valid (tlb k) ∧
    ∀ j, i ≤ j → j < k → entry_valid (tlb j) := by
  induction fuel generalizing i with
  | zero => simp [scan_slot] at h
  | succ n ih =>
    by_cases hv : entry_valid (tlb i)
    · simp only [scan_slot, if_pos hv] at h
      obtain ⟨a, b, c, d⟩ := ih (i + 1) h
      refine ⟨by omega, by omega, c, fun j hj1 hj2 => ?_⟩
      rcases Nat.eq_or_lt_of_le hj1 with e | e
      · rw [← e]; exact hv
      · exact d j e hj2
    · simp only [scan_slot, if_neg hv, Option.some.injEq] at h
      subst h
      exact ⟨le_refl _, by omega, hv, fun j hj1 hj2 => absurd hj2 (by omega)⟩

theorem scan_slot_none (tlb : Nat → TlbEntry) (fuel i : Nat)
    (h : scan_slot tlb fuel i = none) :
    ∀ j, i ≤ j → j < i + fuel → entry_valid (tlb j) := by
  induction fuel generalizing i with
  | zero => intro j h1 h2; omega
  | succ n ih =>
    by_cases hv : entry_valid (tlb i)
    · simp only [scan_slot, if_pos hv] at h
      intro j hj1 hj2
      rcases Nat.eq_or_lt_of_le hj1 with e | e
      · rw [← e]; exact hv
      · exact ih (i + 1) h j e (by omega)
    · simp [scan_slot, hv] at h

theorem scan_reads_are_reads (tlb : Nat → TlbEntry) (fuel i : Nat) :
    ∀ e ∈ scan_reads tlb fuel i, ∃ j, e = Event.tlb_read j := by
  induction fuel generalizing i with
  | zero => simp [scan_reads]
  | succ n ih =>
    intro e he
    simp only [scan_reads, List.mem_cons] at he
    rcases he with rfl | he
    · exact ⟨i, rfl⟩
    · by_cases hv : entry_valid (tlb i)
      · rw [if_pos hv] at he; exact ih (i + 1) e he
      · rw [if_neg hv] at he; simp at he

theorem next_victim_step (n : Nat) : ((n + 1) % WORD) % NUM_TLB = (n + 1) % NUM_TLB :=
  Nat.mod_mod_of_dvd _ (by decide)

/-- The install block when some slot is free: slot `k` is written. -/
theorem tlb_install_free (faultaddress paddr spl k : Nat) (s : VmState)
    (h : scan_slot s.tlb NUM_TLB 0 = some k) :
    tlb_install faultaddress paddr spl s =
      { s with
        tlb := Function.update s.tlb k ⟨faultaddress, install_lo paddr⟩
        count_tlb_miss_free := s.count_tlb_miss_free + 1
        ipl := spl
        trace := s.trace ++ scan_reads s.tlb NUM_TLB 0 ++
          [Event.tlb_write faultaddress (install_lo paddr) k, Event.splx spl] } := by
  simp [tlb_install, tlb_scan_eq, h, splx, tlb_write, VmState.log, install_lo]

/-- The install block when every slot is valid: the cursor's slot is written. -/
theorem tlb_install_replace (faultaddress paddr spl : Nat) (s : VmState)
    (h : scan_slot s.tlb NUM_TLB 0 = none) :
    tlb_install faultaddress paddr spl s =
      { s with
        tlb := Function.update s.tlb s.next_victim ⟨faultaddress, install_lo paddr⟩
        next_victim := (s.next_victim + 1) % NUM_TLB
        count_tlb_miss_replace := s.count_tlb_miss_replace + 1
        ipl := spl
        trace := s.trace ++ scan_reads s.tlb NUM_TLB 0 ++
          [Event.tlb_write faultaddress (install_lo paddr) s.next_victim, Event.splx spl] } := by
  simp [tlb_install, tlb_scan_eq, h, splx, tlb_write, VmState.log, install_lo,
    tlb_get_rr_victim, next_victim_step]

/-! ## Lemmas on the bits of an installed entry -/

theorem install_lo_valid (paddr : Nat) : install_lo paddr &&& TLBLO_VALID ≠ 0 := by
  intro h
  have h9 := congrArg (fun n => Nat.testBit n 9) h
  have b : Nat.testBit 512 9 = true := by decide
  simp [install_lo, TLBLO_VALID, TLBLO_DIRTY, Nat.testBit_and, Nat.testBit_or, b] at h9

theorem install_lo_dirty (paddr : Nat) : install_lo paddr &&& TLBLO_DIRTY ≠ 0 := by
  intro h
  have h10 := congrArg (fun n => Nat.testBit n 10) h
  have b : Nat.testBit 1024 10 = true := by decide
  simp [install_lo, TLBLO_VALID, TLBLO_DIRTY, Nat.testBit_and, Nat.testBit_or, b] at h10

theorem install_lo_frame (paddr : Nat) (h : paddr &&& PAGE_FRAME = paddr) :
    install_lo paddr &&& PAGE_FRAME = paddr := by
  have d : TLBLO_DIRTY &&& PAGE_FRAME = 0 := by decide
  have v : TLBLO_VALID &&& PAGE_FRAME = 0 := by decide
  simp [install_lo, Nat.and_distrib_right, h, d, v]

/-- What the install block does, whichever branch it takes: it reads slots,
writes exactly one slot `k` and restores the interrupt level; `k` is the slot
found by the scan, or the cursor's slot when the scan finds none. -/
theorem tlb_install_spec (faultaddress paddr spl : Nat) (s : VmState) :
    ∃ k,
      (tlb_install faultaddress paddr spl s).trace
        = s.trace ++ scan_reads s.tlb NUM_TLB 0 ++
          [Event.tlb_write faultaddress (install_lo paddr) k, Event.splx spl] ∧
      (tlb_install faultaddress paddr spl s).tlb
        = Function.update s.tlb k ⟨faultaddress, install_lo paddr⟩ ∧
      (tlb_install faultaddress paddr spl s).ipl = spl ∧
      (tlb_install faultaddress paddr spl s).count_tlb_miss = s.count_tlb_miss ∧
      ((scan_slot s.tlb NUM_TLB 0 = some k ∧
          (tlb_install faultaddress paddr spl s).next_victim = s.next_victim ∧
          (tlb_install faultaddress paddr spl s).count_tlb_miss_free
            = s.count_tlb_miss_free + 1 ∧
          (tlb_install faultaddress paddr spl s).count_tlb_miss_replace
            = s.count_tlb_miss_replace) ∨
        (scan_slot s.tlb NUM_TLB 0 = none ∧ k = s.next_victim ∧
          (tlb_install faultaddress paddr spl s).next_victim
            = (s.next_victim + 1) % NUM_TLB ∧
          (tlb_install faultaddress paddr spl s).count_tlb_miss_free
            = s.count_tlb_miss_free ∧
          (tlb_install faultaddress paddr spl s).count_tlb_miss_replace
            = s.count_tlb_miss_replace + 1)) := by
  cases h : scan_slot s.tlb NUM_TLB 0 with
  | some k =>
    refine ⟨k, ?_⟩
    rw [tlb_install_free faultaddress paddr spl k s h]
    simp
  | none =>
    refine ⟨s.next_victim, ?_⟩
    rw [tlb_install_replace faultaddress paddr spl s h]
    simp

/-! ## Lemmas on the paths of `vm_fault` -/

/-- A READ or WRITE fault of a process whose address space classifies the
aligned address into a segment goes on to the IPT lookup and to one of the
three paths. -/
theorem vm_fault_dispatch (env : Env) (faulttype : Int) (faultaddress : Nat) (s : VmState)
    (proc : Proc) (as : Addrspace) (segment : Int)
    (hft : faulttype = VM_FAULT_READ ∨ faulttype = VM_FAULT_WRITE)
    (hp : env.curproc = some proc) (has : proc.p_addrspace = some as)
    (hseg : address_segment (faultaddress &&& PAGE_FRAME) (some as) = some segment)
    (hne : segment ≠ EFAULT) :
    vm_fault env faulttype faultaddress s =
      if env.ipt_lookup proc.p_pid (faultaddress &&& PAGE_FRAME) = 0 then
        if segment = 1 ∨ segment = 2 then
          fault_load env proc as segment (faultaddress &&& PAGE_FRAME)
            (({ s with count_tlb_miss := s.count_tlb_miss + 1 }).log
              (.ipt_lookup proc.p_pid (faultaddress &&& PAGE_FRAME)))
        else
          fault_stack env proc (faultaddress &&& PAGE_FRAME)
            (({ s with count_tlb_miss := s.count_tlb_miss + 1 }).log
              (.ipt_lookup proc.p_pid (faultaddress &&& PAGE_FRAME)))
      else
        fault_resident (env.ipt_lookup proc.p_pid (faultaddress &&& PAGE_FRAME))
          (faultaddress &&& PAGE_FRAME)
          (({ s with count_tlb_miss := s.count_tlb_miss + 1 }).log
            (.ipt_lookup proc.p_pid (faultaddress &&& PAGE_FRAME))) := by
  have hro : faulttype ≠ VM_FAULT_READONLY := by
    rcases hft with h | h <;> rw [h] <;> decide
  simp only [vm_fault, if_neg hro, if_pos hft, hp, has, hseg, if_neg hne]

theorem get_frame_ready (env : Env) (s : VmState) (h : frame_ready env) :
    get_frame env s = .ret (some (frame_of env)) (st_frame env s) := by
  by_cases h0 : env.as_prepare_load 1 = 0
  · rcases h with h | ⟨vs, hvs, hso, hfr⟩
    · exact absurd h0 h
    · have hvs' : address_segment env.get_victim.2.1 (env.pid_getas env.get_victim.2.2)
          = some vs := hvs
      cases hf : tlb_find s.tlb env.get_victim.2.1 with
      | none =>
        simp [get_frame, h0, hvs', hso, hfr, frame_of, st_frame, tlb_before_install,
          tlb_invalidate, frame_events, victim_segment, hf, splhigh, splx, tlb_probe,
          VmState.log]
      | some i =>
        have hi : (0 : Int) ≤ (i : Int) := Int.ofNat_nonneg i
        simp [get_frame, h0, hvs', hso, hfr, frame_of, st_frame, tlb_before_install,
          tlb_invalidate, frame_events, victim_segment, hf, splhigh, splx, tlb_probe,
          tlb_write, VmState.log, hi]
  · simp [get_frame, h0, frame_of, st_frame, tlb_before_install, frame_events, VmState.log]

theorem get_frame_swap_out_fails (env : Env) (s : VmState) (vs : Int)
    (h0 : env.as_prepare_load 1 = 0) (hvs : victim_segment env = some vs)
    (hso : env.swap_out env.get_victim.2.1 vs ≠ 0) :
    get_frame env s = .ret none
      { s with trace := s.trace ++
          [Event.as_prepare_load 1, Event.get_victim, Event.pid_getas env.get_victim.2.2,
           Event.swap_out env.get_victim.2.1 vs] } := by
  have hvs' : address_segment env.get_victim.2.1 (env.pid_getas env.get_victim.2.2)
      = some vs := hvs
  simp [get_frame, h0, hvs', hso, VmState.log]

theorem map_page_ok (env : Env) (pid : Int) (va : Nat) (s : VmState)
    (hadd : env.ipt_add pid (frame_of env) va = 0)
    (hal : frame_of env &&& PAGE_FRAME = frame_of env) :
    map_page env pid (frame_of env) va (st_frame env s)
      = .ret (some ()) (st_mapped env pid va s) := by
  simp [map_page, hadd, hal, st_mapped, st_frame, splhigh, VmState.log]

theorem map_page_ipt_add_fails (env : Env) (pid : Int) (paddr va : Nat) (s : VmState)
    (hadd : env.ipt_add pid paddr va ≠ 0) :
    map_page env pid paddr va s = .ret none (s.log (.ipt_add pid paddr va)) := by
  simp [map_page, hadd]

/-- The trace, the TLB and the cursor after the install on a non-resident
path. -/
theorem st_mapped_spec (env : Env) (pid : Int) (va : Nat) (s : VmState) :
    ∃ k,
      (st_mapped env pid va s).trace
        = s.trace ++ frame_events env s.tlb s.ipl ++
          [Event.ipt_add pid (frame_of env) va, Event.splhigh] ++
          scan_reads (tlb_before_install env s.tlb) NUM_TLB 0 ++
          [Event.tlb_write va (install_lo (frame_of env)) k, Event.splx s.ipl] ∧
      (st_mapped env pid va s).tlb
        = Function.update (tlb_before_install env s.tlb) k ⟨va, install_lo (frame_of env)⟩ ∧
      (st_mapped env pid va s).ipl = s.ipl ∧
      (st_mapped env pid va s).count_tlb_miss = s.count_tlb_miss ∧
      ((scan_slot (tlb_before_install env s.tlb) NUM_TLB 0 = some k ∧
          (st_mapped env pid va s).next_victim = s.next_victim ∧
          (st_mapped env pid va s).count_tlb_miss_free = s.count_tlb_miss_free + 1 ∧
          (st_mapped env pid va s).count_tlb_miss_replace = s.count_tlb_miss_replace) ∨
        (scan_slot (tlb_before_install env s.tlb) NUM_TLB 0 = none ∧ k = s.next_victim ∧
          (st_mapped env pid va s).next_victim = (s.next_victim + 1) % NUM_TLB ∧
          (st_mapped env pid va s).count_tlb_miss_free = s.count_tlb_miss_free ∧
          (st_mapped env pid va s).count_tlb_miss_replace
            = s.count_tlb_miss_replace + 1)) := by
  obtain ⟨k, h⟩ := tlb_install_spec va (frame_of env) s.ipl
    (splhigh ((st_frame env s).log (.ipt_add pid (frame_of env) va))).2
  refine ⟨k, ?_⟩
  simpa [st_mapped, st_frame, splhigh, VmState.log] using h

theorem clear_dirty_zero (elo : Nat) : elo &&& lnot TLBLO_DIRTY = 0 := by
  simp [lnot, TLBLO_DIRTY]

/-- The stack path once the install is reached. -/
theorem fault_stack_eq (env : Env) (proc : Proc) (va : Nat) (s : VmState)
    (h : install_reached env proc.p_pid va) :
    fault_stack env proc va s = .ret 0
      { st_mapped env proc.p_pid va s with
        trace := (st_mapped env proc.p_pid va s).trace ++
          (if env.swap_in va ≠ 0 then [Event.swap_in va, Event.zero_fill va PAGE_SIZE]
           else [Event.swap_in va]) } := by
  obtain ⟨hfr, hadd, hal⟩ := h
  by_cases hsw : env.swap_in va = 0
  · simp [fault_stack, get_frame_ready env s hfr, map_page_ok env proc.p_pid va s hadd hal,
      hsw, VmState.log]
  · simp [fault_stack, get_frame_ready env s hfr, map_page_ok env proc.p_pid va s hadd hal,
      hsw, VmState.log]

/-- The code/data path when `load_page` is called and fails. -/
theorem fault_load_failed (env : Env) (proc : Proc) (as : Addrspace) (segment : Int)
    (va : Nat) (s : VmState) (h : install_reached env proc.p_pid va)
    (hf : load_failed env as segment va) :
    fault_load env proc as segment va s = .ret (-1)
      { st_mapped env proc.p_pid va s with
        trace := (st_mapped env proc.p_pid va s).trace ++
          Event.zero_fill va PAGE_SIZE :: load_events env as segment va } := by
  obtain ⟨hfr, hadd, hal⟩ := h
  obtain ⟨hc, hl⟩ := hf
  have hl' : env.load_page ((va + WORD - (if segment = 1 then as.as_vbase1
      else as.as_vbase2)) % WORD) va segment ≠ 0 := hl
  by_cases h1 : segment = 1
  · subst h1
    have hl1 : env.load_page ((va + WORD - as.as_vbase1) % WORD) va 1 ≠ 0 := by
      simpa using hl'
    simp [fault_load, get_frame_ready env s hfr, map_page_ok env proc.p_pid va s hadd hal,
      hl1, load_events, page_offset, VmState.log]
  · have hsw : env.swap_in va ≠ 0 := hc.resolve_left h1
    have hl2 : env.load_page ((va + WORD - as.as_vbase2) % WORD) va segment ≠ 0 := by
      simpa [h1] using hl'
    simp [fault_load, get_frame_ready env s hfr, map_page_ok env proc.p_pid va s hadd hal,
      h1, hsw, hl2, load_events, page_offset, VmState.log]

/-- The data path (segment other than 1) when the page gets its contents. -/
theorem fault_load_data (env : Env) (proc : Proc) (as : Addrspace) (segment : Int)
    (va : Nat) (s : VmState) (h : install_reached env proc.p_pid va)
    (h1 : segment ≠ 1) (hf : ¬ load_failed env as segment va) :
    fault_load env proc as segment va s = .ret 0
      { st_mapped env proc.p_pid va s with
        trace := (st_mapped env proc.p_pid va s).trace ++
          Event.zero_fill va PAGE_SIZE :: load_events env as segment va } := by
  obtain ⟨hfr, hadd, hal⟩ := h
  by_cases hsw : env.swap_in va = 0
  · simp [fault_load, get_frame_ready env s hfr, map_page_ok env proc.p_pid va s hadd hal,
      h1, hsw, load_events, VmState.log]
  · have hl : env.load_page (page_offset as segment va) va segment = 0 := by
      by_contra hc; exact hf ⟨Or.inr hsw, hc⟩
    have hl2 : env.load_page ((va + WORD - as.as_vbase2) % WORD) va segment = 0 := by
      simpa [page_offset, h1] using hl
    simp [fault_load, get_frame_ready env s hfr, map_page_ok env proc.p_pid va s hadd hal,
      h1, hsw, hl2, load_events, page_offset, VmState.log]

/-- The code path (segment 1) when the page is loaded: the entry found by the
probe is rewritten with `lo = 0`; without a matching entry the kernel panics. -/
theorem fault_load_code (env : Env) (proc : Proc) (as : Addrspace)
    (va : Nat) (s : VmState) (h : install_reached env proc.p_pid va)
    (hf : ¬ load_failed env as 1 va) :
    fault_load env proc as 1 va s =
      match tlb_find (st_mapped env proc.p_pid va s).tlb va with
      | some p => .ret 0
          { st_mapped env proc.p_pid va s with
            tlb := Function.update (st_mapped env proc.p_pid va s).tlb p ⟨va, 0⟩
            trace := (st_mapped env proc.p_pid va s).trace ++
              Event.zero_fill va PAGE_SIZE :: load_events env as 1 va ++
              [Event.splhigh, Event.tlb_probe va, Event.tlb_write va 0 p,
               Event.splx (st_mapped env proc.p_pid va s).ipl] }
      | none => .panic
          { st_mapped env proc.p_pid va s with
            ipl := 1
            trace := (st_mapped env proc.p_pid va s).trace ++
              Event.zero_fill va PAGE_SIZE :: load_events env as 1 va ++
              [Event.splhigh, Event.tlb_probe va] } := by
  obtain ⟨hfr, hadd, hal⟩ := h
  have hl : env.load_page (page_offset as 1 va) va 1 = 0 := by
    by_contra hc; exact hf ⟨Or.inl rfl, hc⟩
  have hl1 : env.load_page ((va + WORD - as.as_vbase1) % WORD) va 1 = 0 := by
    simpa [page_offset] using hl
  cases hp : tlb_find (st_mapped env proc.p_pid va s).tlb va with
  | none =>
    simp [fault_load, get_frame_ready env s hfr, map_page_ok env proc.p_pid va s hadd hal,
      hl1, load_events, page_offset, VmState.log, splhigh, tlb_probe, hp]
  | some p =>
    have hi : (0 : Int) ≤ (p : Int) := Int.ofNat_nonneg p
    simp [fault_load, get_frame_ready env s hfr, map_page_ok env proc.p_pid va s hadd hal,
      hl1, load_events, page_offset, VmState.log, splhigh, splx, tlb_probe, tlb_write, hp, hi,
      clear_dirty_zero]

theorem install_step_of_scan (t0 t1 : Nat → TlbEntry) (c0 c1 k : Nat) (e : TlbEntry)
    (ht : t1 = Function.update t0 k e)
    (h : (scan_slot t0 NUM_TLB 0 = some k ∧ c1 = c0) ∨
      (scan_slot t0 NUM_TLB 0 = none ∧ k = c0 ∧ c1 = (c0 + 1) % NUM_TLB)) :
    install_step t0 c0 e t1 c1 := by
  subst ht
  rcases h with ⟨hs, hc⟩ | ⟨hs, hk, hc⟩
  · obtain ⟨-, hlt, hinv, hbelow⟩ := scan_slot_some t0 NUM_TLB 0 k hs
    refine ⟨fun _ => ⟨k, by omega, hinv, fun j hj => hbelow j (Nat.zero_le j) hj, ?_, ?_, hc⟩,
      fun hall => absurd (hall k (by omega)) hinv⟩
    · simp
    · intro j hj; simp [Function.update, hj]
  · subst hk
    refine ⟨fun ⟨i, hi, hinv⟩ =>
      absurd (scan_slot_none t0 NUM_TLB 0 hs i (Nat.zero_le i) (by omega)) hinv,
      fun _ => ⟨?_, ?_, hc⟩⟩
    · simp
    · intro j hj; simp [Function.update, hj]

theorem scan_reads_setup (tlb : Nat → TlbEntry) (fuel i : Nat) :
    ∀ e ∈ scan_reads tlb fuel i, e.setup = true := by
  intro e he
  obtain ⟨j, rfl⟩ := scan_reads_are_reads tlb fuel i e he
  rfl

theorem frame_events_setup (env : Env) (tlb : Nat → TlbEntry) (ipl : Nat) :
    ∀ e ∈ frame_events env tlb ipl, e.setup = true := by
  have hall : (frame_events env tlb ipl).all Event.setup = true := by
    unfold frame_events
    split_ifs
    · cases hf : tlb_find tlb env.get_victim.2.1 <;> rfl
    · rfl
  exact fun e he => List.all_eq_true.mp hall e he

/-- Frame acquisition either succeeds as `get_frame_ready` says, or ends the
fault (`ret none`: the handler returns -1, or a panic) after setup events
only. -/
theorem get_frame_cases (env : Env) (s : VmState) :
    (frame_ready env ∧ get_frame env s = .ret (some (frame_of env)) (st_frame env s)) ∨
    (¬ frame_ready env ∧ ∃ evs s', (∀ e ∈ evs, e.setup = true) ∧
      s'.trace = s.trace ++ evs ∧ s'.count_tlb_miss_free = s.count_tlb_miss_free ∧
      s'.count_tlb_miss_replace = s.count_tlb_miss_replace ∧
      s'.next_victim = s.next_victim ∧
      (get_frame env s = .ret none s' ∨ get_frame env s = .panic s')) := by
  by_cases hfr : frame_ready env
  · exact Or.inl ⟨hfr, get_frame_ready env s hfr⟩
  · right
    refine ⟨hfr, ?_⟩
    have h0 : env.as_prepare_load 1 = 0 := by
      by_contra hc; exact hfr (Or.inl hc)
    cases hvs : victim_segment env with
    | none =>
      have hvs' : address_segment env.get_victim.2.1 (env.pid_getas env.get_victim.2.2)
          = none := hvs
      refine ⟨[Event.as_prepare_load 1, Event.get_victim, Event.pid_getas env.get_victim.2.2],
        _, ?_, ?_, ?_, ?_, ?_, Or.inr (by simp only [get_frame, h0, hvs']; rfl)⟩
      · exact fun e he => List.all_eq_true.mp (by rfl :
          ([Event.as_prepare_load 1, Event.get_victim,
            Event.pid_getas env.get_victim.2.2].all Event.setup) = true) e he
      · simp [VmState.log]
      · rfl
      · rfl
      · rfl
    | some vs =>
      by_cases hso : env.swap_out env.get_victim.2.1 vs = 0
      · have hfz : env.get_victim.1 = 0 := by
          by_contra hc; exact hfr (Or.inr ⟨vs, hvs, hso, hc⟩)
        have hvs' : address_segment env.get_victim.2.1 (env.pid_getas env.get_victim.2.2)
            = some vs := hvs
        refine ⟨frame_events env s.tlb s.ipl, st_frame env s, frame_events_setup env s.tlb s.ipl,
          rfl, rfl, rfl, rfl, Or.inr ?_⟩
        cases hf : tlb_find s.tlb env.get_victim.2.1 with
        | none =>
          simp [get_frame, h0, hvs', hso, hfz, st_frame, tlb_before_install,
            tlb_invalidate, frame_events, victim_segment, hf, splhigh, splx, tlb_probe,
            VmState.log]
        | some i =>
          have hi : (0 : Int) ≤ (i : Int) := Int.ofNat_nonneg i
          simp [get_frame, h0, hvs', hso, hfz, st_frame, tlb_before_install,
            tlb_invalidate, frame_events, victim_segment, hf, splhigh, splx, tlb_probe,
            tlb_write, VmState.log, hi]
      · refine ⟨[Event.as_prepare_load 1, Event.get_victim,
          Event.pid_getas env.get_victim.2.2, Event.swap_out env.get_victim.2.1 vs],
          _, ?_, ?_, ?_, ?_, ?_, Or.inl (get_frame_swap_out_fails env s vs h0 hvs hso)⟩
        · exact fun e he => List.all_eq_true.mp (by rfl :
            ([Event.as_prepare_load 1, Event.get_victim, Event.pid_getas env.get_victim.2.2,
              Event.swap_out env.get_victim.2.1 vs].all Event.setup) = true) e he
        · rfl
        · rfl
        · rfl
        · rfl

/-- When the install is not reached, `ipt_add` and the install end the fault
(`ret none`: the handler returns -1, or a panic) without touching the TLB. -/
theorem map_page_not_reached (env : Env) (pid : Int) (va : Nat) (s : VmState)
    (h : ¬ (env.ipt_add pid (frame_of env) va = 0 ∧
      frame_of env &&& PAGE_FRAME = frame_of env)) :
    map_page env pid (frame_of env) va s
        = .ret none (s.log (.ipt_add pid (frame_of env) va)) ∨
    map_page env pid (frame_of env) va s
        = .panic (s.log (.ipt_add pid (frame_of env) va)) := by
  by_cases hadd : env.ipt_add pid (frame_of env) va = 0
  · have hal : ¬ frame_of env &&& PAGE_FRAME = frame_of env := fun hc => h ⟨hadd, hc⟩
    right; simp [map_page, hadd, hal]
  · left; exact map_page_ipt_add_fails env pid _ va s hadd

theorem fault_load_frame_none (env : Env) (proc : Proc) (as : Addrspace) (segment : Int)
    (va : Nat) (s s' : VmState) (hg : get_frame env s = .ret none s') :
    fault_load env proc as segment va s = .ret (-1) s' := by
  simp only [fault_load, hg]

theorem fault_load_frame_panic (env : Env) (proc : Proc) (as : Addrspace) (segment : Int)
    (va : Nat) (s s' : VmState) (hg : get_frame env s = .panic s') :
    fault_load env proc as segment va s = .panic s' := by
  simp only [fault_load, hg]

theorem fault_load_map_none (env : Env) (proc : Proc) (as : Addrspace) (segment : Int)
    (va paddr : Nat) (s s2 s3 : VmState) (hg : get_frame env s = .ret (some paddr) s2)
    (hm : map_page env proc.p_pid paddr va s2 = .ret none s3) :
    fault_load env proc as segment va s = .ret (-1) s3 := by
  simp only [fault_load, hg, hm]

theorem fault_load_map_panic (env : Env) (proc : Proc) (as : Addrspace) (segment : Int)
    (va paddr : Nat) (s s2 s3 : VmState) (hg : get_frame env s = .ret (some paddr) s2)
    (hm : map_page env proc.p_pid paddr va s2 = .panic s3) :
    fault_load env proc as segment va s = .panic s3 := by
  simp only [fault_load, hg, hm]

theorem fault_stack_frame_none (env : Env) (proc : Proc)
    (va : Nat) (s s' : VmState) (hg : get_frame env s = .ret none s') :
    fault_stack env proc va s = .ret (-1) s' := by
  simp only [fault_stack, hg]

theorem fault_stack_frame_panic (env : Env) (proc : Proc)
    (va : Nat) (s s' : VmState) (hg : get_frame env s = .panic s') :
    fault_stack env proc va s = .panic s' := by
  simp only [fault_stack, hg]

theorem fault_stack_map_none (env : Env) (proc : Proc)
    (va paddr : Nat) (s s2 s3 : VmState) (hg : get_frame env s = .ret (some paddr) s2)
    (hm : map_page env proc.p_pid paddr va s2 = .ret none s3) :
    fault_stack env proc va s = .ret (-1) s3 := by
  simp only [fault_stack, hg, hm]

theorem fault_stack_map_panic (env : Env) (proc : Proc)
    (va paddr : Nat) (s s2 s3 : VmState) (hg : get_frame env s = .ret (some paddr) s2)
    (hm : map_page env proc.p_pid paddr va s2 = .panic s3) :
    fault_stack env proc va s = .panic s3 := by
  simp only [fault_stack, hg, hm]

theorem stopped_early_ret (s s' : VmState) (evs : List Event)
    (hev : ∀ e ∈ evs, e.setup = true) (htr : s'.trace = s.trace ++ evs)
    (hnv : s'.next_victim = s.next_victim)
    (hc1 : s'.count_tlb_miss_free = s.count_tlb_miss_free)
    (hc2 : s'.count_tlb_miss_replace = s.count_tlb_miss_replace) :
    stopped_early (.ret (-1) s') s :=
  ⟨evs, hev, htr, by simp [Res.val?], rfl, hnv, hc1, hc2⟩

theorem stopped_early_panic (s s' : VmState) (evs : List Event)
    (hev : ∀ e ∈ evs, e.setup = true) (htr : s'.trace = s.trace ++ evs)
    (hnv : s'.next_victim = s.next_victim)
    (hc1 : s'.count_tlb_miss_free = s.count_tlb_miss_free)
    (hc2 : s'.count_tlb_miss_replace = s.count_tlb_miss_replace) :
    stopped_early (.panic s') s :=
  ⟨evs, hev, htr, by simp [Res.val?], rfl, hnv, hc1, hc2⟩

theorem frame_then_add_setup (env : Env) (pid : Int) (va : Nat) (s : VmState) :
    ∀ e ∈ frame_events env s.tlb s.ipl ++ [Event.ipt_add pid (frame_of env) va],
      e.setup = true := by
  intro e he
  rcases List.mem_append.mp he with he | he
  · exact frame_events_setup env s.tlb s.ipl e he
  · simp only [List.mem_singleton] at he; subst he; rfl

/-- A code/data fault that does not reach the install stops early. -/
theorem fault_load_not_reached (env : Env) (proc : Proc) (as : Addrspace) (segment : Int)
    (va : Nat) (s : VmState) (h : ¬ install_reached env proc.p_pid va) :
    stopped_early (fault_load env proc as segment va s) s := by
  rcases get_frame_cases env s with ⟨hfr, hg⟩ | ⟨-, evs, s', hev, htr, hc1, hc2, hnv, hg | hg⟩
  · have hm : ¬ (env.ipt_add proc.p_pid (frame_of env) va = 0 ∧
        frame_of env &&& PAGE_FRAME = frame_of env) := fun hc => h ⟨hfr, hc.1, hc.2⟩
    rcases map_page_not_reached env proc.p_pid va (st_frame env s) hm with hmp | hmp
    · rw [fault_load_map_none env proc as segment va _ s _ _ hg hmp]
      exact stopped_early_ret s _ _ (frame_then_add_setup env proc.p_pid va s)
        (by simp [VmState.log, st_frame]) rfl rfl rfl
    · rw [fault_load_map_panic env proc as segment va _ s _ _ hg hmp]
      exact stopped_early_panic s _ _ (frame_then_add_setup env proc.p_pid va s)
        (by simp [VmState.log, st_frame]) rfl rfl rfl
  · rw [fault_load_frame_none env proc as segment va s s' hg]
    exact stopped_early_ret s s' evs hev htr hnv hc1 hc2
  · rw [fault_load_frame_panic env proc as segment va s s' hg]
    exact stopped_early_panic s s' evs hev htr hnv hc1 hc2

/-- A stack fault that does not reach the install stops early. -/
theorem fault_stack_not_reached (env : Env) (proc : Proc)
    (va : Nat) (s : VmState) (h : ¬ install_reached env proc.p_pid va) :
    stopped_early (fault_stack env proc va s) s := by
  rcases get_frame_cases env s with ⟨hfr, hg⟩ | ⟨-, evs, s', hev, htr, hc1, hc2, hnv, hg | hg⟩
  · have hm : ¬ (env.ipt_add proc.p_pid (frame_of env) va = 0 ∧
        frame_of env &&& PAGE_FRAME = frame_of env) := fun hc => h ⟨hfr, hc.1, hc.2⟩
    rcases map_page_not_reached env proc.p_pid va (st_frame env s) hm with hmp | hmp
    · rw [fault_stack_map_none env proc va _ s _ _ hg hmp]
      exact stopped_early_ret s _ _ (frame_then_add_setup env proc.p_pid va s)
        (by simp [VmState.log, st_frame]) rfl rfl rfl
    · rw [fault_stack_map_panic env proc va _ s _ _ hg hmp]
      exact stopped_early_panic s _ _ (frame_then_add_setup env proc.p_pid va s)
        (by simp [VmState.log, st_frame]) rfl rfl rfl
  · rw [fault_stack_frame_none env proc va s s' hg]
    exact stopped_early_ret s s' evs hev htr hnv hc1 hc2
  · rw [fault_stack_frame_panic env proc va s s' hg]
    exact stopped_early_panic s s' evs hev htr hnv hc1 hc2

/-- The whole trace of a code/data fault that reaches the install: frame
acquisition, `ipt_add`, the install, the zero fill, the page source, and a tail
of setup events (the rewrite of a code page). -/
theorem fault_load_trace (env : Env) (proc : Proc) (as : Addrspace) (segment : Int)
    (va : Nat) (s : VmState) (h : install_reached env proc.p_pid va) :
    ∃ k tail, (∀ e ∈ tail, e.setup = true) ∧
      (fault_load env proc as segment va s).exit? = none ∧
      (fault_load env proc as segment va s).state.trace
        = s.trace ++ frame_events env s.tlb s.ipl ++
          [Event.ipt_add proc.p_pid (frame_of env) va, Event.splhigh] ++
          scan_reads (tlb_before_install env s.tlb) NUM_TLB 0 ++
          [Event.tlb_write va (install_lo (frame_of env)) k, Event.splx s.ipl] ++
          Event.zero_fill va PAGE_SIZE :: load_events env as segment va ++ tail := by
  obtain ⟨k, ht, -⟩ := st_mapped_spec env proc.p_pid va s
  by_cases hf : load_failed env as segment va
  · refine ⟨k, [], by simp, ?_, ?_⟩
    · rw [fault_load_failed env proc as segment va s h hf]; rfl
    · rw [fault_load_failed env proc as segment va s h hf]
      simp [Res.state, ht]
  · by_cases h1 : segment = 1
    · subst h1
      rw [fault_load_code env proc as va s h hf]
      cases hp : tlb_find (st_mapped env proc.p_pid va s).tlb va with
      | none =>
        refine ⟨k, [Event.splhigh, Event.tlb_probe va], ?_, rfl, ?_⟩
        · exact fun e he => List.all_eq_true.mp (by rfl :
            ([Event.splhigh, Event.tlb_probe va].all Event.setup) = true) e he
        · simp [Res.state, ht]
      | some p =>
        refine ⟨k, [Event.splhigh, Event.tlb_probe va, Event.tlb_write va 0 p,
          Event.splx (st_mapped env proc.p_pid va s).ipl], ?_, rfl, ?_⟩
        · exact fun e he => List.all_eq_true.mp (by rfl :
            ([Event.splhigh, Event.tlb_probe va, Event.tlb_write va 0 p,
              Event.splx (st_mapped env proc.p_pid va s).ipl].all Event.setup) = true) e he
        · simp [Res.state, ht]
    · refine ⟨k, [], by simp, ?_, ?_⟩
      · rw [fault_load_data env proc as segment va s h h1 hf]; rfl
      · rw [fault_load_data env proc as segment va s h h1 hf]
        simp [Res.state, ht]

theorem setup_no_exit (l : List Event) (h : ∀ e ∈ l, e.setup = true) :
    ∀ st, Event.sys__exit st ∉ l := by
  intro st hmem
  have := h _ hmem
  simp [Event.setup] at this

theorem no_exit_append (l1 l2 : List Event) (h1 : ∀ st, Event.sys__exit st ∉ l1)
    (h2 : ∀ st, Event.sys__exit st ∉ l2) : ∀ st, Event.sys__exit st ∉ l1 ++ l2 := by
  intro st hmem
  rcases List.mem_append.mp hmem with h | h
  · exact h1 st h
  · exact h2 st h

theorem load_events_no_exit (env : Env) (as : Addrspace) (segment : Int) (va : Nat) :
    ∀ st, Event.sys__exit st ∉ load_events env as segment va := by
  intro st
  unfold load_events
  split_ifs <;> simp

/-! ## Lemmas on the counters -/

theorem scan_slot_ne_none_iff (tlb : Nat → TlbEntry) :
    scan_slot tlb NUM_TLB 0 ≠ none ↔ ∃ i, i < NUM_TLB ∧ ¬ entry_valid (tlb i) := by
  constructor
  · intro h
    cases hs : scan_slot tlb NUM_TLB 0 with
    | none => exact absurd hs h
    | some k =>
      obtain ⟨-, hlt, hinv, -⟩ := scan_slot_some tlb NUM_TLB 0 k hs
      exact ⟨k, by omega, hinv⟩
  · rintro ⟨i, hi, hinv⟩ hs
    exact hinv (scan_slot_none tlb NUM_TLB 0 hs i (Nat.zero_le i) (by omega))

/-- The fields a code/data fault that reaches the install leaves as the
install left them. -/
theorem fault_load_reached_fields (env : Env) (proc : Proc) (as : Addrspace)
    (segment : Int) (va : Nat) (s : VmState) (h : install_reached env proc.p_pid va) :
    (fault_load env proc as segment va s).state.next_victim
      = (st_mapped env proc.p_pid va s).next_victim ∧
    (fault_load env proc as segment va s).state.count_tlb_miss
      = (st_mapped env proc.p_pid va s).count_tlb_miss ∧
    (fault_load env proc as segment va s).state.count_tlb_miss_free
      = (st_mapped env proc.p_pid va s).count_tlb_miss_free ∧
    (fault_load env proc as segment va s).state.count_tlb_miss_replace
      = (st_mapped env proc.p_pid va s).count_tlb_miss_replace := by
  by_cases hf : load_failed env as segment va
  · rw [fault_load_failed env proc as segment va s h hf]; exact ⟨rfl, rfl, rfl, rfl⟩
  · by_cases h1 : segment = 1
    · subst h1
      rw [fault_load_code env proc as va s h hf]
      split <;> exact ⟨rfl, rfl, rfl, rfl⟩
    · rw [fault_load_data env proc as segment va s h h1 hf]; exact ⟨rfl, rfl, rfl, rfl⟩

/-- The counters after the install on a non-resident path, as a
`counter_step`-style alternative. -/
theorem st_mapped_counts (env : Env) (pid : Int) (va : Nat) (s : VmState) :
    (st_mapped env pid va s).count_tlb_miss = s.count_tlb_miss ∧
    ((scan_slot (tlb_before_install env s.tlb) NUM_TLB 0 ≠ none ∧
        (st_mapped env pid va s).count_tlb_miss_free = s.count_tlb_miss_free + 1 ∧
        (st_mapped env pid va s).count_tlb_miss_replace = s.count_tlb_miss_replace) ∨
      (scan_slot (tlb_before_install env s.tlb) NUM_TLB 0 = none ∧
        (st_mapped env pid va s).count_tlb_miss_free = s.count_tlb_miss_free ∧
        (st_mapped env pid va s).count_tlb_miss_replace
          = s.count_tlb_miss_replace + 1)) := by
  obtain ⟨k, -, -, -, hm, hc⟩ := st_mapped_spec env pid va s
  refine ⟨hm, ?_⟩
  rcases hc with ⟨h1, -, h3, h4⟩ | ⟨h1, -, -, h3, h4⟩
  · exact Or.inl ⟨by rw [h1]; simp, h3, h4⟩
  · exact Or.inr ⟨h1, h3, h4⟩

theorem get_frame_count_miss (env : Env) (s : VmState) :
    (get_frame env s).state.count_tlb_miss = s.count_tlb_miss := by
  by_cases h0 : env.as_prepare_load 1 = 0
  · cases hvs : address_segment env.get_victim.2.1 (env.pid_getas env.get_victim.2.2) with
    | none => simp [get_frame, h0, hvs, Res.state, VmState.log]
    | some vs =>
      by_cases hso : env.swap_out env.get_victim.2.1 vs = 0
      · by_cases hfz : env.get_victim.1 = 0 <;>
          cases hf : tlb_find s.tlb env.get_victim.2.1 <;>
          simp [get_frame, h0, hvs, hso, hfz, hf, Res.state, splhigh, splx, tlb_probe,
            tlb_write, VmState.log]
      · simp [get_frame, h0, hvs, hso, Res.state, VmState.log]
  · simp [get_frame, h0, Res.state, VmState.log]

theorem fault_load_not_reached_count (env : Env) (proc : Proc) (as : Addrspace)
    (segment : Int) (va : Nat) (s : VmState) (h : ¬ install_reached env proc.p_pid va) :
    (fault_load env proc as segment va s).state.count_tlb_miss = s.count_tlb_miss := by
  have hgc := get_frame_count_miss env s
  rcases get_frame_cases env s with ⟨hfr, hg⟩ | ⟨-, evs, s', -, -, -, -, -, hg | hg⟩
  · have hm : ¬ (env.ipt_add proc.p_pid (frame_of env) va = 0 ∧
        frame_of env &&& PAGE_FRAME = frame_of env) := fun hc => h ⟨hfr, hc.1, hc.2⟩
    rcases map_page_not_reached env proc.p_pid va (st_frame env s) hm with hmp | hmp
    · rw [fault_load_map_none env proc as segment va _ s _ _ hg hmp]; rfl
    · rw [fault_load_map_panic env proc as segment va _ s _ _ hg hmp]; rfl
  · rw [fault_load_frame_none env proc as segment va s s' hg]
    rw [hg] at hgc; exact hgc
  · rw [fault_load_frame_panic env proc as segment va s s' hg]
    rw [hg] at hgc; exact hgc

theorem fault_stack_not_reached_count (env : Env) (proc : Proc)
    (va : Nat) (s : VmState) (h : ¬ install_reached env proc.p_pid va) :
    (fault_stack env proc va s).state.count_tlb_miss = s.count_tlb_miss := by
  have hgc := get_frame_count_miss env s
  rcases get_frame_cases env s with ⟨hfr, hg⟩ | ⟨-, evs, s', -, -, -, -, -, hg | hg⟩
  · have hm : ¬ (env.ipt_add proc.p_pid (frame_of env) va = 0 ∧
        frame_of env &&& PAGE_FRAME = frame_of env) := fun hc => h ⟨hfr, hc.1, hc.2⟩
    rcases map_page_not_reached env proc.p_pid va (st_frame env s) hm with hmp | hmp
    · rw [fault_stack_map_none env proc va _ s _ _ hg hmp]; rfl
    · rw [fault_stack_map_panic env proc va _ s _ _ hg hmp]; rfl
  · rw [fault_stack_frame_none env proc va s s' hg]
    rw [hg] at hgc; exact hgc
  · rw [fault_stack_frame_panic env proc va s s' hg]
    rw [hg] at hgc; exact hgc

/-- Every fault either ends before the IPT lookup (in `sys__exit(-1)`, in the
return of a non-zero error code, or in a panic), having changed nothing but
`count_tlb_miss` and, for the exit, the trace; or it is a READ or WRITE fault of
a process whose address space classifies the aligned address into a segment. -/
theorem vm_fault_early_or_dispatch (env : Env) (faulttype : Int) (faultaddress : Nat)
    (s : VmState) :
    vm_fault env faulttype faultaddress s
      = .exited (-1) (({ s with count_tlb_miss := s.count_tlb_miss + 1 }).log
          (.sys__exit (-1))) ∨
    (∃ v, v ≠ 0 ∧ vm_fault env faulttype faultaddress s
      = .ret v { s with count_tlb_miss := s.count_tlb_miss + 1 }) ∨
    vm_fault env faulttype faultaddress s
      = .panic { s with count_tlb_miss := s.count_tlb_miss + 1 } ∨
    (∃ proc as segment, (faulttype = VM_FAULT_READ ∨ faulttype = VM_FAULT_WRITE) ∧
      env.curproc = some proc ∧ proc.p_addrspace = some as ∧
      address_segment (faultaddress &&& PAGE_FRAME) (some as) = some segment ∧
      segment ≠ EFAULT) := by
  by_cases hro : faulttype = VM_FAULT_READONLY
  · left; simp [vm_fault, hro]
  · by_cases hft : faulttype = VM_FAULT_READ ∨ faulttype = VM_FAULT_WRITE
    · cases hp : env.curproc with
      | none =>
        right; left
        exact ⟨EFAULT, by decide, by simp [vm_fault, hro, hft, hp]⟩
      | some proc =>
        cases has : proc.p_addrspace with
        | none =>
          right; left
          exact ⟨EFAULT, by decide, by simp [vm_fault, hro, hft, hp, has]⟩
        | some as =>
          cases hseg : address_segment (faultaddress &&& PAGE_FRAME) (some as) with
          | none =>
            right; right; left
            simp [vm_fault, hro, hft, hp, has, hseg]
          | some segment =>
            by_cases hne : segment = EFAULT
            · right; left
              exact ⟨EFAULT, by decide, by simp [vm_fault, hro, hft, hp, has, hseg, hne]⟩
            · right; right; right
              exact ⟨proc, as, segment, hft, rfl, has, hseg, hne⟩
    · right; left
      exact ⟨EINVAL, by decide, by simp [vm_fault, hro, hft]⟩

/-- One fault adds 1 to `count_tlb_miss` and makes one `counter_step`. -/
theorem vm_fault_counter_step (env : Env) (faulttype : Int) (faultaddress : Nat)
    (s : VmState) :
    (vm_fault env faulttype faultaddress s).state.count_tlb_miss = s.count_tlb_miss + 1 ∧
    counter_step s (vm_fault env faulttype faultaddress s)
      (tlb_at_install env s faultaddress) := by
  rcases vm_fault_early_or_dispatch env faulttype faultaddress s with
    h | ⟨v, hv, h⟩ | h | ⟨proc, as, segment, hft, hp, has, hseg, hne⟩
  · rw [h]; exact ⟨rfl, Or.inl ⟨rfl, rfl, by simp [Res.val?]⟩⟩
  · rw [h]; exact ⟨rfl, Or.inl ⟨rfl, rfl, by simp [Res.val?, hv]⟩⟩
  · rw [h]; exact ⟨rfl, Or.inl ⟨rfl, rfl, by simp [Res.val?]⟩⟩
  · rw [vm_fault_dispatch env faulttype faultaddress s proc as segment hft hp has hseg hne]
    by_cases hl : env.ipt_lookup proc.p_pid (faultaddress &&& PAGE_FRAME) = 0
    · have ht0 : tlb_at_install env s faultaddress = tlb_before_install env s.tlb := by
        simp [tlb_at_install, hp, hl]
      rw [if_pos hl, ht0]
      by_cases hreach : install_reached env proc.p_pid (faultaddress &&& PAGE_FRAME)
      · obtain ⟨hm, hc⟩ := st_mapped_counts env proc.p_pid (faultaddress &&& PAGE_FRAME)
          (({ s with count_tlb_miss := s.count_tlb_miss + 1 }).log
            (.ipt_lookup proc.p_pid (faultaddress &&& PAGE_FRAME)))
        by_cases h12 : segment = 1 ∨ segment = 2
        · rw [if_pos h12]
          obtain ⟨-, f2, f3, f4⟩ := fault_load_reached_fields env proc as segment
            (faultaddress &&& PAGE_FRAME)
            (({ s with count_tlb_miss := s.count_tlb_miss + 1 }).log
              (.ipt_lookup proc.p_pid (faultaddress &&& PAGE_FRAME))) hreach
          refine ⟨by rw [f2, hm]; rfl, Or.inr ?_⟩
          rw [f3, f4]
          exact hc
        · rw [if_neg h12, fault_stack_eq env proc _ _ hreach]
          exact ⟨by simpa [Res.state] using hm, Or.inr hc⟩
      · have hstop : stopped_early
            (if segment = 1 ∨ segment = 2 then
              fault_load env proc as segment (faultaddress &&& PAGE_FRAME)
                (({ s with count_tlb_miss := s.count_tlb_miss + 1 }).log
                  (.ipt_lookup proc.p_pid (faultaddress &&& PAGE_FRAME)))
            else
              fault_stack env proc (faultaddress &&& PAGE_FRAME)
                (({ s with count_tlb_miss := s.count_tlb_miss + 1 }).log
                  (.ipt_lookup proc.p_pid (faultaddress &&& PAGE_FRAME))))
            (({ s with count_tlb_miss := s.count_tlb_miss + 1 }).log
              (.ipt_lookup proc.p_pid (faultaddress &&& PAGE_FRAME))) := by
          split_ifs
          · exact fault_load_not_reached env proc as segment _ _ hreach
          · exact fault_stack_not_reached env proc _ _ hreach
        obtain ⟨evs, -, -, hv, -, -, hc1, hc2⟩ := hstop
        refine ⟨?_, Or.inl ⟨hc1, hc2, hv⟩⟩
        split_ifs
        · rw [fault_load_not_reached_count env proc as segment _ _ hreach]; rfl
        · rw [fault_stack_not_reached_count env proc _ _ hreach]; rfl
    · have ht0 : tlb_at_install env s faultaddress = s.tlb := by
        simp [tlb_at_install, hp, hl]
      rw [if_neg hl, ht0]
      by_cases hal : env.ipt_lookup proc.p_pid (faultaddress &&& PAGE_FRAME) &&& PAGE_FRAME
          = env.ipt_lookup proc.p_pid (faultaddress &&& PAGE_FRAME)
      · obtain ⟨k, -, -, -, hm, hc⟩ := tlb_install_spec (faultaddress &&& PAGE_FRAME)
          (env.ipt_lookup proc.p_pid (faultaddress &&& PAGE_FRAME)) s.ipl
          (splhigh (({ s with count_tlb_miss := s.count_tlb_miss + 1 }).log
            (.ipt_lookup proc.p_pid (faultaddress &&& PAGE_FRAME)))).2
        simp only [fault_resident, hal, ne_eq, not_true_eq_false, if_false, Res.state]
        refine ⟨by simpa [splhigh, VmState.log] using hm, Or.inr ?_⟩
        rcases hc with ⟨h1, -, h3, h4⟩ | ⟨h1, -, -, h3, h4⟩
        · left
          exact ⟨by
              have h1' : scan_slot s.tlb NUM_TLB 0 = some k := by
                simpa [splhigh, VmState.log] using h1
              rw [h1']; simp,
            by simpa [splhigh, VmState.log] using h3,
            by simpa [splhigh, VmState.log] using h4⟩
        · right
          exact ⟨by simpa [splhigh, VmState.log] using h1,
            by simpa [splhigh, VmState.log] using h3,
            by simpa [splhigh, VmState.log] using h4⟩
      · simp only [fault_resident, hal, ne_eq, not_false_eq_true, if_true, Res.state]
        exact ⟨rfl, Or.inl ⟨rfl, rfl, by simp [Res.val?]⟩⟩

/-! ## Further lemmas on the non-resident paths -/

theorem aligned_idem (a : Nat) : (a &&& PAGE_FRAME) &&& PAGE_FRAME = a &&& PAGE_FRAME := by
  rw [Nat.and_assoc, Nat.and_self]

theorem frame_of_eq (env : Env) :
    frame_of env
      = if env.as_prepare_load 1 ≠ 0 then env.as_prepare_load 1 else env.get_victim.1 := by
  unfold frame_of
  by_cases h : env.as_prepare_load 1 = 0 <;> simp [h]

/-- The only TLB write of a frame acquisition is the invalidation of a slot. -/
theorem frame_events_writes (env : Env) (tlb : Nat → TlbEntry) (ipl : Nat)
    (hi lo i : Nat) (h : Event.tlb_write hi lo i ∈ frame_events env tlb ipl) :
    hi = TLBHI_INVALID i ∧ lo = TLBLO_INVALID := by
  unfold frame_events at h
  split_ifs at h
  · cases hf : tlb_find tlb env.get_victim.2.1 with
    | none => simp [hf] at h
    | some j =>
      simp only [hf, List.mem_append, List.mem_cons, List.mem_singleton, List.not_mem_nil,
        or_false, reduceCtorEq, false_or, Event.tlb_write.injEq] at h
      obtain ⟨h1, h2, h3⟩ := h
      subst h3
      exact ⟨h1, h2⟩
  · simp at h

/-- A non-resident fault on a page outside segment 1 that returns 0 has reached
the install, and its final TLB is the one the install left. -/
theorem nonresident_writable_final (env : Env) (proc : Proc) (as : Addrspace)
    (segment : Int) (va : Nat) (s : VmState) (h1 : segment ≠ 1)
    (hret : (if segment = 1 ∨ segment = 2 then fault_load env proc as segment va s
      else fault_stack env proc va s).val? = some 0) :
    install_reached env proc.p_pid va ∧
    (if segment = 1 ∨ segment = 2 then fault_load env proc as segment va s
      else fault_stack env proc va s).state.tlb = (st_mapped env proc.p_pid va s).tlb ∧
    ∃ post, (if segment = 1 ∨ segment = 2 then fault_load env proc as segment va s
      else fault_stack env proc va s).state.trace
        = (st_mapped env proc.p_pid va s).trace ++ post := by
  have hreach : install_reached env proc.p_pid va := by
    by_contra hc
    have hstop : stopped_early
        (if segment = 1 ∨ segment = 2 then fault_load env proc as segment va s
          else fault_stack env proc va s) s := by
      split_ifs
      · exact fault_load_not_reached env proc as segment va s hc
      · exact fault_stack_not_reached env proc va s hc
    obtain ⟨-, -, -, hv, -⟩ := hstop
    exact hv hret
  refine ⟨hreach, ?_⟩
  by_cases h12 : segment = 1 ∨ segment = 2
  · rw [if_pos h12] at hret ⊢
    by_cases hf : load_failed env as segment va
    · rw [fault_load_failed env proc as segment va s hreach hf] at hret
      simp [Res.val?] at hret
    · rw [fault_load_data env proc as segment va s hreach h1 hf]
      exact ⟨rfl, _, rfl⟩
  · rw [if_neg h12, fault_stack_eq env proc va s hreach]
    exact ⟨rfl, _, rfl⟩

/-! ## Lemmas on the round-robin cursor and on keys -/

theorem KEYcompare_eq_zero (k1 k2 : Key) :
    KEYcompare k1 k2 = 0 ↔ (k1.kaddr = k2.kaddr ∧ k1.kpid = k2.kpid) := by
  unfold KEYcompare
  by_cases h : k1.kaddr = k2.kaddr ∧ k1.kpid = k2.kpid
  · simp [h]
  · rw [if_neg h]
    exact ⟨fun hc => absurd hc (by decide), fun hc => absurd hc h⟩

theorem rr_calls_cursor (s : VmState) (h : s.next_victim = 0) (n : Nat) :
    (rr_calls n s).next_victim = n % NUM_TLB := by
  induction n with
  | zero => simp [rr_calls, h]
  | succ n ih =>
    simp only [rr_calls, tlb_get_rr_victim, next_victim_step, ih]
    simp only [NUM_TLB]
    omega

/-- A non-resident fault stops with -1 in the state frame acquisition left when
that returns `none`, and in the state `map_page` left when that returns
`none`. -/
theorem nonresident_frame_none (env : Env) (proc : Proc) (as : Addrspace)
    (segment : Int) (va : Nat) (s s' : VmState) (hg : get_frame env s = .ret none s') :
    (if segment = 1 ∨ segment = 2 then fault_load env proc as segment va s
      else fault_stack env proc va s) = .ret (-1) s' := by
  split_ifs
  · exact fault_load_frame_none env proc as segment va s s' hg
  · exact fault_stack_frame_none env proc va s s' hg

theorem nonresident_map_none (env : Env) (proc : Proc) (as : Addrspace)
    (segment : Int) (va paddr : Nat) (s s2 s3 : VmState)
    (hg : get_frame env s = .ret (some paddr) s2)
    (hm : map_page env proc.p_pid paddr va s2 = .ret none s3) :
    (if segment = 1 ∨ segment = 2 then fault_load env proc as segment va s
      else fault_stack env proc va s) = .ret (-1) s3 := by
  split_ifs
  · exact fault_load_map_none env proc as segment va paddr s s2 s3 hg hm
  · exact fault_stack_map_none env proc va paddr s s2 s3 hg hm

/-! ## The events of a non-resident fault, case by case -/

theorem acquire_events_ready (env : Env) (tlb : Nat → TlbEntry) (ipl : Nat)
    (h : frame_ready env) : acquire_events env tlb ipl = frame_events env tlb ipl := by
  unfold acquire_events
  by_cases h0 : env.as_prepare_load 1 = 0
  · rcases h with h | ⟨vs, hvs, hso, -⟩
    · exact absurd h0 h
    · simp [h0, hvs, hso]
  · simp [h0, frame_events]

theorem get_frame_trace (env : Env) (s : VmState) :
    (get_frame env s).state.trace = s.trace ++ acquire_events env s.tlb s.ipl ∧
    (get_frame env s).state.ipl = s.ipl := by
  by_cases h0 : env.as_prepare_load 1 = 0
  · cases hvs : address_segment env.get_victim.2.1 (env.pid_getas env.get_victim.2.2) with
    | none =>
      have hvs' : victim_segment env = none := hvs
      simp [get_frame, h0, hvs, hvs', acquire_events, Res.state, VmState.log]
    | some vs =>
      have hvs' : victim_segment env = some vs := hvs
      by_cases hso : env.swap_out env.get_victim.2.1 vs = 0
      · by_cases hfz : env.get_victim.1 = 0 <;>
          cases hf : tlb_find s.tlb env.get_victim.2.1 <;>
          simp [get_frame, h0, hvs, hvs', hso, hfz, hf, acquire_events, frame_events,
            Res.state, splhigh, splx, tlb_probe, tlb_write, VmState.log]
      · simp [get_frame, h0, hvs, hvs', hso, acquire_events, Res.state, VmState.log]
  · simp [get_frame, h0, acquire_events, Res.state, VmState.log]

theorem nonresident_frame_panic (env : Env) (proc : Proc) (as : Addrspace)
    (segment : Int) (va : Nat) (s s' : VmState) (hg : get_frame env s = .panic s') :
    (if segment = 1 ∨ segment = 2 then fault_load env proc as segment va s
      else fault_stack env proc va s) = .panic s' := by
  split_ifs
  · exact fault_load_frame_panic env proc as segment va s s' hg
  · exact fault_stack_frame_panic env proc va s s' hg

theorem nonresident_map_panic (env : Env) (proc : Proc) (as : Addrspace)
    (segment : Int) (va paddr : Nat) (s s2 s3 : VmState)
    (hg : get_frame env s = .ret (some paddr) s2)
    (hm : map_page env proc.p_pid paddr va s2 = .panic s3) :
    (if segment = 1 ∨ segment = 2 then fault_load env proc as segment va s
      else fault_stack env proc va s) = .panic s3 := by
  split_ifs
  · exact fault_load_map_panic env proc as segment va paddr s s2 s3 hg hm
  · exact fault_stack_map_panic env proc va paddr s s2 s3 hg hm

/-- No frame is obtained: the fault ends with the events of the acquisition; it
does not return 0 and does not exit, and the interrupt level is as at entry. -/
theorem nonresident_no_frame (env : Env) (proc : Proc) (as : Addrspace)
    (segment : Int) (va : Nat) (s : VmState) (h : ¬ frame_ready env) :
    (if segment = 1 ∨ segment = 2 then fault_load env proc as segment va s
      else fault_stack env proc va s).state.trace
        = s.trace ++ acquire_events env s.tlb s.ipl ∧
    (if segment = 1 ∨ segment = 2 then fault_load env proc as segment va s
      else fault_stack env proc va s).state.ipl = s.ipl ∧
    (if segment = 1 ∨ segment = 2 then fault_load env proc as segment va s
      else fault_stack env proc va s).val? ≠ some 0 ∧
    (if segment = 1 ∨ segment = 2 then fault_load env proc as segment va s
      else fault_stack env proc va s).exit? = none := by
  obtain ⟨ht, hi⟩ := get_frame_trace env s
  rcases get_frame_cases env s with ⟨hfr, -⟩ | ⟨-, evs, s', -, -, -, -, -, hg | hg⟩
  · exact absurd hfr h
  · rw [nonresident_frame_none env proc as segment va s s' hg]
    rw [hg] at ht hi
    exact ⟨ht, hi, by simp [Res.val?], rfl⟩
  · rw [nonresident_frame_panic env proc as segment va s s' hg]
    rw [hg] at ht hi
    exact ⟨ht, hi, by simp [Res.val?], rfl⟩

/-- A frame is obtained but the install is not reached: the fault ends right
after `ipt_add`. -/
theorem nonresident_no_install (env : Env) (proc : Proc) (as : Addrspace)
    (segment : Int) (va : Nat) (s : VmState) (hfr : frame_ready env)
    (h : ¬ install_reached env proc.p_pid va) :
    (if segment = 1 ∨ segment = 2 then fault_load env proc as segment va s
      else fault_stack env proc va s).state.trace
        = s.trace ++ frame_events env s.tlb s.ipl ++
          [Event.ipt_add proc.p_pid (frame_of env) va] ∧
    (if segment = 1 ∨ segment = 2 then fault_load env proc as segment va s
      else fault_stack env proc va s).state.ipl = s.ipl ∧
    (if segment = 1 ∨ segment = 2 then fault_load env proc as segment va s
      else fault_stack env proc va s).val? ≠ some 0 ∧
    (if segment = 1 ∨ segment = 2 then fault_load env proc as segment va s
      else fault_stack env proc va s).exit? = none := by
  have hm : ¬ (env.ipt_add proc.p_pid (frame_of env) va = 0 ∧
      frame_of env &&& PAGE_FRAME = frame_of env) := fun hc => h ⟨hfr, hc.1, hc.2⟩
  rcases map_page_not_reached env proc.p_pid va (st_frame env s) hm with hmp | hmp
  · rw [nonresident_map_none env proc as segment va _ s _ _ (get_frame_ready env s hfr) hmp]
    exact ⟨by simp [Res.state, VmState.log, st_frame], rfl, by simp [Res.val?], rfl⟩
  · rw [nonresident_map_panic env proc as segment va _ s _ _ (get_frame_ready env s hfr) hmp]
    exact ⟨by simp [Res.state, VmState.log, st_frame], rfl, by simp [Res.val?], rfl⟩

/-- The install is reached: the fault goes on with `fill_events`; it does not
exit, and when it returns the interrupt level is as the install left it. -/
theorem nonresident_installed (env : Env) (proc : Proc) (as : Addrspace)
    (segment : Int) (va : Nat) (s : VmState) (h : install_reached env proc.p_pid va) :
    (if segment = 1 ∨ segment = 2 then fault_load env proc as segment va s
      else fault_stack env proc va s).state.trace
        = (st_mapped env proc.p_pid va s).trace ++
          fill_events env as segment va (st_mapped env proc.p_pid va s).tlb
            (st_mapped env proc.p_pid va s).ipl ∧
    ((if segment = 1 ∨ segment = 2 then fault_load env proc as segment va s
      else fault_stack env proc va s).val? ≠ none →
      (if segment = 1 ∨ segment = 2 then fault_load env proc as segment va s
        else fault_stack env proc va s).state.ipl = (st_mapped env proc.p_pid va s).ipl) ∧
    (if segment = 1 ∨ segment = 2 then fault_load env proc as segment va s
      else fault_stack env proc va s).exit? = none := by
  by_cases h12 : segment = 1 ∨ segment = 2
  · rw [if_pos h12]
    by_cases hf : load_failed env as segment va
    · rw [fault_load_failed env proc as segment va s h hf]
      refine ⟨?_, fun _ => rfl, rfl⟩
      simp [Res.state, fill_events, h12, hf]
    · by_cases h1 : segment = 1
      · subst h1
        rw [fault_load_code env proc as va s h hf]
        cases hp : tlb_find (st_mapped env proc.p_pid va s).tlb va with
        | none =>
          refine ⟨?_, fun hv => absurd rfl hv, rfl⟩
          simp [Res.state, fill_events, hf, rewrite_events, hp]
        | some p =>
          refine ⟨?_, fun _ => rfl, rfl⟩
          simp [Res.state, fill_events, hf, rewrite_events, hp, clear_dirty_zero]
      · rw [fault_load_data env proc as segment va s h h1 hf]
        refine ⟨?_, fun _ => rfl, rfl⟩
        unfold fill_events
        rw [if_pos h12, if_neg (fun hc => h1 hc.1)]
        simp [Res.state]
  · rw [if_neg h12, fault_stack_eq env proc va s h]
    refine ⟨?_, fun _ => rfl, rfl⟩
    simp only [Res.state, fill_events, if_neg h12]

theorem acquire_events_evicting (env : Env) (tlb : Nat → TlbEntry) (ipl : Nat) :
    ∀ e ∈ acquire_events env tlb ipl, e.evicting = true := by
  have hall : (acquire_events env tlb ipl).all Event.evicting = true := by
    unfold acquire_events
    split_ifs with h0
    · cases hvs : victim_segment env with
      | none => rfl
      | some vs =>
        simp only []
        split_ifs
        · unfold frame_events
          rw [if_pos h0]
          cases hf : tlb_find tlb env.get_victim.2.1 <;> simp [Event.evicting]
        · rfl
    · rfl
  exact fun e he => List.all_eq_true.mp hall e he

theorem frame_events_eviction (env : Env) (tlb : Nat → TlbEntry) (ipl : Nat)
    (h0 : env.as_prepare_load 1 = 0) (vs : Int) (hvs : victim_segment env = some vs) :
    frame_events env tlb ipl
      = [Event.as_prepare_load 1, Event.get_victim, Event.pid_getas env.get_victim.2.2,
          Event.swap_out env.get_victim.2.1 vs, Event.splhigh,
          Event.tlb_probe env.get_victim.2.1] ++
        (match tlb_find tlb env.get_victim.2.1 with
         | some i => [Event.tlb_write (TLBHI_INVALID i) TLBLO_INVALID i]
         | none => []) ++
        [Event.splx ipl] := by
  simp [frame_events, h0, hvs]

/-! ## Lemmas on the nesting of `splhigh` and `splx` -/

theorem spl_run_append (d : Nat) (l1 l2 : List Event) :
    spl_run d (l1 ++ l2)
      = match spl_run d l1 with
        | none => none
        | some d1 => spl_run d1 l2 := by
  induction l1 generalizing d with
  | nil => simp [spl_run]
  | cons e l ih =>
    simp only [List.cons_append, spl_run]
    cases spl_step d e with
    | none => rfl
    | some d1 => exact ih d1

theorem spl_run_reads (tlb : Nat → TlbEntry) (fuel i d : Nat) :
    spl_run (d + 1) (scan_reads tlb fuel i) = some (d + 1) := by
  induction fuel generalizing i with
  | zero => simp [scan_reads, spl_run]
  | succ n ih =>
    by_cases hv : entry_valid (tlb i)
    · simp [scan_reads, spl_run, spl_step, hv, ih]
    · simp [scan_reads, spl_run, spl_step, hv]

theorem spl_run_acquire (env : Env) (tlb : Nat → TlbEntry) (ipl d : Nat) :
    spl_run d (acquire_events env tlb ipl) = some d := by
  unfold acquire_events
  split_ifs with h0
  · cases hvs : victim_segment env with
    | none => simp [spl_run, spl_step]
    | some vs =>
      simp only []
      split_ifs
      · unfold frame_events
        rw [if_pos h0]
        cases hf : tlb_find tlb env.get_victim.2.1 <;> simp [spl_run, spl_step]
      · simp [spl_run, spl_step]
  · simp [spl_run, spl_step]

theorem spl_run_cons (d : Nat) (e : Event) (l : List Event) :
    spl_run d (e :: l)
      = match spl_step d e with
        | none => none
        | some d1 => spl_run d1 l := rfl

/-- The install block, from `splhigh` to `splx`, leaves the depth as it was. -/
theorem spl_run_install (tlb : Nat → TlbEntry) (d hi lo k v : Nat) (l : List Event) :
    spl_run d ([Event.splhigh] ++ scan_reads tlb NUM_TLB 0 ++
      [Event.tlb_write hi lo k, Event.splx v] ++ l) = spl_run d l := by
  have e : [Event.splhigh] ++ scan_reads tlb NUM_TLB 0 ++
      [Event.tlb_write hi lo k, Event.splx v] ++ l
      = Event.splhigh :: (scan_reads tlb NUM_TLB 0 ++
          (Event.tlb_write hi lo k :: Event.splx v :: l)) := by simp
  rw [e, spl_run_cons]
  simp only [spl_step]
  rw [spl_run_append, spl_run_reads]
  simp only [spl_run_cons, spl_step]
  simp

theorem spl_run_load_events (env : Env) (as : Addrspace) (segment : Int) (va d : Nat) :
    spl_run d (load_events env as segment va) = some d := by
  unfold load_events
  split_ifs <;> simp [spl_run, spl_step]

/-- The filling of the page leaves the depth at 0, except when the rewrite of
a code page stops at the failed assertion, after `splhigh`. -/
theorem spl_run_fill (env : Env) (as : Addrspace) (segment : Int) (va : Nat)
    (tlb : Nat → TlbEntry) (ipl : Nat) :
    spl_run 0 (fill_events env as segment va tlb ipl)
      = some (if (segment = 1 ∧ ¬ load_failed env as segment va) ∧ tlb_find tlb va = none
          then 1 else 0) := by
  unfold fill_events
  by_cases h12 : segment = 1 ∨ segment = 2
  · rw [if_pos h12, List.cons_append, spl_run_cons]
    simp only [spl_step]
    rw [spl_run_append, spl_run_load_events]
    by_cases hc : segment = 1 ∧ ¬ load_failed env as segment va
    · rw [if_pos hc]
      cases hf : tlb_find tlb va with
      | none =>
        rw [if_pos ⟨hc, rfl⟩]
        simp [rewrite_events, hf, spl_run, spl_step]
      | some p =>
        rw [if_neg (fun h => by simp at h)]
        simp [rewrite_events, hf, spl_run, spl_step]
    · rw [if_neg hc, if_neg (fun h => hc h.1)]
      simp [spl_run]
  · have h1 : ¬ segment = 1 := fun hc => h12 (Or.inl hc)
    rw [if_neg h12, if_neg (show ¬ ((segment = 1 ∧ ¬ load_failed env as segment va) ∧
      tlb_find tlb va = none) from fun hc => h1 hc.1.1)]
    split_ifs <;> simp [spl_run, spl_step]

/-- A code page whose rewrite finds no entry: the fault does not return. -/
theorem nonresident_rewrite_panics (env : Env) (proc : Proc) (as : Addrspace)
    (segment : Int) (va : Nat) (s : VmState) (h : install_reached env proc.p_pid va)
    (hc : segment = 1 ∧ ¬ load_failed env as segment va)
    (hf : tlb_find (st_mapped env proc.p_pid va s).tlb va = none) :
    (if segment = 1 ∨ segment = 2 then fault_load env proc as segment va s
      else fault_stack env proc va s).val? = none := by
  obtain ⟨h1, hnf⟩ := hc
  subst h1
  rw [if_pos (Or.inl rfl), fault_load_code env proc as va s h hnf, hf]
  rfl

/-! ## Theorems -/

/-- C1 (counterexample): the address space `as_top` passes the assertions and
both segment tops are at most `2^32`, yet the address `0xfffff000`, which lies
in segment 1, is classified `EFAULT` and not 1: the top of segment 1 wraps to 0
in 32-bit arithmetic. -/
theorem c1_top_wraps :
    as_asserts as_top ∧
    as_top.as_vbase1 + as_top.as_npages1 * PAGE_SIZE ≤ 2 ^ 32 ∧
    as_top.as_vbase2 + as_top.as_npages2 * PAGE_SIZE ≤ 2 ^ 32 ∧
    classify_spec 0xfffff000 as_top = 1 ∧
    address_segment 0xfffff000 (some as_top) = some EFAULT := by
  refine ⟨by decide, by decide, by decide, by decide, by decide⟩

/-- C1 (amended): for an address space that passes the assertions and whose
segment tops are below `2^32`, `address_segment` returns, for every address,
1 in segment 1, otherwise 2 in segment 2, otherwise 3 in the stack, otherwise
`EFAULT` (first match in the order 1, 2, stack); the result is one of 1, 2, 3,
`EFAULT`. -/
theorem address_segment_classifies (as : Addrspace) (a : Nat)
    (hok : as_asserts as)
    (h1 : as.as_vbase1 + as.as_npages1 * PAGE_SIZE < 2 ^ 32)
    (h2 : as.as_vbase2 + as.as_npages2 * PAGE_SIZE < 2 ^ 32) :
    address_segment a (some as) = some (classify_spec a as) ∧
    (classify_spec a as = 1 ∨ classify_spec a as = 2 ∨ classify_spec a as = 3 ∨
      classify_spec a as = EFAULT) := by
  constructor
  · have e1 : (as.as_vbase1 + as.as_npages1 * PAGE_SIZE) % WORD
        = as.as_vbase1 + as.as_npages1 * PAGE_SIZE := Nat.mod_eq_of_lt h1
    have e2 : (as.as_vbase2 + as.as_npages2 * PAGE_SIZE) % WORD
        = as.as_vbase2 + as.as_npages2 * PAGE_SIZE := Nat.mod_eq_of_lt h2
    simp only [address_segment, if_pos hok, e1, e2, classify_spec, DUMBVM_STACKPAGES, ge_iff_le]
    split_ifs <;> rfl
  · unfold classify_spec
    split_ifs <;> simp

/-- C1 (witness): the amended statement at the address space `as_demo` and the
data address `0x10001000`. -/
theorem address_segment_classifies_witness :
    as_asserts as_demo ∧
    as_demo.as_vbase1 + as_demo.as_npages1 * PAGE_SIZE < 2 ^ 32 ∧
    as_demo.as_vbase2 + as_demo.as_npages2 * PAGE_SIZE < 2 ^ 32 ∧
    address_segment 0x10001000 (some as_demo) = some (classify_spec 0x10001000 as_demo) ∧
    (classify_spec 0x10001000 as_demo = 1 ∨ classify_spec 0x10001000 as_demo = 2 ∨
      classify_spec 0x10001000 as_demo = 3 ∨ classify_spec 0x10001000 as_demo = EFAULT) :=
  ⟨by decide, by decide, by decide,
    address_segment_classifies as_demo 0x10001000 (by decide) (by decide) (by decide)⟩

/-- C2: a `VM_FAULT_READONLY` fault, at any address and in any state, ends in
`sys__exit(-1)`; the call to `sys__exit` is the only event of the fault (no IPT
lookup, no frame allocation, no swap operation, no TLB access precedes it) and
the TLB is as before. -/
theorem vm_fault_readonly_exits (env : Env) (faultaddress : Nat) (s : VmState) :
    (vm_fault env VM_FAULT_READONLY faultaddress s).exit? = some (-1) ∧
    (vm_fault env VM_FAULT_READONLY faultaddress s).state.trace
      = s.trace ++ [Event.sys__exit (-1)] ∧
    (vm_fault env VM_FAULT_READONLY faultaddress s).state.tlb = s.tlb := by
  simp [vm_fault, Res.exit?, Res.state, VmState.log]

/-- C3 (counterexample): process 1 runs in the blank address space `as_blank`;
address 0 lies in none of its three segments, yet a read fault there does not
return `EFAULT`: the assertions of `address_segment` fail and the kernel
panics. -/
theorem c3_blank_as_panics :
    (env_of as_blank).curproc = some ⟨1, some as_blank⟩ ∧
    classify_spec (0 &&& PAGE_FRAME) as_blank = EFAULT ∧
    (vm_fault (env_of as_blank) VM_FAULT_READ 0 boot_state).val? = none := by
  refine ⟨rfl, by decide, ?_⟩
  simp [vm_fault, env_of, address_segment, as_asserts, as_blank, Res.val?,
    VM_FAULT_READ, VM_FAULT_READONLY]

/-- C3 (amended): a READ or WRITE fault returns `EFAULT` when there is no
current process, or the current process has no address space, or its address
space passes the assertions of `address_segment` and the page-aligned fault
address lies in none of the three segments; in each case the fault adds no
event to the trace (no TLB access, no call to `ipt_lookup`, `as_prepare_load`,
`get_victim`, `swap_out`, `ipt_add`, `swap_in`, `load_page`) and leaves the TLB
unchanged. -/
theorem vm_fault_efault (env : Env) (faulttype : Int) (faultaddress : Nat) (s : VmState)
    (hft : faulttype = VM_FAULT_READ ∨ faulttype = VM_FAULT_WRITE)
    (h : env.curproc = none ∨
      (∃ proc, env.curproc = some proc ∧ proc.p_addrspace = none) ∨
      (∃ proc as, env.curproc = some proc ∧ proc.p_addrspace = some as ∧
        as_asserts as ∧ classify_spec (faultaddress &&& PAGE_FRAME) as = EFAULT)) :
    (vm_fault env faulttype faultaddress s).val? = some EFAULT ∧
    (vm_fault env faulttype faultaddress s).state.trace = s.trace ∧
    (vm_fault env faulttype faultaddress s).state.tlb = s.tlb := by
  have hro : faulttype ≠ VM_FAULT_READONLY := by
    rcases hft with h | h <;> rw [h] <;> decide
  rcases h with h | ⟨proc, hp, has⟩ | ⟨proc, as, hp, has, hok, hcl⟩
  · simp [vm_fault, hro, hft, h, Res.val?, Res.state]
  · simp [vm_fault, hro, hft, hp, has, Res.val?, Res.state]
  · simp [vm_fault, hro, hft, hp, has, address_segment_of_spec_efault as _ hok hcl,
      Res.val?, Res.state]

/-- C3 (witness): a read fault at `0x20000000`, outside every segment of
`as_demo`. -/
theorem vm_fault_efault_witness :
    (env_of as_demo).curproc = some ⟨1, some as_demo⟩ ∧
    as_asserts as_demo ∧
    classify_spec (0x20000123 &&& PAGE_FRAME) as_demo = EFAULT ∧
    (vm_fault (env_of as_demo) VM_FAULT_READ 0x20000123 boot_state).val? = some EFAULT ∧
    (vm_fault (env_of as_demo) VM_FAULT_READ 0x20000123 boot_state).state.trace
      = boot_state.trace ∧
    (vm_fault (env_of as_demo) VM_FAULT_READ 0x20000123 boot_state).state.tlb
      = boot_state.tlb :=
  ⟨rfl, by decide, by decide,
    vm_fault_efault (env_of as_demo) VM_FAULT_READ 0x20000123 boot_state (Or.inl rfl)
      (Or.inr (Or.inr ⟨⟨1, some as_demo⟩, as_demo, rfl, rfl, by decide, by decide⟩))⟩

/-- C4: for a fault type other than `VM_FAULT_READONLY`, `VM_FAULT_READ` and
`VM_FAULT_WRITE`, `vm_fault` returns `EINVAL` whatever the current process and
address space are, and leaves the TLB and the round-robin cursor unchanged (it
adds no event to the trace). -/
theorem vm_fault_einval (env : Env) (faulttype : Int) (faultaddress : Nat) (s : VmState)
    (h1 : faulttype ≠ VM_FAULT_READONLY) (h2 : faulttype ≠ VM_FAULT_READ)
    (h3 : faulttype ≠ VM_FAULT_WRITE) :
    (vm_fault env faulttype faultaddress s).val? = some EINVAL ∧
    (vm_fault env faulttype faultaddress s).state.tlb = s.tlb ∧
    (vm_fault env faulttype faultaddress s).state.next_victim = s.next_victim ∧
    (vm_fault env faulttype faultaddress s).state.trace = s.trace := by
  simp [vm_fault, h1, h2, h3, Res.val?, Res.state]

/-- C4 (witness): fault type 7 at `0x400000`. -/
theorem vm_fault_einval_witness :
    (7 : Int) ≠ VM_FAULT_READONLY ∧ (7 : Int) ≠ VM_FAULT_READ ∧ (7 : Int) ≠ VM_FAULT_WRITE ∧
    (vm_fault (env_of as_demo) 7 0x400000 boot_state).val? = some EINVAL ∧
    (vm_fault (env_of as_demo) 7 0x400000 boot_state).state.tlb = boot_state.tlb ∧
    (vm_fault (env_of as_demo) 7 0x400000 boot_state).state.next_victim
      = boot_state.next_victim ∧
    (vm_fault (env_of as_demo) 7 0x400000 boot_state).state.trace = boot_state.trace :=
  ⟨by decide, by decide, by decide,
    vm_fault_einval (env_of as_demo) 7 0x400000 boot_state (by decide) (by decide) (by decide)⟩

/-- C5 (counterexample): page `0x400000` of the code segment of `as_demo` is
resident in frame `0x5000`; a read fault at `0x400100` returns 0 and writes
slot 0 with `lo = 0x5600`, in which the `DIRTY` bit is set although the
segment is 1. -/
theorem c5_resident_code_dirty :
    address_segment (0x400100 &&& PAGE_FRAME) (some as_demo) = some 1 ∧
    (env_resident as_demo).ipt_lookup 1 (0x400100 &&& PAGE_FRAME) = 0x5000 ∧
    (vm_fault (env_resident as_demo) VM_FAULT_READ 0x400100 boot_state).val? = some 0 ∧
    (vm_fault (env_resident as_demo) VM_FAULT_READ 0x400100 boot_state).state.trace
      = [Event.ipt_lookup 1 0x400000, Event.splhigh, Event.tlb_read 0,
         Event.tlb_write 0x400000 0x5600 0, Event.splx 0] ∧
    (vm_fault (env_resident as_demo) VM_FAULT_READ 0x400100 boot_state).state.tlb 0
      = ⟨0x400000, 0x5600⟩ ∧
    0x5600 &&& TLBLO_DIRTY ≠ 0 := by
  refine ⟨by decide, by decide, by decide, by decide, by decide, by decide⟩

/-- C5 (amended): on the resident path (a READ or WRITE fault whose aligned
address `va` is classified into a segment and for which `ipt_lookup` returns a
non-zero, page-aligned frame) `vm_fault` returns 0 and the one TLB entry it
writes has `hi = va` and `lo = frame | TLBLO_DIRTY | TLBLO_VALID`: `VALID` and
`DIRTY` are both set and the frame is kept, whatever the segment. -/
theorem vm_fault_resident (env : Env) (faulttype : Int) (faultaddress : Nat) (s : VmState)
    (proc : Proc) (as : Addrspace) (segment : Int) (paddr : Nat)
    (hft : faulttype = VM_FAULT_READ ∨ faulttype = VM_FAULT_WRITE)
    (hp : env.curproc = some proc) (has : proc.p_addrspace = some as)
    (hseg : address_segment (faultaddress &&& PAGE_FRAME) (some as) = some segment)
    (hne : segment ≠ EFAULT)
    (hl : env.ipt_lookup proc.p_pid (faultaddress &&& PAGE_FRAME) = paddr)
    (h0 : paddr ≠ 0) (hal : paddr &&& PAGE_FRAME = paddr) :
    (vm_fault env faulttype faultaddress s).val? = some 0 ∧
    (∃ k,
      (vm_fault env faulttype faultaddress s).state.trace
        = s.trace ++ [Event.ipt_lookup proc.p_pid (faultaddress &&& PAGE_FRAME), Event.splhigh]
          ++ scan_reads s.tlb NUM_TLB 0
          ++ [Event.tlb_write (faultaddress &&& PAGE_FRAME)
                (paddr ||| TLBLO_DIRTY ||| TLBLO_VALID) k, Event.splx s.ipl] ∧
      (vm_fault env faulttype faultaddress s).state.tlb
        = Function.update s.tlb k
            ⟨faultaddress &&& PAGE_FRAME, paddr ||| TLBLO_DIRTY ||| TLBLO_VALID⟩) ∧
    (paddr ||| TLBLO_DIRTY ||| TLBLO_VALID) &&& TLBLO_VALID ≠ 0 ∧
    (paddr ||| TLBLO_DIRTY ||| TLBLO_VALID) &&& TLBLO_DIRTY ≠ 0 ∧
    (paddr ||| TLBLO_DIRTY ||| TLBLO_VALID) &&& PAGE_FRAME = paddr := by
  have hl0 : env.ipt_lookup proc.p_pid (faultaddress &&& PAGE_FRAME) ≠ 0 := by
    rw [hl]; exact h0
  rw [vm_fault_dispatch env faulttype faultaddress s proc as segment hft hp has hseg hne,
    if_neg hl0, hl]
  refine ⟨?_, ?_, install_lo_valid paddr, install_lo_dirty paddr, install_lo_frame paddr hal⟩
  · simp [fault_resident, hal, Res.val?]
  · obtain ⟨k, ht, hb, -⟩ := tlb_install_spec (faultaddress &&& PAGE_FRAME) paddr s.ipl
      (splhigh (({ s with count_tlb_miss := s.count_tlb_miss + 1 }).log
        (.ipt_lookup proc.p_pid (faultaddress &&& PAGE_FRAME)))).2
    refine ⟨k, ?_, ?_⟩
    · simp only [fault_resident, hal, ne_eq, not_true_eq_false, if_false, Res.state]
      simpa [splhigh, VmState.log, install_lo] using ht
    · simp only [fault_resident, hal, ne_eq, not_true_eq_false, if_false, Res.state]
      simpa [splhigh, VmState.log, install_lo] using hb

/-- C5 (witness): the amended statement at the resident code page `0x400000`
of `as_demo`, frame `0x5000`. -/
theorem vm_fault_resident_witness :
    address_segment (0x400100 &&& PAGE_FRAME) (some as_demo) = some 1 ∧
    (env_resident as_demo).ipt_lookup 1 (0x400100 &&& PAGE_FRAME) = 0x5000 ∧
    (vm_fault (env_resident as_demo) VM_FAULT_READ 0x400100 boot_state).val? = some 0 ∧
    (∃ k,
      (vm_fault (env_resident as_demo) VM_FAULT_READ 0x400100 boot_state).state.trace
        = boot_state.trace ++ [Event.ipt_lookup 1 (0x400100 &&& PAGE_FRAME), Event.splhigh]
          ++ scan_reads boot_state.tlb NUM_TLB 0
          ++ [Event.tlb_write (0x400100 &&& PAGE_FRAME)
                (0x5000 ||| TLBLO_DIRTY ||| TLBLO_VALID) k, Event.splx boot_state.ipl] ∧
      (vm_fault (env_resident as_demo) VM_FAULT_READ 0x400100 boot_state).state.tlb
        = Function.update boot_state.tlb k
            ⟨0x400100 &&& PAGE_FRAME, 0x5000 ||| TLBLO_DIRTY ||| TLBLO_VALID⟩) ∧
    (0x5000 ||| TLBLO_DIRTY ||| TLBLO_VALID) &&& TLBLO_VALID ≠ 0 ∧
    (0x5000 ||| TLBLO_DIRTY ||| TLBLO_VALID) &&& TLBLO_DIRTY ≠ 0 ∧
    (0x5000 ||| TLBLO_DIRTY ||| TLBLO_VALID) &&& PAGE_FRAME = 0x5000 :=
  ⟨by decide, by decide,
    vm_fault_resident (env_resident as_demo) VM_FAULT_READ 0x400100 boot_state
      ⟨1, some as_demo⟩ as_demo 1 0x5000 (Or.inl rfl) rfl rfl (by decide) (by decide)
      (by decide) (by decide) (by decide)⟩

/-- C6 (the code at the failing input): a read fault at `0x400100`, a code page
of `as_demo` that is not resident, with frame `0x5000` free and a successful
load, returns 0; the final rewrite is `tlb_write(0x400000, 0, 0)`, so the entry
of the page ends with `lo = 0` (`VALID` clear, frame number lost) and not
`0x5000 | TLBLO_VALID = 0x5200`: `elo & !TLBLO_DIRTY` is `elo & 0`. -/
theorem c6_code_page_entry_zeroed :
    address_segment (0x400100 &&& PAGE_FRAME) (some as_demo) = some 1 ∧
    (env_of as_demo).ipt_lookup 1 (0x400100 &&& PAGE_FRAME) = 0 ∧
    (vm_fault (env_of as_demo) VM_FAULT_READ 0x400100 boot_state).val? = some 0 ∧
    (vm_fault (env_of as_demo) VM_FAULT_READ 0x400100 boot_state).state.trace
      = [Event.ipt_lookup 1 0x400000, Event.as_prepare_load 1,
         Event.ipt_add 1 0x5000 0x400000, Event.splhigh, Event.tlb_read 0,
         Event.tlb_write 0x400000 0x5600 0, Event.splx 0,
         Event.zero_fill 0x400000 4096, Event.load_page 0 0x400000 1,
         Event.splhigh, Event.tlb_probe 0x400000,
         Event.tlb_write 0x400000 0 0, Event.splx 0] ∧
    (vm_fault (env_of as_demo) VM_FAULT_READ 0x400100 boot_state).state.tlb 0
      = ⟨0x400000, 0⟩ ∧
    (0x5000 ||| TLBLO_VALID) = 0x5200 ∧
    (0x5000 ||| TLBLO_DIRTY ||| TLBLO_VALID) &&& lnot TLBLO_DIRTY = 0 := by
  refine ⟨by decide, by decide, by decide, by decide, by decide, by decide, by decide⟩

/-- C7: the slot choice of the install on the three install paths of a READ or
WRITE fault whose aligned address `va` is classified into a segment. Resident
path: from the TLB and cursor at entry to the final TLB and cursor, the new
entry goes to the lowest-indexed slot with `VALID` clear and the cursor stays,
or, when all `NUM_TLB` slots are valid, to the cursor's slot and the cursor
becomes `(cursor + 1) mod NUM_TLB`; all other slots are unchanged. Non-resident
paths (code/data and stack), once the install is reached: the same holds from
the TLB at install time (`tlb_before_install`: the victim's entry invalidated if
a page was evicted) to the TLB `t1` left by the install; `t1` is the final TLB,
except that on the code path the final rewrite may have changed one slot of
it. -/
theorem vm_fault_install_slot (env : Env) (faulttype : Int) (faultaddress : Nat)
    (s : VmState) (proc : Proc) (as : Addrspace) (segment : Int)
    (hft : faulttype = VM_FAULT_READ ∨ faulttype = VM_FAULT_WRITE)
    (hp : env.curproc = some proc) (has : proc.p_addrspace = some as)
    (hseg : address_segment (faultaddress &&& PAGE_FRAME) (some as) = some segment)
    (hne : segment ≠ EFAULT) :
    (∀ paddr, env.ipt_lookup proc.p_pid (faultaddress &&& PAGE_FRAME) = paddr →
      paddr ≠ 0 → paddr &&& PAGE_FRAME = paddr →
      install_step s.tlb s.next_victim
        ⟨faultaddress &&& PAGE_FRAME, paddr ||| TLBLO_DIRTY ||| TLBLO_VALID⟩
        (vm_fault env faulttype faultaddress s).state.tlb
        (vm_fault env faulttype faultaddress s).state.next_victim) ∧
    (env.ipt_lookup proc.p_pid (faultaddress &&& PAGE_FRAME) = 0 →
      install_reached env proc.p_pid (faultaddress &&& PAGE_FRAME) →
      ∃ t1,
        install_step (tlb_before_install env s.tlb) s.next_victim
          ⟨faultaddress &&& PAGE_FRAME, frame_of env ||| TLBLO_DIRTY ||| TLBLO_VALID⟩
          t1 (vm_fault env faulttype faultaddress s).state.next_victim ∧
        (segment ≠ 1 → (vm_fault env faulttype faultaddress s).state.tlb = t1) ∧
        (segment = 1 → (vm_fault env faulttype faultaddress s).state.tlb = t1 ∨
          ∃ p, (vm_fault env faulttype faultaddress s).state.tlb
            = Function.update t1 p ⟨faultaddress &&& PAGE_FRAME, 0⟩)) := by
  rw [vm_fault_dispatch env faulttype faultaddress s proc as segment hft hp has hseg hne]
  constructor
  · intro paddr hl h0 hal
    have hl0 : env.ipt_lookup proc.p_pid (faultaddress &&& PAGE_FRAME) ≠ 0 := by
      rw [hl]; exact h0
    rw [if_neg hl0, hl]
    obtain ⟨k, -, hb, -, -, hc⟩ := tlb_install_spec (faultaddress &&& PAGE_FRAME) paddr s.ipl
      (splhigh (({ s with count_tlb_miss := s.count_tlb_miss + 1 }).log
        (.ipt_lookup proc.p_pid (faultaddress &&& PAGE_FRAME)))).2
    simp only [fault_resident, hal, ne_eq, not_true_eq_false, if_false, Res.state]
    apply install_step_of_scan _ _ _ _ k
    · simpa [splhigh, VmState.log, install_lo] using hb
    · rcases hc with ⟨h1, h2, -⟩ | ⟨h1, h2, h3, -⟩
      · left; exact ⟨by simpa [splhigh, VmState.log] using h1,
          by simpa [splhigh, VmState.log] using h2⟩
      · right; exact ⟨by simpa [splhigh, VmState.log] using h1,
          by simpa [splhigh, VmState.log] using h2,
          by simpa [splhigh, VmState.log] using h3⟩
  · intro hl hreach
    rw [if_pos hl]
    obtain ⟨k, -, hb, -, -, hc⟩ := st_mapped_spec env proc.p_pid (faultaddress &&& PAGE_FRAME)
      (({ s with count_tlb_miss := s.count_tlb_miss + 1 }).log
        (.ipt_lookup proc.p_pid (faultaddress &&& PAGE_FRAME)))
    have hstep : ∀ c1, c1 = (st_mapped env proc.p_pid (faultaddress &&& PAGE_FRAME)
        (({ s with count_tlb_miss := s.count_tlb_miss + 1 }).log
          (.ipt_lookup proc.p_pid (faultaddress &&& PAGE_FRAME)))).next_victim →
        install_step (tlb_before_install env s.tlb) s.next_victim
          ⟨faultaddress &&& PAGE_FRAME, frame_of env ||| TLBLO_DIRTY ||| TLBLO_VALID⟩
          (st_mapped env proc.p_pid (faultaddress &&& PAGE_FRAME)
            (({ s with count_tlb_miss := s.count_tlb_miss + 1 }).log
              (.ipt_lookup proc.p_pid (faultaddress &&& PAGE_FRAME)))).tlb c1 := by
      intro c1 hc1
      apply install_step_of_scan _ _ _ _ k
      · simpa [VmState.log, install_lo] using hb
      · rcases hc with ⟨h1, h2, -⟩ | ⟨h1, h2, h3, -⟩
        · left; exact ⟨by simpa [VmState.log] using h1,
            by rw [hc1]; simpa [VmState.log] using h2⟩
        · right; exact ⟨by simpa [VmState.log] using h1,
            by simpa [VmState.log] using h2,
            by rw [hc1]; simpa [VmState.log] using h3⟩
    refine ⟨_, hstep _ ?_, ?_, ?_⟩
    · by_cases h12 : segment = 1 ∨ segment = 2
      · rw [if_pos h12]
        by_cases hf : load_failed env as segment (faultaddress &&& PAGE_FRAME)
        · rw [fault_load_failed env proc as segment _ _ hreach hf]; rfl
        · by_cases h1 : segment = 1
          · subst h1
            rw [fault_load_code env proc as _ _ hreach hf]
            split <;> rfl
          · rw [fault_load_data env proc as segment _ _ hreach h1 hf]; rfl
      · rw [if_neg h12, fault_stack_eq env proc _ _ hreach]; rfl
    · intro h1
      by_cases h12 : segment = 1 ∨ segment = 2
      · rw [if_pos h12]
        by_cases hf : load_failed env as segment (faultaddress &&& PAGE_FRAME)
        · rw [fault_load_failed env proc as segment _ _ hreach hf]; rfl
        · rw [fault_load_data env proc as segment _ _ hreach h1 hf]; rfl
      · rw [if_neg h12, fault_stack_eq env proc _ _ hreach]; rfl
    · intro h1
      subst h1
      rw [if_pos (Or.inl rfl)]
      by_cases hf : load_failed env as 1 (faultaddress &&& PAGE_FRAME)
      · left
        rw [fault_load_failed env proc as 1 _ _ hreach hf]; rfl
      · rw [fault_load_code env proc as _ _ hreach hf]
        split
        · right; exact ⟨_, rfl⟩
        · left; rfl

/-- C7 (witness): a read fault at `0x10001004`, a data page of `as_demo`, in the
boot state; the page is not resident and the install is reached with the free
frame `0x5000`. -/
theorem vm_fault_install_slot_witness :
    address_segment (0x10001004 &&& PAGE_FRAME) (some as_demo) = some 2 ∧
    (env_of as_demo).ipt_lookup 1 (0x10001004 &&& PAGE_FRAME) = 0 ∧
    install_reached (env_of as_demo) 1 (0x10001004 &&& PAGE_FRAME) ∧
    ((∀ paddr, (env_of as_demo).ipt_lookup 1 (0x10001004 &&& PAGE_FRAME) = paddr →
      paddr ≠ 0 → paddr &&& PAGE_FRAME = paddr →
      install_step boot_state.tlb boot_state.next_victim
        ⟨0x10001004 &&& PAGE_FRAME, paddr ||| TLBLO_DIRTY ||| TLBLO_VALID⟩
        (vm_fault (env_of as_demo) VM_FAULT_READ 0x10001004 boot_state).state.tlb
        (vm_fault (env_of as_demo) VM_FAULT_READ 0x10001004 boot_state).state.next_victim) ∧
    ((env_of as_demo).ipt_lookup 1 (0x10001004 &&& PAGE_FRAME) = 0 →
      install_reached (env_of as_demo) 1 (0x10001004 &&& PAGE_FRAME) →
      ∃ t1,
        install_step (tlb_before_install (env_of as_demo) boot_state.tlb)
          boot_state.next_victim
          ⟨0x10001004 &&& PAGE_FRAME,
            frame_of (env_of as_demo) ||| TLBLO_DIRTY ||| TLBLO_VALID⟩
          t1 (vm_fault (env_of as_demo) VM_FAULT_READ 0x10001004 boot_state).state.next_victim ∧
        ((2 : Int) ≠ 1 →
          (vm_fault (env_of as_demo) VM_FAULT_READ 0x10001004 boot_state).state.tlb = t1) ∧
        ((2 : Int) = 1 →
          (vm_fault (env_of as_demo) VM_FAULT_READ 0x10001004 boot_state).state.tlb = t1 ∨
          ∃ p, (vm_fault (env_of as_demo) VM_FAULT_READ 0x10001004 boot_state).state.tlb
            = Function.update t1 p ⟨0x10001004 &&& PAGE_FRAME, 0⟩))) :=
  ⟨by decide, by decide, ⟨Or.inl (by decide), by decide, by decide⟩,
    vm_fault_install_slot (env_of as_demo) VM_FAULT_READ 0x10001004 boot_state
      ⟨1, some as_demo⟩ as_demo 2 (Or.inl rfl) rfl rfl (by decide) (by decide)⟩

/-- C8 (counterexample): a write fault at `0x401008`, a code page (segment 1)
of `as_demo` that is not resident, with frame `0x5000` free: after the install
the handler calls `load_page(0x1000, 0x401000, 1)` without ever calling
`swap_in`. -/
theorem c8_code_page_skips_swap_in :
    address_segment (0x401008 &&& PAGE_FRAME) (some as_demo) = some 1 ∧
    (env_of as_demo).ipt_lookup 1 (0x401008 &&& PAGE_FRAME) = 0 ∧
    (vm_fault (env_of as_demo) VM_FAULT_WRITE 0x401008 boot_state).state.trace
      = [Event.ipt_lookup 1 0x401000, Event.as_prepare_load 1,
         Event.ipt_add 1 0x5000 0x401000, Event.splhigh, Event.tlb_read 0,
         Event.tlb_write 0x401000 0x5600 0, Event.splx 0,
         Event.zero_fill 0x401000 4096, Event.load_page 0x1000 0x401000 1,
         Event.splhigh, Event.tlb_probe 0x401000,
         Event.tlb_write 0x401000 0 0, Event.splx 0] ∧
    Event.swap_in 0x401000 ∉
      (vm_fault (env_of as_demo) VM_FAULT_WRITE 0x401008 boot_state).state.trace := by
  refine ⟨by decide, by decide, by decide, by decide⟩

/-- C8 (amended): for a non-resident READ or WRITE fault on a page `va` of
segment 1 or 2 that reaches the install, the events of the fault are: setup
events (`pre`), the install (`tlb_write`, `splx`), the zero fill, then the page
source, then setup events (`tail`). The page source is, for segment 2,
`swap_in(va)` followed by `load_page(va - as_vbase2, va, 2)` if and only if
`swap_in` reports not found (a non-zero result); for segment 1, `swap_in` is not
called and `load_page(va - as_vbase1, va, 1)` is always called. No setup event
is a `swap_in` or a `load_page`. -/
theorem vm_fault_page_source (env : Env) (faulttype : Int) (faultaddress : Nat)
    (s : VmState) (proc : Proc) (as : Addrspace) (segment : Int)
    (hft : faulttype = VM_FAULT_READ ∨ faulttype = VM_FAULT_WRITE)
    (hp : env.curproc = some proc) (has : proc.p_addrspace = some as)
    (hseg : address_segment (faultaddress &&& PAGE_FRAME) (some as) = some segment)
    (h12 : segment = 1 ∨ segment = 2)
    (hl : env.ipt_lookup proc.p_pid (faultaddress &&& PAGE_FRAME) = 0)
    (hreach : install_reached env proc.p_pid (faultaddress &&& PAGE_FRAME)) :
    ∃ pre k tail, (∀ e ∈ pre, e.setup = true) ∧ (∀ e ∈ tail, e.setup = true) ∧
      (vm_fault env faulttype faultaddress s).state.trace
        = s.trace ++ pre ++
          [Event.tlb_write (faultaddress &&& PAGE_FRAME)
              (frame_of env ||| TLBLO_DIRTY ||| TLBLO_VALID) k,
            Event.splx s.ipl,
            Event.zero_fill (faultaddress &&& PAGE_FRAME) PAGE_SIZE] ++
          (if segment = 1 then
            [Event.load_page ((faultaddress &&& PAGE_FRAME) - as.as_vbase1)
              (faultaddress &&& PAGE_FRAME) 1]
           else if env.swap_in (faultaddress &&& PAGE_FRAME) ≠ 0 then
            [Event.swap_in (faultaddress &&& PAGE_FRAME),
              Event.load_page ((faultaddress &&& PAGE_FRAME) - as.as_vbase2)
                (faultaddress &&& PAGE_FRAME) 2]
           else [Event.swap_in (faultaddress &&& PAGE_FRAME)]) ++ tail := by
  have hne : segment ≠ EFAULT := by
    rcases h12 with h | h <;> rw [h] <;> decide
  obtain ⟨hb1, hb2⟩ := address_segment_base as _ segment hseg
  have hle : load_events env as segment (faultaddress &&& PAGE_FRAME) =
      (if segment = 1 then
        [Event.load_page ((faultaddress &&& PAGE_FRAME) - as.as_vbase1)
          (faultaddress &&& PAGE_FRAME) 1]
       else if env.swap_in (faultaddress &&& PAGE_FRAME) ≠ 0 then
        [Event.swap_in (faultaddress &&& PAGE_FRAME),
          Event.load_page ((faultaddress &&& PAGE_FRAME) - as.as_vbase2)
            (faultaddress &&& PAGE_FRAME) 2]
       else [Event.swap_in (faultaddress &&& PAGE_FRAME)]) := by
    rcases h12 with h | h
    · subst h
      simp [load_events, page_offset, wrap_sub _ _ (hb1 rfl) (aligned_lt_word faultaddress)]
    · subst h
      simp [load_events, page_offset, wrap_sub _ _ (hb2 rfl) (aligned_lt_word faultaddress)]
  rw [vm_fault_dispatch env faulttype faultaddress s proc as segment hft hp has hseg hne,
    if_pos hl, if_pos h12]
  obtain ⟨k, tail, htail, -, ht⟩ := fault_load_trace env proc as segment
    (faultaddress &&& PAGE_FRAME)
    (({ s with count_tlb_miss := s.count_tlb_miss + 1 }).log
      (.ipt_lookup proc.p_pid (faultaddress &&& PAGE_FRAME))) hreach
  refine ⟨[Event.ipt_lookup proc.p_pid (faultaddress &&& PAGE_FRAME)] ++
      frame_events env s.tlb s.ipl ++
      [Event.ipt_add proc.p_pid (frame_of env) (faultaddress &&& PAGE_FRAME), Event.splhigh] ++
      scan_reads (tlb_before_install env s.tlb) NUM_TLB 0, k, tail, ?_, htail, ?_⟩
  · intro e he
    simp only [List.mem_append, List.mem_cons, List.mem_singleton, List.not_mem_nil,
      or_false] at he
    rcases he with ((he | he) | he | he) | he
    · subst he; rfl
    · exact frame_events_setup env s.tlb s.ipl e he
    · subst he; rfl
    · subst he; rfl
    · exact scan_reads_setup _ _ _ e he
  · rw [ht, hle]
    simp [VmState.log, install_lo]

/-- C8 (witness): a read fault at `0x10001004`, a data page (segment 2) of
`as_demo` that is not resident and not in swap. -/
theorem vm_fault_page_source_witness :
    address_segment (0x10001004 &&& PAGE_FRAME) (some as_demo) = some 2 ∧
    (env_of as_demo).ipt_lookup 1 (0x10001004 &&& PAGE_FRAME) = 0 ∧
    install_reached (env_of as_demo) 1 (0x10001004 &&& PAGE_FRAME) ∧
    ∃ pre k tail, (∀ e ∈ pre, e.setup = true) ∧ (∀ e ∈ tail, e.setup = true) ∧
      (vm_fault (env_of as_demo) VM_FAULT_READ 0x10001004 boot_state).state.trace
        = boot_state.trace ++ pre ++
          [Event.tlb_write (0x10001004 &&& PAGE_FRAME)
              (frame_of (env_of as_demo) ||| TLBLO_DIRTY ||| TLBLO_VALID) k,
            Event.splx boot_state.ipl,
            Event.zero_fill (0x10001004 &&& PAGE_FRAME) PAGE_SIZE] ++
          (if (2 : Int) = 1 then
            [Event.load_page ((0x10001004 &&& PAGE_FRAME) - as_demo.as_vbase1)
              (0x10001004 &&& PAGE_FRAME) 1]
           else if (env_of as_demo).swap_in (0x10001004 &&& PAGE_FRAME) ≠ 0 then
            [Event.swap_in (0x10001004 &&& PAGE_FRAME),
              Event.load_page ((0x10001004 &&& PAGE_FRAME) - as_demo.as_vbase2)
                (0x10001004 &&& PAGE_FRAME) 2]
           else [Event.swap_in (0x10001004 &&& PAGE_FRAME)]) ++ tail :=
  ⟨by decide, by decide, ⟨Or.inl (by decide), by decide, by decide⟩,
    vm_fault_page_source (env_of as_demo) VM_FAULT_READ 0x10001004 boot_state
      ⟨1, some as_demo⟩ as_demo 2 (Or.inl rfl) rfl rfl (by decide) (Or.inr rfl)
      (by decide) ⟨Or.inl (by decide), by decide, by decide⟩⟩

/-- C10 (counterexample): a read fault at `0x10000010`, a data page of
`as_demo` that is not resident, with no free frame and a full swap file:
`swap_out` of the victim fails and `vm_fault` returns -1 to its caller; it does
not end in `sys__exit` and no `sys__exit` event occurs. -/
theorem c10_swap_full_returns :
    address_segment (0x10000010 &&& PAGE_FRAME) (some as_demo) = some 2 ∧
    (env_swapfull as_demo).as_prepare_load 1 = 0 ∧
    (env_swapfull as_demo).swap_out 0x10002000 2 ≠ 0 ∧
    (vm_fault (env_swapfull as_demo) VM_FAULT_READ 0x10000010 boot_state).val? = some (-1) ∧
    (vm_fault (env_swapfull as_demo) VM_FAULT_READ 0x10000010 boot_state).exit? = none ∧
    (vm_fault (env_swapfull as_demo) VM_FAULT_READ 0x10000010 boot_state).state.trace
      = [Event.ipt_lookup 1 0x10000000, Event.as_prepare_load 1, Event.get_victim,
         Event.pid_getas 1, Event.swap_out 0x10002000 2] ∧
    Event.sys__exit (-1) ∉
      (vm_fault (env_swapfull as_demo) VM_FAULT_READ 0x10000010 boot_state).state.trace := by
  refine ⟨by decide, by decide, by decide, by decide, by decide, by decide, by decide⟩

/-- C10 (amended): in a non-resident READ or WRITE fault, when `swap_out` of the
victim fails during eviction, or when `load_page` is called and fails,
`vm_fault` returns -1 to its caller; it does not end in `sys__exit` and none of
its events is a call of `sys__exit`. -/
theorem vm_fault_fatal_returns (env : Env) (faulttype : Int) (faultaddress : Nat)
    (s : VmState) (proc : Proc) (as : Addrspace) (segment : Int)
    (hft : faulttype = VM_FAULT_READ ∨ faulttype = VM_FAULT_WRITE)
    (hp : env.curproc = some proc) (has : proc.p_addrspace = some as)
    (hseg : address_segment (faultaddress &&& PAGE_FRAME) (some as) = some segment)
    (hne : segment ≠ EFAULT)
    (hl : env.ipt_lookup proc.p_pid (faultaddress &&& PAGE_FRAME) = 0)
    (hfail :
      (env.as_prepare_load 1 = 0 ∧
        ∃ vs, victim_segment env = some vs ∧ env.swap_out env.get_victim.2.1 vs ≠ 0) ∨
      (install_reached env proc.p_pid (faultaddress &&& PAGE_FRAME) ∧
        (segment = 1 ∨ segment = 2) ∧
        load_failed env as segment (faultaddress &&& PAGE_FRAME))) :
    (vm_fault env faulttype faultaddress s).val? = some (-1) ∧
    (vm_fault env faulttype faultaddress s).exit? = none ∧
    ∃ evs, (vm_fault env faulttype faultaddress s).state.trace = s.trace ++ evs ∧
      ∀ st, Event.sys__exit st ∉ evs := by
  rw [vm_fault_dispatch env faulttype faultaddress s proc as segment hft hp has hseg hne,
    if_pos hl]
  rcases hfail with ⟨h0, vs, hvs, hso⟩ | ⟨hreach, h12, hf⟩
  · obtain ⟨s', hs', hg⟩ : ∃ s', s'.trace = s.trace ++
          [Event.ipt_lookup proc.p_pid (faultaddress &&& PAGE_FRAME),
            Event.as_prepare_load 1, Event.get_victim, Event.pid_getas env.get_victim.2.2,
            Event.swap_out env.get_victim.2.1 vs] ∧
        get_frame env (({ s with count_tlb_miss := s.count_tlb_miss + 1 }).log
          (.ipt_lookup proc.p_pid (faultaddress &&& PAGE_FRAME))) = .ret none s' :=
      ⟨_, by simp [VmState.log], get_frame_swap_out_fails env _ vs h0 hvs hso⟩
    have hres : (if segment = 1 ∨ segment = 2 then
          fault_load env proc as segment (faultaddress &&& PAGE_FRAME)
            (({ s with count_tlb_miss := s.count_tlb_miss + 1 }).log
              (.ipt_lookup proc.p_pid (faultaddress &&& PAGE_FRAME)))
        else
          fault_stack env proc (faultaddress &&& PAGE_FRAME)
            (({ s with count_tlb_miss := s.count_tlb_miss + 1 }).log
              (.ipt_lookup proc.p_pid (faultaddress &&& PAGE_FRAME)))) = .ret (-1) s' := by
      split_ifs
      · exact fault_load_frame_none env proc as segment _ _ _ hg
      · exact fault_stack_frame_none env proc _ _ _ hg
    rw [hres]
    refine ⟨rfl, rfl, _, hs', ?_⟩
    intro st; simp
  · rw [if_pos h12]
    obtain ⟨k, tail, htail, hex, ht⟩ := fault_load_trace env proc as segment
      (faultaddress &&& PAGE_FRAME)
      (({ s with count_tlb_miss := s.count_tlb_miss + 1 }).log
        (.ipt_lookup proc.p_pid (faultaddress &&& PAGE_FRAME))) hreach
    refine ⟨?_, hex,
      [Event.ipt_lookup proc.p_pid (faultaddress &&& PAGE_FRAME)] ++
        frame_events env s.tlb s.ipl ++
        [Event.ipt_add proc.p_pid (frame_of env) (faultaddress &&& PAGE_FRAME), Event.splhigh] ++
        scan_reads (tlb_before_install env s.tlb) NUM_TLB 0 ++
        [Event.tlb_write (faultaddress &&& PAGE_FRAME) (install_lo (frame_of env)) k,
          Event.splx s.ipl] ++
        ([Event.zero_fill (faultaddress &&& PAGE_FRAME) PAGE_SIZE] ++
          load_events env as segment (faultaddress &&& PAGE_FRAME) ++ tail), ?_, ?_⟩
    · rw [fault_load_failed env proc as segment _ _ hreach hf]; rfl
    · rw [ht]; simp [VmState.log]
    · intro st
      refine no_exit_append _ _ (no_exit_append _ _ (no_exit_append _ _ (no_exit_append _ _
        (no_exit_append _ _ ?_ ?_) ?_) ?_) ?_) (no_exit_append _ _
        (no_exit_append _ _ ?_ ?_) ?_) st
      · intro st; simp
      · exact setup_no_exit _ (frame_events_setup env s.tlb s.ipl)
      · intro st; simp
      · exact setup_no_exit _ (scan_reads_setup _ _ _)
      · intro st; simp
      · intro st; simp
      · exact load_events_no_exit env as segment _
      · exact setup_no_exit _ htail

/-- C10 (witness): a read fault at `0x10000010` with no free frame and a full
swap file: the victim page `0x10002000` is in segment 2 and its `swap_out`
fails. -/
theorem vm_fault_fatal_returns_witness :
    address_segment (0x10000010 &&& PAGE_FRAME) (some as_demo) = some 2 ∧
    (env_swapfull as_demo).ipt_lookup 1 (0x10000010 &&& PAGE_FRAME) = 0 ∧
    (env_swapfull as_demo).as_prepare_load 1 = 0 ∧
    victim_segment (env_swapfull as_demo) = some 2 ∧
    (env_swapfull as_demo).swap_out (env_swapfull as_demo).get_victim.2.1 2 ≠ 0 ∧
    (vm_fault (env_swapfull as_demo) VM_FAULT_READ 0x10000010 boot_state).val? = some (-1) ∧
    (vm_fault (env_swapfull as_demo) VM_FAULT_READ 0x10000010 boot_state).exit? = none ∧
    ∃ evs, (vm_fault (env_swapfull as_demo) VM_FAULT_READ 0x10000010 boot_state).state.trace
        = boot_state.trace ++ evs ∧
      ∀ st, Event.sys__exit st ∉ evs :=
  ⟨by decide, by decide, by decide, by decide, by decide,
    vm_fault_fatal_returns (env_swapfull as_demo) VM_FAULT_READ 0x10000010 boot_state
      ⟨1, some as_demo⟩ as_demo 2 (Or.inl rfl) rfl rfl (by decide) (by decide) (by decide)
      (Or.inl ⟨by decide, 2, by decide, by decide⟩)⟩

/-- C11: the fault counters (unbounded integers, so without overflow). Every
call of `vm_fault`, whatever its outcome, adds exactly 1 to the total and
decreases neither the free-slot nor the replacement counter; a call that
returns 0 adds exactly 1 to exactly one of the two and leaves the other
unchanged: to the free-slot counter when some slot of the TLB had `VALID` clear
at install time, to the replacement counter when all `NUM_TLB` slots were
valid. Hence free-slot + replacement <= total in every reachable state. -/
theorem fault_counters :
    (∀ (env : Env) (faulttype : Int) (faultaddress : Nat) (s : VmState),
      (vm_fault env faulttype faultaddress s).state.count_tlb_miss
        = s.count_tlb_miss + 1 ∧
      s.count_tlb_miss_free
        ≤ (vm_fault env faulttype faultaddress s).state.count_tlb_miss_free ∧
      s.count_tlb_miss_replace
        ≤ (vm_fault env faulttype faultaddress s).state.count_tlb_miss_replace ∧
      ((vm_fault env faulttype faultaddress s).val? = some 0 →
        ((∃ i, i < NUM_TLB ∧ ¬ entry_valid (tlb_at_install env s faultaddress i)) ∧
          (vm_fault env faulttype faultaddress s).state.count_tlb_miss_free
            = s.count_tlb_miss_free + 1 ∧
          (vm_fault env faulttype faultaddress s).state.count_tlb_miss_replace
            = s.count_tlb_miss_replace) ∨
        ((∀ i, i < NUM_TLB → entry_valid (tlb_at_install env s faultaddress i)) ∧
          (vm_fault env faulttype faultaddress s).state.count_tlb_miss_free
            = s.count_tlb_miss_free ∧
          (vm_fault env faulttype faultaddress s).state.count_tlb_miss_replace
            = s.count_tlb_miss_replace + 1))) ∧
    (∀ s : VmState, Reachable s →
      s.count_tlb_miss_free + s.count_tlb_miss_replace ≤ s.count_tlb_miss) := by
  constructor
  · intro env faulttype faultaddress s
    obtain ⟨hm, hc⟩ := vm_fault_counter_step env faulttype faultaddress s
    refine ⟨hm, ?_, ?_, ?_⟩
    · rcases hc with ⟨h1, -, -⟩ | ⟨-, h1, -⟩ | ⟨-, h1, -⟩ <;> omega
    · rcases hc with ⟨-, h2, -⟩ | ⟨-, -, h2⟩ | ⟨-, -, h2⟩ <;> omega
    · intro hv
      rcases hc with ⟨-, -, h3⟩ | ⟨h0, h1, h2⟩ | ⟨h0, h1, h2⟩
      · exact absurd hv h3
      · exact Or.inl ⟨(scan_slot_ne_none_iff _).mp h0, h1, h2⟩
      · refine Or.inr ⟨fun i hi => ?_, h1, h2⟩
        exact scan_slot_none _ NUM_TLB 0 h0 i (Nat.zero_le i) (by omega)
  · intro s hs
    induction hs with
    | init s h0 h1 h2 => omega
    | fault env faulttype faultaddress s _ ih =>
      obtain ⟨hm, hc⟩ := vm_fault_counter_step env faulttype faultaddress s
      rcases hc with ⟨h1, h2, -⟩ | ⟨-, h1, h2⟩ | ⟨-, h1, h2⟩ <;> omega

/-- C11 (witness): the state after a first read fault at the data page
`0x10001004` of `as_demo`, taken in the boot state, is reachable and its
counters are 1 (total), 1 (free slot) and 0 (replacement). -/
theorem fault_counters_witness :
    Reachable (vm_fault (env_of as_demo) VM_FAULT_READ 0x10001004 boot_state).state ∧
    (vm_fault (env_of as_demo) VM_FAULT_READ 0x10001004 boot_state).state.count_tlb_miss
      = 1 ∧
    (vm_fault (env_of as_demo) VM_FAULT_READ 0x10001004 boot_state).state.count_tlb_miss_free
      = 1 ∧
    (vm_fault (env_of as_demo) VM_FAULT_READ 0x10001004
      boot_state).state.count_tlb_miss_replace = 0 ∧
    (vm_fault (env_of as_demo) VM_FAULT_READ 0x10001004 boot_state).state.count_tlb_miss_free
      + (vm_fault (env_of as_demo) VM_FAULT_READ 0x10001004
          boot_state).state.count_tlb_miss_replace
      ≤ (vm_fault (env_of as_demo) VM_FAULT_READ 0x10001004
          boot_state).state.count_tlb_miss :=
  ⟨Reachable.fault _ _ _ _ (Reachable.init boot_state rfl rfl rfl),
    by decide, by decide, by decide,
    fault_counters.2 _ (Reachable.fault _ _ _ _ (Reachable.init boot_state rfl rfl rfl))⟩

/-- C12 (counterexample): two address spaces that pass the assertions. In
`as_overlap` the address `as_vbase2 = 0x401000` also lies in segment 1 and is
classified 1, not 2. In `as_top2` the top of segment 2 is exactly `2^32` and
wraps to 0, so that `as_vbase2 = 0xfffff000` is classified `EFAULT`, not 2. -/
theorem c12_vbase2_not_segment2 :
    as_asserts as_overlap ∧
    address_segment as_overlap.as_vbase2 (some as_overlap) = some 1 ∧
    as_asserts as_top2 ∧
    as_top2.as_vbase2 + as_top2.as_npages2 * PAGE_SIZE = 2 ^ 32 ∧
    address_segment as_top2.as_vbase2 (some as_top2) = some EFAULT := by
  refine ⟨by decide, by decide, by decide, by decide, by decide⟩

/-- C12 (amended): in an address space that passes the assertions and whose
`vtop2 = as_vbase2 + as_npages2 * PAGE_SIZE` is below `2^32`: a fault at
`as_vbase2` is classified 2, unless the address passes the test of segment 1,
`as_vbase1 <= a < vtop1` with `vtop1 = (as_vbase1 + as_npages1 * PAGE_SIZE) mod
2^32` as the code computes it, in which case it is classified 1; a fault at
`vtop2 - 1` is aligned to `vtop2 - PAGE_SIZE` and classified 2, with the same
exception; in particular both are classified 2 when they lie outside
`[as_vbase1, as_vbase1 + as_npages1 * PAGE_SIZE)`; a fault at `vtop2` is not
classified 2. -/
theorem segment2_boundaries (as : Addrspace) (hok : as_asserts as)
    (h2 : as.as_vbase2 + as.as_npages2 * PAGE_SIZE < 2 ^ 32) :
    address_segment as.as_vbase2 (some as)
      = some (if as.as_vbase1 ≤ as.as_vbase2 ∧
            as.as_vbase2 < (as.as_vbase1 + as.as_npages1 * PAGE_SIZE) % 2 ^ 32
          then 1 else 2) ∧
    (¬ (as.as_vbase1 ≤ as.as_vbase2 ∧
        as.as_vbase2 < as.as_vbase1 + as.as_npages1 * PAGE_SIZE) →
      address_segment as.as_vbase2 (some as) = some 2) ∧
    (as.as_vbase2 + as.as_npages2 * PAGE_SIZE - 1) &&& PAGE_FRAME
      = as.as_vbase2 + as.as_npages2 * PAGE_SIZE - PAGE_SIZE ∧
    address_segment ((as.as_vbase2 + as.as_npages2 * PAGE_SIZE - 1) &&& PAGE_FRAME)
        (some as)
      = some (if as.as_vbase1 ≤ as.as_vbase2 + as.as_npages2 * PAGE_SIZE - PAGE_SIZE ∧
            as.as_vbase2 + as.as_npages2 * PAGE_SIZE - PAGE_SIZE
              < (as.as_vbase1 + as.as_npages1 * PAGE_SIZE) % 2 ^ 32
          then 1 else 2) ∧
    (¬ (as.as_vbase1 ≤ as.as_vbase2 + as.as_npages2 * PAGE_SIZE - PAGE_SIZE ∧
        as.as_vbase2 + as.as_npages2 * PAGE_SIZE - PAGE_SIZE
          < as.as_vbase1 + as.as_npages1 * PAGE_SIZE) →
      address_segment ((as.as_vbase2 + as.as_npages2 * PAGE_SIZE - 1) &&& PAGE_FRAME)
        (some as) = some 2) ∧
    address_segment (as.as_vbase2 + as.as_npages2 * PAGE_SIZE) (some as) ≠ some 2 := by
  have hn2 : as.as_npages2 ≠ 0 := hok.2.2.2.1
  have hal2 : as.as_vbase2 &&& PAGE_FRAME = as.as_vbase2 := hok.2.2.2.2.2
  have hn2' : 1 ≤ as.as_npages2 := Nat.one_le_iff_ne_zero.mpr hn2
  have hps : PAGE_SIZE = 4096 := rfl
  have h2' : as.as_vbase2 + as.as_npages2 * 4096 < 2 ^ 32 := by rw [← hps]; exact h2
  have hb : as.as_vbase2 < 2 ^ 32 := by omega
  have hq : as.as_vbase2 = as.as_vbase2 / 4096 * 4096 := by
    rw [← and_page_frame _ hb]; exact hal2.symm
  have halign : (as.as_vbase2 + as.as_npages2 * PAGE_SIZE - 1) &&& PAGE_FRAME
      = as.as_vbase2 + as.as_npages2 * PAGE_SIZE - PAGE_SIZE := by
    rw [hps, and_page_frame _ (by omega)]
    omega
  have a0 := address_segment_in_seg2_exact as as.as_vbase2 hok h2 (le_refl _)
    (by rw [hps]; omega)
  have b0 := address_segment_in_seg2_exact as
    (as.as_vbase2 + as.as_npages2 * PAGE_SIZE - PAGE_SIZE) hok h2
    (by rw [hps]; omega) (by rw [hps]; omega)
  obtain ⟨-, a2⟩ := address_segment_in_seg2 as as.as_vbase2 hok h2 (le_refl _)
    (by rw [hps]; omega)
  obtain ⟨-, b2⟩ := address_segment_in_seg2 as
    (as.as_vbase2 + as.as_npages2 * PAGE_SIZE - PAGE_SIZE) hok h2
    (by rw [hps]; omega) (by rw [hps]; omega)
  refine ⟨a0, a2, halign, ?_, ?_, address_segment_top2 as⟩
  · rw [halign]; exact b0
  · rw [halign]; exact b2

/-- C12 (witness): the boundaries of segment 2 in three address spaces. In
`as_demo` the segments are disjoint: `0x10000000` and the aligned `0x10003000
- 1` are classified 2, and `0x10003000` is not. In `as_overlap` the address
`as_vbase2 = 0x401000` passes the test of segment 1 and is classified 1. In
`as_wrap1` the top of segment 1 wraps, its test matches nothing, and
`as_vbase2` is classified 2. -/
theorem segment2_boundaries_witness :
    as_asserts as_demo ∧
    as_demo.as_vbase2 + as_demo.as_npages2 * PAGE_SIZE < 2 ^ 32 ∧
    address_segment 0x10000000 (some as_demo) = some 2 ∧
    (0x10003000 - 1) &&& PAGE_FRAME = 0x10002000 ∧
    address_segment ((0x10003000 - 1) &&& PAGE_FRAME) (some as_demo) = some 2 ∧
    address_segment (as_demo.as_vbase2 + as_demo.as_npages2 * PAGE_SIZE) (some as_demo)
      ≠ some 2 ∧
    as_asserts as_overlap ∧
    as_overlap.as_vbase2 + as_overlap.as_npages2 * PAGE_SIZE < 2 ^ 32 ∧
    address_segment as_overlap.as_vbase2 (some as_overlap)
      = some (if as_overlap.as_vbase1 ≤ as_overlap.as_vbase2 ∧
            as_overlap.as_vbase2
              < (as_overlap.as_vbase1 + as_overlap.as_npages1 * PAGE_SIZE) % 2 ^ 32
          then 1 else 2) ∧
    (if as_overlap.as_vbase1 ≤ as_overlap.as_vbase2 ∧
          as_overlap.as_vbase2
            < (as_overlap.as_vbase1 + as_overlap.as_npages1 * PAGE_SIZE) % 2 ^ 32
        then (1 : Int) else 2) = 1 ∧
    as_asserts as_wrap1 ∧
    as_wrap1.as_vbase2 + as_wrap1.as_npages2 * PAGE_SIZE < 2 ^ 32 ∧
    address_segment as_wrap1.as_vbase2 (some as_wrap1)
      = some (if as_wrap1.as_vbase1 ≤ as_wrap1.as_vbase2 ∧
            as_wrap1.as_vbase2
              < (as_wrap1.as_vbase1 + as_wrap1.as_npages1 * PAGE_SIZE) % 2 ^ 32
          then 1 else 2) ∧
    (if as_wrap1.as_vbase1 ≤ as_wrap1.as_vbase2 ∧
          as_wrap1.as_vbase2
            < (as_wrap1.as_vbase1 + as_wrap1.as_npages1 * PAGE_SIZE) % 2 ^ 32
        then (1 : Int) else 2) = 2 :=
  ⟨by decide, by decide,
    (segment2_boundaries as_demo (by decide) (by decide)).2.1 (by decide),
    by decide,
    (segment2_boundaries as_demo (by decide) (by decide)).2.2.2.2.1 (by decide),
    (segment2_boundaries as_demo (by decide) (by decide)).2.2.2.2.2,
    by decide, by decide,
    (segment2_boundaries as_overlap (by decide) (by decide)).1, by decide,
    by decide, by decide,
    (segment2_boundaries as_wrap1 (by decide) (by decide)).1, by decide⟩

/-- C13: a READ or WRITE fault on a non-resident page `va` of segment 2 or 3
that returns 0 has written, in some slot `k`, the entry `hi = va`
(page-aligned), `lo = frame | TLBLO_DIRTY | TLBLO_VALID`, where `frame` is the
result of `as_prepare_load(1)` if that is non-zero and the frame of
`get_victim` otherwise; the entry is in the final TLB, all other slots are as
at install time, and `DIRTY` and `VALID` are set whatever the fault type. -/
theorem vm_fault_writable_install (env : Env) (faulttype : Int) (faultaddress : Nat)
    (s : VmState) (proc : Proc) (as : Addrspace) (segment : Int)
    (hft : faulttype = VM_FAULT_READ ∨ faulttype = VM_FAULT_WRITE)
    (hp : env.curproc = some proc) (has : proc.p_addrspace = some as)
    (hseg : address_segment (faultaddress &&& PAGE_FRAME) (some as) = some segment)
    (hne : segment ≠ EFAULT) (h1 : segment ≠ 1)
    (hl : env.ipt_lookup proc.p_pid (faultaddress &&& PAGE_FRAME) = 0)
    (hret : (vm_fault env faulttype faultaddress s).val? = some 0) :
    ∃ k frame,
      frame = (if env.as_prepare_load 1 ≠ 0 then env.as_prepare_load 1
        else env.get_victim.1) ∧
      (vm_fault env faulttype faultaddress s).state.tlb
        = Function.update (tlb_before_install env s.tlb) k
            ⟨faultaddress &&& PAGE_FRAME, frame ||| TLBLO_DIRTY ||| TLBLO_VALID⟩ ∧
      Event.tlb_write (faultaddress &&& PAGE_FRAME)
          (frame ||| TLBLO_DIRTY ||| TLBLO_VALID) k
        ∈ (vm_fault env faulttype faultaddress s).state.trace ∧
      (faultaddress &&& PAGE_FRAME) &&& PAGE_FRAME = faultaddress &&& PAGE_FRAME ∧
      (frame ||| TLBLO_DIRTY ||| TLBLO_VALID) &&& TLBLO_DIRTY ≠ 0 ∧
      (frame ||| TLBLO_DIRTY ||| TLBLO_VALID) &&& TLBLO_VALID ≠ 0 := by
  rw [vm_fault_dispatch env faulttype faultaddress s proc as segment hft hp has hseg hne,
    if_pos hl] at hret ⊢
  obtain ⟨-, htlb, post, htr⟩ := nonresident_writable_final env proc as segment
    (faultaddress &&& PAGE_FRAME) _ h1 hret
  obtain ⟨k, ht, hb, -⟩ := st_mapped_spec env proc.p_pid (faultaddress &&& PAGE_FRAME)
    (({ s with count_tlb_miss := s.count_tlb_miss + 1 }).log
      (.ipt_lookup proc.p_pid (faultaddress &&& PAGE_FRAME)))
  refine ⟨k, frame_of env, frame_of_eq env, ?_, ?_, aligned_idem faultaddress,
    install_lo_dirty _, install_lo_valid _⟩
  · rw [htlb, hb]; rfl
  · rw [htr, ht]
    simp [install_lo]

/-- C13 (witness): a write fault at `USERSTACK - 4`, a stack page that is
neither resident nor in swap, with frame `0x5000` free; it returns 0. -/
theorem vm_fault_writable_install_witness :
    address_segment (0x7ffffffc &&& PAGE_FRAME) (some as_demo) = some 3 ∧
    (env_of as_demo).ipt_lookup 1 (0x7ffffffc &&& PAGE_FRAME) = 0 ∧
    (vm_fault (env_of as_demo) VM_FAULT_WRITE 0x7ffffffc boot_state).val? = some 0 ∧
    ∃ k frame,
      frame = (if (env_of as_demo).as_prepare_load 1 ≠ 0 then
        (env_of as_demo).as_prepare_load 1 else (env_of as_demo).get_victim.1) ∧
      (vm_fault (env_of as_demo) VM_FAULT_WRITE 0x7ffffffc boot_state).state.tlb
        = Function.update (tlb_before_install (env_of as_demo) boot_state.tlb) k
            ⟨0x7ffffffc &&& PAGE_FRAME, frame ||| TLBLO_DIRTY ||| TLBLO_VALID⟩ ∧
      Event.tlb_write (0x7ffffffc &&& PAGE_FRAME)
          (frame ||| TLBLO_DIRTY ||| TLBLO_VALID) k
        ∈ (vm_fault (env_of as_demo) VM_FAULT_WRITE 0x7ffffffc boot_state).state.trace ∧
      (0x7ffffffc &&& PAGE_FRAME) &&& PAGE_FRAME = 0x7ffffffc &&& PAGE_FRAME ∧
      (frame ||| TLBLO_DIRTY ||| TLBLO_VALID) &&& TLBLO_DIRTY ≠ 0 ∧
      (frame ||| TLBLO_DIRTY ||| TLBLO_VALID) &&& TLBLO_VALID ≠ 0 :=
  ⟨by decide, by decide, by decide,
    vm_fault_writable_install (env_of as_demo) VM_FAULT_WRITE 0x7ffffffc boot_state
      ⟨1, some as_demo⟩ as_demo 3 (Or.inr rfl) rfl rfl (by decide) (by decide) (by decide)
      (by decide) (by decide)⟩

/-- C16: from a state whose cursor is 0 (its initial value), call number
`n + 1` of `tlb_get_rr_victim` returns `n mod NUM_TLB`, which is below
`NUM_TLB`; the stored cursor stays below `NUM_TLB`; and among any `NUM_TLB`
consecutive calls (numbers `m + 1` to `m + NUM_TLB`) every TLB index `j` is
returned by exactly one. -/
theorem rr_victim_cycle (s : VmState) (h : s.next_victim = 0) :
    (∀ n, rr_result n s = n % NUM_TLB) ∧
    (∀ n, rr_result n s < NUM_TLB) ∧
    (∀ n, (rr_calls n s).next_victim < NUM_TLB) ∧
    (∀ m j, j < NUM_TLB → ∃! i, i < NUM_TLB ∧ rr_result (m + i) s = j) := by
  have hres : ∀ n, rr_result n s = n % NUM_TLB := fun n => by
    simp only [rr_result, tlb_get_rr_victim]
    exact rr_calls_cursor s h n
  refine ⟨hres, fun n => ?_, fun n => ?_, fun m j hj => ?_⟩
  · rw [hres]; exact Nat.mod_lt _ (by decide)
  · rw [rr_calls_cursor s h]; exact Nat.mod_lt _ (by decide)
  · simp only [NUM_TLB] at hj
    refine ⟨(j + 64 - m % 64) % 64, ⟨?_, ?_⟩, ?_⟩
    · simp only [NUM_TLB]; omega
    · rw [hres]; simp only [NUM_TLB]; omega
    · rintro i ⟨hi, hr⟩
      rw [hres] at hr
      simp only [NUM_TLB] at hi hr
      omega

/-- C16 (witness): in the boot state the cursor is 0; the 66th call returns 1
and, among the calls 4 to 67, exactly one returns slot 2. -/
theorem rr_victim_cycle_witness :
    boot_state.next_victim = 0 ∧
    rr_result 65 boot_state = 65 % NUM_TLB ∧
    65 % NUM_TLB = 1 ∧
    ∃! i, i < NUM_TLB ∧ rr_result (3 + i) boot_state = 2 :=
  ⟨rfl, (rr_victim_cycle boot_state rfl).1 65, by decide,
    (rr_victim_cycle boot_state rfl).2.2.2 3 2 (by decide)⟩

/-- C17: `KEYcompare` returns 0 on keys with equal pid and equal address and -1
otherwise, so that comparing equal is reflexive, symmetric and transitive;
`ITEMcheckvoid` returns 1 on an item whose key is the sentinel
`((vaddr_t)-1, -1)` and 0 on any other item; it returns 1 on the item of
`ITEMsetvoid`, and on the item of `ITEMscan(pid, addr, index)` exactly when
`pid = -1` and `addr = (vaddr_t)-1`, whatever the index. -/
theorem item_sentinel :
    (∀ k1 k2 : Key, KEYcompare k1 k2
      = if k1.kpid = k2.kpid ∧ k1.kaddr = k2.kaddr then 0 else -1) ∧
    (∀ k : Key, KEYcompare k k = 0) ∧
    (∀ k1 k2 : Key, KEYcompare k1 k2 = 0 → KEYcompare k2 k1 = 0) ∧
    (∀ k1 k2 k3 : Key, KEYcompare k1 k2 = 0 → KEYcompare k2 k3 = 0 →
      KEYcompare k1 k3 = 0) ∧
    (∀ it : item, ITEMcheckvoid (some it)
      = some (if it.key.kpid = -1 ∧ it.key.kaddr = 2 ^ 32 - 1 then 1 else 0)) ∧
    (∀ fresh : item, (ITEMsetvoid (some fresh)).bind ITEMcheckvoid = some 1) ∧
    (∀ (buf : item) (pid : Int) (addr : Nat) (index : Int),
      (ITEMscan (some buf) pid addr index).bind ITEMcheckvoid = some 1 ↔
        pid = -1 ∧ addr = 2 ^ 32 - 1) := by
  refine ⟨fun k1 k2 => ?_, fun k => ?_, fun k1 k2 h => ?_, fun k1 k2 k3 h1 h2 => ?_,
    fun it => ?_, fun fresh => ?_, fun buf pid addr index => ?_⟩
  · unfold KEYcompare
    by_cases h : k1.kaddr = k2.kaddr ∧ k1.kpid = k2.kpid
    · rw [if_pos h, if_pos ⟨h.2, h.1⟩]
    · rw [if_neg h, if_neg (fun hc => h ⟨hc.2, hc.1⟩)]
  · simp [KEYcompare]
  · unfold KEYcompare at h ⊢
    by_cases hc : k1.kaddr = k2.kaddr ∧ k1.kpid = k2.kpid
    · rw [if_pos ⟨hc.1.symm, hc.2.symm⟩]
    · rw [if_neg hc] at h; exact absurd h (by decide)
  · unfold KEYcompare at h1 h2 ⊢
    by_cases c1 : k1.kaddr = k2.kaddr ∧ k1.kpid = k2.kpid
    · by_cases c2 : k2.kaddr = k3.kaddr ∧ k2.kpid = k3.kpid
      · rw [if_pos ⟨c1.1.trans c2.1, c1.2.trans c2.2⟩]
      · rw [if_neg c2] at h2; exact absurd h2 (by decide)
    · rw [if_neg c1] at h1; exact absurd h1 (by decide)
  · simp only [ITEMcheckvoid, KEYget, KEYcompare_eq_zero, WORD]
    by_cases h : it.key.kaddr = 4294967295 ∧ it.key.kpid = -1
    · simp [h.1, h.2]
    · have h' : ¬ (it.key.kpid = -1 ∧ it.key.kaddr = 4294967295) :=
        fun hc => h ⟨hc.2, hc.1⟩
      simp [h, h']
  · simp [ITEMsetvoid, ITEMcheckvoid, KEYget, KEYcompare]
  · simp only [ITEMscan, Option.some_bind, ITEMcheckvoid, KEYget, KEYcompare_eq_zero, WORD]
    by_cases h : addr = 4294967295 ∧ pid = -1
    · simp [h.1, h.2]
    · have h' : ¬ (pid = -1 ∧ addr = 4294967295) := fun hc => h ⟨hc.2, hc.1⟩
      simp [h, h']

/-- C17 (witness): two equal keys compare equal in both orders. -/
theorem item_sentinel_witness :
    KEYcompare ⟨0x400000, 7⟩ ⟨0x400000, 7⟩ = 0 ∧
    KEYcompare ⟨0x400000, 7⟩ ⟨0x400000, 7⟩ = 0 ∧
    ITEMcheckvoid (some ⟨⟨0x400000, 7⟩, 3⟩) = some 0 :=
  ⟨by decide, item_sentinel.2.2.1 ⟨0x400000, 7⟩ ⟨0x400000, 7⟩ (by decide),
    item_sentinel.2.2.2.2.1 ⟨⟨0x400000, 7⟩, 3⟩⟩

/-- C18: in a non-resident READ or WRITE fault on a page classified into a
segment: if `as_prepare_load` returns 0 and `swap_out` of the victim fails,
`vm_fault` returns -1, the TLB, the round-robin cursor and the free-slot and
replacement counters are unchanged, and the events of the fault are
`ipt_lookup`, `as_prepare_load`, `get_victim`, `pid_getas`, `swap_out` (no
`ipt_add`, `swap_in` or `load_page`); if a frame is obtained and `ipt_add`
fails, `vm_fault` returns -1 after the events of the frame acquisition and
`ipt_add`: the cursor and the two counters are unchanged, the TLB is as the
acquisition left it, and the only TLB write there can be is the invalidation of
the victim's slot, so that no entry is installed for the faulting address. -/
theorem vm_fault_eviction_failure (env : Env) (faulttype : Int) (faultaddress : Nat)
    (s : VmState) (proc : Proc) (as : Addrspace) (segment : Int)
    (hft : faulttype = VM_FAULT_READ ∨ faulttype = VM_FAULT_WRITE)
    (hp : env.curproc = some proc) (has : proc.p_addrspace = some as)
    (hseg : address_segment (faultaddress &&& PAGE_FRAME) (some as) = some segment)
    (hne : segment ≠ EFAULT)
    (hl : env.ipt_lookup proc.p_pid (faultaddress &&& PAGE_FRAME) = 0) :
    (∀ vs, env.as_prepare_load 1 = 0 → victim_segment env = some vs →
      env.swap_out env.get_victim.2.1 vs ≠ 0 →
      (vm_fault env faulttype faultaddress s).val? = some (-1) ∧
      (vm_fault env faulttype faultaddress s).state.tlb = s.tlb ∧
      (vm_fault env faulttype faultaddress s).state.next_victim = s.next_victim ∧
      (vm_fault env faulttype faultaddress s).state.count_tlb_miss_free
        = s.count_tlb_miss_free ∧
      (vm_fault env faulttype faultaddress s).state.count_tlb_miss_replace
        = s.count_tlb_miss_replace ∧
      (vm_fault env faulttype faultaddress s).state.trace
        = s.trace ++ [Event.ipt_lookup proc.p_pid (faultaddress &&& PAGE_FRAME),
            Event.as_prepare_load 1, Event.get_victim, Event.pid_getas env.get_victim.2.2,
            Event.swap_out env.get_victim.2.1 vs]) ∧
    (frame_ready env →
      env.ipt_add proc.p_pid (frame_of env) (faultaddress &&& PAGE_FRAME) ≠ 0 →
      (vm_fault env faulttype faultaddress s).val? = some (-1) ∧
      (vm_fault env faulttype faultaddress s).state.tlb = tlb_before_install env s.tlb ∧
      (vm_fault env faulttype faultaddress s).state.next_victim = s.next_victim ∧
      (vm_fault env faulttype faultaddress s).state.count_tlb_miss_free
        = s.count_tlb_miss_free ∧
      (vm_fault env faulttype faultaddress s).state.count_tlb_miss_replace
        = s.count_tlb_miss_replace ∧
      (vm_fault env faulttype faultaddress s).state.trace
        = s.trace ++ [Event.ipt_lookup proc.p_pid (faultaddress &&& PAGE_FRAME)] ++
            frame_events env s.tlb s.ipl ++
            [Event.ipt_add proc.p_pid (frame_of env) (faultaddress &&& PAGE_FRAME)] ∧
      (∀ hi lo i, Event.tlb_write hi lo i ∈ frame_events env s.tlb s.ipl →
        hi = TLBHI_INVALID i ∧ lo = TLBLO_INVALID)) := by
  rw [vm_fault_dispatch env faulttype faultaddress s proc as segment hft hp has hseg hne,
    if_pos hl]
  constructor
  · intro vs h0 hvs hso
    rw [nonresident_frame_none env proc as segment _ _ _
      (get_frame_swap_out_fails env _ vs h0 hvs hso)]
    refine ⟨rfl, rfl, rfl, rfl, rfl, ?_⟩
    simp [Res.state, VmState.log]
  · intro hfr hadd
    rw [nonresident_map_none env proc as segment _ _ _ _ _ (get_frame_ready env _ hfr)
      (map_page_ipt_add_fails env proc.p_pid _ _ _ hadd)]
    refine ⟨rfl, rfl, rfl, rfl, rfl, ?_, fun hi lo i h => frame_events_writes env _ _ hi lo i h⟩
    simp [Res.state, VmState.log, st_frame]

/-- C18 (witness): a read fault at `0x10000010` with no free frame and a full
swap file: `swap_out` of the victim page `0x10002000` (segment 2) fails. -/
theorem vm_fault_eviction_failure_witness :
    address_segment (0x10000010 &&& PAGE_FRAME) (some as_demo) = some 2 ∧
    (env_swapfull as_demo).ipt_lookup 1 (0x10000010 &&& PAGE_FRAME) = 0 ∧
    (env_swapfull as_demo).as_prepare_load 1 = 0 ∧
    victim_segment (env_swapfull as_demo) = some 2 ∧
    (env_swapfull as_demo).swap_out (env_swapfull as_demo).get_victim.2.1 2 ≠ 0 ∧
    (vm_fault (env_swapfull as_demo) VM_FAULT_READ 0x10000010 boot_state).val? = some (-1) ∧
    (vm_fault (env_swapfull as_demo) VM_FAULT_READ 0x10000010 boot_state).state.tlb
      = boot_state.tlb ∧
    (vm_fault (env_swapfull as_demo) VM_FAULT_READ 0x10000010 boot_state).state.next_victim
      = boot_state.next_victim ∧
    (vm_fault (env_swapfull as_demo) VM_FAULT_READ 0x10000010
      boot_state).state.count_tlb_miss_free = boot_state.count_tlb_miss_free ∧
    (vm_fault (env_swapfull as_demo) VM_FAULT_READ 0x10000010
      boot_state).state.count_tlb_miss_replace = boot_state.count_tlb_miss_replace ∧
    (vm_fault (env_swapfull as_demo) VM_FAULT_READ 0x10000010 boot_state).state.trace
      = boot_state.trace ++ [Event.ipt_lookup 1 (0x10000010 &&& PAGE_FRAME),
          Event.as_prepare_load 1, Event.get_victim,
          Event.pid_getas (env_swapfull as_demo).get_victim.2.2,
          Event.swap_out (env_swapfull as_demo).get_victim.2.1 2] :=
  ⟨by decide, by decide, by decide, by decide, by decide,
    (vm_fault_eviction_failure (env_swapfull as_demo) VM_FAULT_READ 0x10000010 boot_state
      ⟨1, some as_demo⟩ as_demo 2 (Or.inl rfl) rfl rfl (by decide) (by decide)
      (by decide)).1 2 (by decide) (by decide) (by decide)⟩

/-- C14: the order of the events of one non-resident READ or WRITE fault on a
page `va` classified into a segment. The events are `ipt_lookup`, then the
events of frame acquisition, then, if a frame is obtained, `ipt_add`, then, if
`ipt_add` succeeds and the frame is aligned, the install (`splhigh`, the reads
of the scan, the `tlb_write` of the new entry, `splx`), then the filling of the
page. When `as_prepare_load` returns 0 and the eviction succeeds, the
acquisition is `as_prepare_load`, `get_victim`, `pid_getas`, `swap_out`,
`splhigh`, `tlb_probe`, the invalidating `tlb_write` if the probe finds the
victim's entry, `splx`: all before `ipt_add`. The filling is, for segments 1
and 2, the zero fill, the page source (`swap_in`, `load_page`) and, for a code
page whose load succeeded, the rewrite of the entry (`splhigh`, `tlb_probe`,
`tlb_write`, `splx`), which therefore follows `load_page`; for the stack,
`swap_in` and then the zero fill if not found. -/
theorem vm_fault_order (env : Env) (faulttype : Int) (faultaddress : Nat)
    (s : VmState) (proc : Proc) (as : Addrspace) (segment : Int)
    (hft : faulttype = VM_FAULT_READ ∨ faulttype = VM_FAULT_WRITE)
    (hp : env.curproc = some proc) (has : proc.p_addrspace = some as)
    (hseg : address_segment (faultaddress &&& PAGE_FRAME) (some as) = some segment)
    (hne : segment ≠ EFAULT)
    (hl : env.ipt_lookup proc.p_pid (faultaddress &&& PAGE_FRAME) = 0) :
    ∃ rest,
      (vm_fault env faulttype faultaddress s).state.trace
        = s.trace ++ Event.ipt_lookup proc.p_pid (faultaddress &&& PAGE_FRAME) ::
            acquire_events env s.tlb s.ipl ++ rest ∧
      (∀ e ∈ acquire_events env s.tlb s.ipl, e.evicting = true) ∧
      (∀ vs, env.as_prepare_load 1 = 0 → victim_segment env = some vs →
        env.swap_out env.get_victim.2.1 vs = 0 →
        acquire_events env s.tlb s.ipl
          = [Event.as_prepare_load 1, Event.get_victim, Event.pid_getas env.get_victim.2.2,
              Event.swap_out env.get_victim.2.1 vs, Event.splhigh,
              Event.tlb_probe env.get_victim.2.1] ++
            (match tlb_find s.tlb env.get_victim.2.1 with
             | some i => [Event.tlb_write (TLBHI_INVALID i) TLBLO_INVALID i]
             | none => []) ++
            [Event.splx s.ipl]) ∧
      (¬ frame_ready env → rest = []) ∧
      (frame_ready env → ¬ install_reached env proc.p_pid (faultaddress &&& PAGE_FRAME) →
        rest = [Event.ipt_add proc.p_pid (frame_of env) (faultaddress &&& PAGE_FRAME)]) ∧
      (install_reached env proc.p_pid (faultaddress &&& PAGE_FRAME) →
        ∃ k fill,
          rest = [Event.ipt_add proc.p_pid (frame_of env) (faultaddress &&& PAGE_FRAME),
                  Event.splhigh] ++
            scan_reads (tlb_before_install env s.tlb) NUM_TLB 0 ++
            [Event.tlb_write (faultaddress &&& PAGE_FRAME)
                (frame_of env ||| TLBLO_DIRTY ||| TLBLO_VALID) k,
              Event.splx s.ipl] ++ fill ∧
          (segment = 1 ∨ segment = 2 →
            fill = Event.zero_fill (faultaddress &&& PAGE_FRAME) PAGE_SIZE ::
              load_events env as segment (faultaddress &&& PAGE_FRAME) ++
              (if segment = 1 ∧ ¬ load_failed env as segment (faultaddress &&& PAGE_FRAME)
               then
                [Event.splhigh, Event.tlb_probe (faultaddress &&& PAGE_FRAME)] ++
                (match tlb_find
                    (Function.update (tlb_before_install env s.tlb) k
                      ⟨faultaddress &&& PAGE_FRAME,
                        frame_of env ||| TLBLO_DIRTY ||| TLBLO_VALID⟩)
                    (faultaddress &&& PAGE_FRAME) with
                 | some p =>
                   [Event.tlb_write (faultaddress &&& PAGE_FRAME)
                      ((frame_of env ||| TLBLO_DIRTY ||| TLBLO_VALID) &&& lnot TLBLO_DIRTY) p,
                    Event.splx s.ipl]
                 | none => [])
               else [])) ∧
          (segment ≠ 1 → segment ≠ 2 →
            fill = if env.swap_in (faultaddress &&& PAGE_FRAME) ≠ 0 then
                [Event.swap_in (faultaddress &&& PAGE_FRAME),
                  Event.zero_fill (faultaddress &&& PAGE_FRAME) PAGE_SIZE]
              else [Event.swap_in (faultaddress &&& PAGE_FRAME)])) := by
  rw [vm_fault_dispatch env faulttype faultaddress s proc as segment hft hp has hseg hne,
    if_pos hl]
  have hev : ∀ vs, env.as_prepare_load 1 = 0 → victim_segment env = some vs →
      env.swap_out env.get_victim.2.1 vs = 0 →
      acquire_events env s.tlb s.ipl
        = [Event.as_prepare_load 1, Event.get_victim, Event.pid_getas env.get_victim.2.2,
            Event.swap_out env.get_victim.2.1 vs, Event.splhigh,
            Event.tlb_probe env.get_victim.2.1] ++
          (match tlb_find s.tlb env.get_victim.2.1 with
           | some i => [Event.tlb_write (TLBHI_INVALID i) TLBLO_INVALID i]
           | none => []) ++
          [Event.splx s.ipl] := by
    intro vs h0 hvs hso
    rw [← frame_events_eviction env s.tlb s.ipl h0 vs hvs]
    simp [acquire_events, h0, hvs, hso]
  by_cases hfr : frame_ready env
  · by_cases hreach : install_reached env proc.p_pid (faultaddress &&& PAGE_FRAME)
    · obtain ⟨ht, -, -⟩ := nonresident_installed env proc as segment
        (faultaddress &&& PAGE_FRAME)
        (({ s with count_tlb_miss := s.count_tlb_miss + 1 }).log
          (.ipt_lookup proc.p_pid (faultaddress &&& PAGE_FRAME))) hreach
      obtain ⟨k, hmt, hmb, hmi, -⟩ := st_mapped_spec env proc.p_pid
        (faultaddress &&& PAGE_FRAME)
        (({ s with count_tlb_miss := s.count_tlb_miss + 1 }).log
          (.ipt_lookup proc.p_pid (faultaddress &&& PAGE_FRAME)))
      refine ⟨_, ?_, acquire_events_evicting env s.tlb s.ipl, hev,
        fun hc => absurd hfr hc, fun _ hc => absurd hreach hc,
        fun _ => ⟨k, fill_events env as segment (faultaddress &&& PAGE_FRAME)
          (Function.update (tlb_before_install env s.tlb) k
            ⟨faultaddress &&& PAGE_FRAME, frame_of env ||| TLBLO_DIRTY ||| TLBLO_VALID⟩)
          s.ipl, rfl, ?_, ?_⟩⟩
      · rw [ht, hmt, hmb, hmi, acquire_events_ready env s.tlb s.ipl hfr]
        simp [VmState.log, install_lo]
      · intro h12
        simp only [fill_events, if_pos h12, rewrite_events, install_lo]
      · intro h1 h2
        have h12 : ¬ (segment = 1 ∨ segment = 2) := by
          rintro (h | h)
          · exact h1 h
          · exact h2 h
        simp only [fill_events, if_neg h12]
    · obtain ⟨ht, -⟩ := nonresident_no_install env proc as segment
        (faultaddress &&& PAGE_FRAME)
        (({ s with count_tlb_miss := s.count_tlb_miss + 1 }).log
          (.ipt_lookup proc.p_pid (faultaddress &&& PAGE_FRAME))) hfr hreach
      refine ⟨[Event.ipt_add proc.p_pid (frame_of env) (faultaddress &&& PAGE_FRAME)], ?_,
        acquire_events_evicting env s.tlb s.ipl, hev, fun hc => absurd hfr hc,
        fun _ _ => rfl, fun hc => absurd hc hreach⟩
      rw [ht, acquire_events_ready env s.tlb s.ipl hfr]
      simp [VmState.log]
  · obtain ⟨ht, -⟩ := nonresident_no_frame env proc as segment
      (faultaddress &&& PAGE_FRAME)
      (({ s with count_tlb_miss := s.count_tlb_miss + 1 }).log
        (.ipt_lookup proc.p_pid (faultaddress &&& PAGE_FRAME))) hfr
    refine ⟨[], ?_, acquire_events_evicting env s.tlb s.ipl, hev, fun _ => rfl,
      fun hc => absurd hc hfr, fun hc => absurd hc.1 hfr⟩
    rw [ht]
    simp [VmState.log]

/-- C14 (witness): a read fault at `0x400100`, a code page of `as_demo`, with no
free frame; the victim, page `0x10002000`, is mapped by slot 0 of the TLB. The
events are the lookup, the eviction with the invalidation of slot 0, `ipt_add`
for the reused frame `0x7000`, the install, the zero fill, `load_page`, and
last the rewrite of the entry. -/
theorem vm_fault_order_witness :
    address_segment (0x400100 &&& PAGE_FRAME) (some as_demo) = some 1 ∧
    (env_evict as_demo).ipt_lookup 1 (0x400100 &&& PAGE_FRAME) = 0 ∧
    (env_evict as_demo).as_prepare_load 1 = 0 ∧
    (vm_fault (env_evict as_demo) VM_FAULT_READ 0x400100 state_victim_mapped).state.trace
      = [Event.ipt_lookup 1 0x400000, Event.as_prepare_load 1, Event.get_victim,
         Event.pid_getas 1, Event.swap_out 0x10002000 2, Event.splhigh,
         Event.tlb_probe 0x10002000, Event.tlb_write 0x80000000 0 0, Event.splx 0,
         Event.ipt_add 1 0x7000 0x400000, Event.splhigh, Event.tlb_read 0,
         Event.tlb_write 0x400000 0x7600 0, Event.splx 0,
         Event.zero_fill 0x400000 4096, Event.load_page 0 0x400000 1,
         Event.splhigh, Event.tlb_probe 0x400000, Event.tlb_write 0x400000 0 0,
         Event.splx 0] ∧
    ∃ rest,
      (vm_fault (env_evict as_demo) VM_FAULT_READ 0x400100 state_victim_mapped).state.trace
        = state_victim_mapped.trace ++ Event.ipt_lookup 1 (0x400100 &&& PAGE_FRAME) ::
            acquire_events (env_evict as_demo) state_victim_mapped.tlb
              state_victim_mapped.ipl ++ rest ∧
      (∀ e ∈ acquire_events (env_evict as_demo) state_victim_mapped.tlb
          state_victim_mapped.ipl, e.evicting = true) :=
  ⟨by decide, by decide, by decide, by decide,
    (vm_fault_order (env_evict as_demo) VM_FAULT_READ 0x400100 state_victim_mapped
      ⟨1, some as_demo⟩ as_demo 1 (Or.inl rfl) rfl rfl (by decide) (by decide)
      (by decide)).imp (fun _ h => ⟨h.1, h.2.1⟩)⟩

/-- C15: with `spl_run` following the nesting of `splhigh` and `splx` along the
events of one call of `vm_fault` (any fault type, any state): every `tlb_read`,
`tlb_write` and `tlb_probe` of the call occurs at a depth of at least 1, that
is between a `splhigh` and the `splx` that matches it; and whenever the call
returns (0, `EINVAL`, `EFAULT` or -1) the depth is back to 0, every `splhigh`
having been matched by exactly one `splx`, and the interrupt priority level
equals its value at entry. -/
theorem vm_fault_spl_discipline (env : Env) (faulttype : Int) (faultaddress : Nat)
    (s : VmState) :
    ∃ evs d,
      (vm_fault env faulttype faultaddress s).state.trace = s.trace ++ evs ∧
      spl_run 0 evs = some d ∧
      ((vm_fault env faulttype faultaddress s).val? ≠ none →
        d = 0 ∧ (vm_fault env faulttype faultaddress s).state.ipl = s.ipl) := by
  rcases vm_fault_early_or_dispatch env faulttype faultaddress s with
    h | ⟨v, -, h⟩ | h | ⟨proc, as, segment, hft, hp, has, hseg, hne⟩
  · rw [h]
    exact ⟨[Event.sys__exit (-1)], 0, rfl, rfl, fun hv => absurd rfl hv⟩
  · rw [h]
    exact ⟨[], 0, by simp [Res.state], rfl, fun _ => ⟨rfl, rfl⟩⟩
  · rw [h]
    exact ⟨[], 0, by simp [Res.state], rfl, fun _ => ⟨rfl, rfl⟩⟩
  · rw [vm_fault_dispatch env faulttype faultaddress s proc as segment hft hp has hseg hne]
    by_cases hl : env.ipt_lookup proc.p_pid (faultaddress &&& PAGE_FRAME) = 0
    · rw [if_pos hl]
      by_cases hfr : frame_ready env
      · by_cases hreach : install_reached env proc.p_pid (faultaddress &&& PAGE_FRAME)
        · obtain ⟨ht, hip, -⟩ := nonresident_installed env proc as segment
            (faultaddress &&& PAGE_FRAME)
            (({ s with count_tlb_miss := s.count_tlb_miss + 1 }).log
              (.ipt_lookup proc.p_pid (faultaddress &&& PAGE_FRAME))) hreach
          obtain ⟨k, hmt, -, hmi, -⟩ := st_mapped_spec env proc.p_pid
            (faultaddress &&& PAGE_FRAME)
            (({ s with count_tlb_miss := s.count_tlb_miss + 1 }).log
              (.ipt_lookup proc.p_pid (faultaddress &&& PAGE_FRAME)))
          refine ⟨Event.ipt_lookup proc.p_pid (faultaddress &&& PAGE_FRAME) ::
            (acquire_events env s.tlb s.ipl ++
              (Event.ipt_add proc.p_pid (frame_of env) (faultaddress &&& PAGE_FRAME) ::
                ([Event.splhigh] ++ scan_reads (tlb_before_install env s.tlb) NUM_TLB 0 ++
                  [Event.tlb_write (faultaddress &&& PAGE_FRAME)
                    (install_lo (frame_of env)) k, Event.splx s.ipl] ++
                  fill_events env as segment (faultaddress &&& PAGE_FRAME)
                    (st_mapped env proc.p_pid (faultaddress &&& PAGE_FRAME)
                      (({ s with count_tlb_miss := s.count_tlb_miss + 1 }).log
                        (.ipt_lookup proc.p_pid (faultaddress &&& PAGE_FRAME)))).tlb
                    s.ipl))),
            (if (segment = 1 ∧
                ¬ load_failed env as segment (faultaddress &&& PAGE_FRAME)) ∧
                tlb_find (st_mapped env proc.p_pid (faultaddress &&& PAGE_FRAME)
                  (({ s with count_tlb_miss := s.count_tlb_miss + 1 }).log
                    (.ipt_lookup proc.p_pid (faultaddress &&& PAGE_FRAME)))).tlb
                  (faultaddress &&& PAGE_FRAME) = none then 1 else 0), ?_, ?_, ?_⟩
          · rw [ht, hmt, hmi, acquire_events_ready env s.tlb s.ipl hfr]
            simp [VmState.log]
          · rw [spl_run_cons]
            simp only [spl_step]
            rw [spl_run_append, spl_run_acquire]
            simp only []
            rw [spl_run_cons]
            simp only [spl_step]
            rw [spl_run_install, spl_run_fill]
          · intro hv
            refine ⟨?_, ?_⟩
            · by_contra hd
              have hc : (segment = 1 ∧
                  ¬ load_failed env as segment (faultaddress &&& PAGE_FRAME)) ∧
                  tlb_find (st_mapped env proc.p_pid (faultaddress &&& PAGE_FRAME)
                    (({ s with count_tlb_miss := s.count_tlb_miss + 1 }).log
                      (.ipt_lookup proc.p_pid (faultaddress &&& PAGE_FRAME)))).tlb
                    (faultaddress &&& PAGE_FRAME) = none := by
                by_contra hn
                rw [if_neg hn] at hd
                exact hd rfl
              exact hv (nonresident_rewrite_panics env proc as segment _ _ hreach hc.1 hc.2)
            · rw [hip hv, hmi]; rfl
        · obtain ⟨ht, hip, hv, -⟩ := nonresident_no_install env proc as segment
            (faultaddress &&& PAGE_FRAME)
            (({ s with count_tlb_miss := s.count_tlb_miss + 1 }).log
              (.ipt_lookup proc.p_pid (faultaddress &&& PAGE_FRAME))) hfr hreach
          refine ⟨Event.ipt_lookup proc.p_pid (faultaddress &&& PAGE_FRAME) ::
            (acquire_events env s.tlb s.ipl ++
              [Event.ipt_add proc.p_pid (frame_of env) (faultaddress &&& PAGE_FRAME)]),
            0, ?_, ?_, fun _ => ⟨rfl, by rw [hip]; rfl⟩⟩
          · rw [ht, acquire_events_ready env s.tlb s.ipl hfr]
            simp [VmState.log]
          · rw [spl_run_cons]
            simp only [spl_step]
            rw [spl_run_append, spl_run_acquire]
            rfl
      · obtain ⟨ht, hip, hv, -⟩ := nonresident_no_frame env proc as segment
          (faultaddress &&& PAGE_FRAME)
          (({ s with count_tlb_miss := s.count_tlb_miss + 1 }).log
            (.ipt_lookup proc.p_pid (faultaddress &&& PAGE_FRAME))) hfr
        refine ⟨Event.ipt_lookup proc.p_pid (faultaddress &&& PAGE_FRAME) ::
          acquire_events env s.tlb s.ipl, 0, ?_, ?_, fun _ => ⟨rfl, by rw [hip]; rfl⟩⟩
        · rw [ht]; simp [VmState.log]
        · rw [spl_run_cons]
          simp only [spl_step]
          exact spl_run_acquire env s.tlb s.ipl 0
    · rw [if_neg hl]
      by_cases hal : env.ipt_lookup proc.p_pid (faultaddress &&& PAGE_FRAME) &&& PAGE_FRAME
          = env.ipt_lookup proc.p_pid (faultaddress &&& PAGE_FRAME)
      · obtain ⟨k, ht, -, hi, -⟩ := tlb_install_spec (faultaddress &&& PAGE_FRAME)
          (env.ipt_lookup proc.p_pid (faultaddress &&& PAGE_FRAME)) s.ipl
          (splhigh (({ s with count_tlb_miss := s.count_tlb_miss + 1 }).log
            (.ipt_lookup proc.p_pid (faultaddress &&& PAGE_FRAME)))).2
        simp only [fault_resident, hal, ne_eq, not_true_eq_false, if_false, Res.state]
        refine ⟨Event.ipt_lookup proc.p_pid (faultaddress &&& PAGE_FRAME) ::
          ([Event.splhigh] ++ scan_reads s.tlb NUM_TLB 0 ++
            [Event.tlb_write (faultaddress &&& PAGE_FRAME)
              (install_lo (env.ipt_lookup proc.p_pid (faultaddress &&& PAGE_FRAME))) k,
              Event.splx s.ipl] ++ []), 0, ?_, ?_, fun _ => ⟨rfl, ?_⟩⟩
        · simpa [splhigh, VmState.log] using ht
        · rw [spl_run_cons]
          simp only [spl_step]
          rw [spl_run_install]
          rfl
        · simpa [splhigh, VmState.log] using hi
      · simp only [fault_resident, hal, ne_eq, not_false_eq_true, if_true, Res.state]
        exact ⟨[Event.ipt_lookup proc.p_pid (faultaddress &&& PAGE_FRAME)], 0,
          by simp [VmState.log], rfl, fun _ => ⟨rfl, rfl⟩⟩

/-- C15 (witness): the eviction fault at `0x400100` with the victim mapped by
slot 0: it returns 0, so the depth ends at 0 and the level is restored. -/
theorem vm_fault_spl_discipline_witness :
    (vm_fault (env_evict as_demo) VM_FAULT_READ 0x400100 state_victim_mapped).val? ≠ none ∧
    ∃ evs d,
      (vm_fault (env_evict as_demo) VM_FAULT_READ 0x400100 state_victim_mapped).state.trace
        = state_victim_mapped.trace ++ evs ∧
      spl_run 0 evs = some d ∧
      ((vm_fault (env_evict as_demo) VM_FAULT_READ 0x400100 state_victim_mapped).val? ≠ none →
        d = 0 ∧
        (vm_fault (env_evict as_demo) VM_FAULT_READ 0x400100 state_victim_mapped).state.ipl
          = state_victim_mapped.ipl) :=
  ⟨by decide,
    vm_fault_spl_discipline (env_evict as_demo) VM_FAULT_READ 0x400100 state_victim_mapped⟩

end VmTlb
